import Mathlib

/-!
BWY-multi-Fix-NG: quest monitor and dual-path logger

A shallow embedding of `plugin.cpp`.  The global variables of the plugin are the
fields of `World`; every function of the plugin that touches them is a function
`World → World`.  What the game engine answers to the plugin (clock, quest and
item lookups, inventory, UI queue, console) is an explicit `Env` argument.  The
calls the plugin makes to the outside (log lines, notifications, message boxes,
console commands, item removal) are recorded, in order, in the ghost field
`World.trace`.

Conventions.
* `steady_clock` values are integers counting nanoseconds (the clock period of
  the MSVC runtime the plugin is built for); `duration_cast` truncates toward
  zero, which is `Int.tdiv`.
* `int` values are `Int`; the plugin only compares and prints them.
* `RE::FormID` values are `Nat`.
* `g_config` is read-only for the state machine and is passed as `cfg`; the
  functions that write it (`LoadConfiguration`, `ValidatePluginsInINI`) work on
  a `ConfigWorld`, which holds `g_config` and the configuration file.
* `std::stoi` is written out on the characters of its argument; `std::stof` is
  a parameter, since only its result on the default file is ever needed.
-/

namespace BWY

/-! ## Data model -/

/-- Section `quest` of `PluginConfig`, with the defaults of the source. -/
structure QuestConfig where
  enabled : Bool := true
  questEditorID : String := "YW_Quest_MDF"
  questPlugin : String := "YurianaWench.esp"
  triggerStage : Int := 21
  completionStage : Int := 30
  showNotification : Bool := true
deriving DecidableEq

/-- Section `item` of `PluginConfig`. -/
structure ItemConfig where
  enabled : Bool := true
  itemID : String := "625C7C"
  itemPlugin : String := "YurianaWench.esp"
  itemName : String := "Lelyna's Remedy"
  removeOnDetection : Bool := true
  showNotification : Bool := true
deriving DecidableEq

/-- Section `messages` of `PluginConfig`. -/
structure MessagesConfig where
  enabled : Bool := true
  triggerMessage : String :=
    "You must craft Lelyna's Remedy to cure Elora. Check your inventory for the recipe."
  completionMessage : String :=
    "You have crafted the potion and the temple girls are very happy. You have saved Elora!"
  showTriggerMessage : Bool := true
  showCompletionMessage : Bool := true
deriving DecidableEq

/-- The value of a C++ `float`. -/
inductive FloatValue
  | finite (value : Rat)
  | infinity (negative : Bool)
  | nan
deriving DecidableEq

/-- Section `monitoring` of `PluginConfig` (no function of the state machine
reads `maxDetectionDistance`). -/
structure MonitoringConfig where
  enabled : Bool := true
  checkIntervalMs : Int := 1000
  maxDetectionDistance : FloatValue := FloatValue.finite 5000
deriving DecidableEq

/-- Section `notification` of `PluginConfig`. -/
structure NotificationConfig where
  enabled : Bool := true
deriving DecidableEq

/-- The struct `PluginConfig`. -/
structure PluginConfig where
  quest : QuestConfig := {}
  item : ItemConfig := {}
  messages : MessagesConfig := {}
  monitoring : MonitoringConfig := {}
  notification : NotificationConfig := {}
deriving DecidableEq

/-- The struct `CachedFormIDs`. -/
structure CachedFormIDs where
  questFormID : Nat := 0
  itemFormID : Nat := 0
  questResolved : Bool := false
  itemResolved : Bool := false
deriving DecidableEq, Repr

/-- The struct `QuestStateData` (its field `lastCheck` is never read or written). -/
structure QuestStateData where
  questActive : Bool := false
  triggerStageReached : Bool := false
  itemDetected : Bool := false
  completionDone : Bool := false
  currentStage : Int := 0
deriving DecidableEq, Repr

/-- The three log channels. -/
inductive Channel
  | actions
  | quest
  | system
deriving DecidableEq, Repr

/-- What happened inside `ExecuteConsoleCommand`. -/
inductive ConsoleOutcome
  | noFactory
  | noScript
  | ran
  | threw
deriving DecidableEq, Repr

/-- A call of the plugin to the outside world.  `site` is the source line of
the call in `plugin.cpp` that asked for the display. -/
inductive Effect
  | log (ch : Channel) (message : String) (lineNumber : Nat)
  | debugNotification (site : Nat) (text : String)
  | debugMessageBox (site : Nat) (text : String)
  | consoleCommand (command : String) (outcome : ConsoleOutcome)
  | removeItem (formID : Nat) (count : Int)
  | threadStart
deriving DecidableEq, Repr

/-- What the engine knows about a `TESQuest`. -/
structure Quest where
  formID : Nat
  editorID : String
  isRunning : Bool
  currentStageID : Nat

/-- The answers of the game engine during one call into the plugin. -/
structure Env where
  /-- The value of `std::chrono::steady_clock::now()`, in nanoseconds. -/
  steadyNow : Int
  /-- The result of `RE::TESForm::LookupByEditorID<RE::TESQuest>`. -/
  questByEditorID : String → Option Quest
  /-- The result of `RE::TESForm::LookupByID<RE::TESQuest>`. -/
  questByFormID : Nat → Option Quest
  /-- The value returned by `GetFormIDFromPlugin(pluginName, localFormID)`. -/
  formIDFromPlugin : String → String → Nat
  /-- Whether `RE::UIMessageQueue::GetSingleton()` is non-null. -/
  hasMessageQueue : Bool
  /-- The FormID of `RE::PlayerCharacter::GetSingleton()`, when non-null. -/
  player : Option Nat
  /-- Whether `LookupByID(id)` is a form that is a `TESBoundObject`. -/
  isBoundObject : Nat → Bool
  /-- The count of the object in the player's inventory map, when present. -/
  inventoryCount : Nat → Option Int
  /-- Whether `player->RemoveItem` throws. -/
  removeThrows : Bool
  /-- What happens inside `ExecuteConsoleCommand`. -/
  consoleOutcome : ConsoleOutcome
  /-- The text of `g_logPaths.primary`. -/
  primaryLogDir : String
  /-- The text of `g_logPaths.secondary`. -/
  secondaryLogDir : String

/-- The global variables of the plugin that the state machine uses, and the
ghost trace of its calls to the outside. -/
structure World where
  g_questState : QuestStateData := {}
  g_cachedFormIDs : CachedFormIDs := {}
  g_triggerMessageShown : Bool := false
  g_completionMessageShown : Bool := false
  g_potionDetectedMessageShown : Bool := false
  g_potionDetectedTime : Int := 0
  g_waitingForPotionDelay : Bool := false
  g_lastQuestCheck : Int := 0
  g_lastItemCheck : Int := 0
  g_monitoringActive : Bool := false
  g_monitorCycles : Int := 0
  g_monitoringStartTime : Int := 0
  g_initialDelayComplete : Bool := false
  g_isShuttingDown : Bool := false
  g_isInGameTransition : Bool := false
  trace : List Effect := []
deriving DecidableEq, Repr

/-- The progress state of the specification: the four pipeline flags and the
stage snapshot of `g_questState`, the three message-shown flags and the
waiting-for-delay flag. -/
structure Progress where
  questActive : Bool
  triggerStageReached : Bool
  itemDetected : Bool
  completionDone : Bool
  currentStage : Int
  triggerMessageShown : Bool
  completionMessageShown : Bool
  potionDetectedMessageShown : Bool
  waitingForPotionDelay : Bool
deriving DecidableEq, Repr

/-- The progress state held in a `World`. -/
def World.progress (w : World) : Progress :=
  { questActive := w.g_questState.questActive
    triggerStageReached := w.g_questState.triggerStageReached
    itemDetected := w.g_questState.itemDetected
    completionDone := w.g_questState.completionDone
    currentStage := w.g_questState.currentStage
    triggerMessageShown := w.g_triggerMessageShown
    completionMessageShown := w.g_completionMessageShown
    potionDetectedMessageShown := w.g_potionDetectedMessageShown
    waitingForPotionDelay := w.g_waitingForPotionDelay }

/-- The initial values of the progress state: every flag false, stage 0. -/
def Progress.initial : Progress :=
  { questActive := false
    triggerStageReached := false
    itemDetected := false
    completionDone := false
    currentStage := 0
    triggerMessageShown := false
    completionMessageShown := false
    potionDetectedMessageShown := false
    waitingForPotionDelay := false }

/-! ## Helpers of the embedding -/

/-- Record a call to the outside in the trace. -/
def emit (e : Effect) (w : World) : World :=
  { w with trace := w.trace ++ [e] }

/-- The call `WriteToActionsLog(message, __LINE__)`, recorded in the trace. -/
def logActions (message : String) (lineNumber : Nat) (w : World) : World :=
  emit (Effect.log Channel.actions message lineNumber) w

/-- The call `WriteToQuestLog(message, __LINE__)`, recorded in the trace. -/
def logQuest (message : String) (lineNumber : Nat) (w : World) : World :=
  emit (Effect.log Channel.quest message lineNumber) w

/-- The call `WriteToSystemLog(message, __LINE__)`, recorded in the trace. -/
def logSystem (message : String) (lineNumber : Nat) (w : World) : World :=
  emit (Effect.log Channel.system message lineNumber) w

/-- The separator line the plugin writes around its banners. -/
def banner : String := "========================================"

/-- The text `std::hex << std::uppercase` gives for a FormID. -/
def hexUpper (n : Nat) : String :=
  String.mk ((Nat.toDigits 16 n).map Char.toUpper)

/-- Nanoseconds in a millisecond. -/
def nsPerMs : Int := 1000000

/-- Nanoseconds in a second. -/
def nsPerSec : Int := 1000000000

/-- The count of `duration_cast<milliseconds>(now - then)`. -/
def elapsedMs (now before : Int) : Int :=
  Int.tdiv (now - before) nsPerMs

/-- The count of `duration_cast<seconds>(now - then)`. -/
def elapsedSeconds (now before : Int) : Int :=
  Int.tdiv (now - before) nsPerSec

/-! ## The action interface -/

/-- `ShowNotificationMessage`: nothing for an empty text, otherwise
`RE::DebugNotification`. -/
def ShowNotificationMessage (site : Nat) (message : String) (w : World) : World :=
  if message = "" then w else emit (Effect.debugNotification site message) w

/-- `ShowMessageBox`: nothing for an empty text; a notification when the UI
message queue is missing; otherwise `RE::DebugMessageBox`. -/
def ShowMessageBox (env : Env) (site : Nat) (message : String) (w : World) : World :=
  if message = "" then w
  else if !env.hasMessageQueue then ShowNotificationMessage site message w
  else emit (Effect.debugMessageBox site message) w

/-- `ExecuteConsoleCommand`: the call is recorded with its outcome, followed by
the log line of that outcome. -/
def ExecuteConsoleCommand (env : Env) (command : String) (w : World) : World :=
  let w := emit (Effect.consoleCommand command env.consoleOutcome) w
  match env.consoleOutcome with
  | ConsoleOutcome.noFactory => logActions "ERROR: Failed to get Script factory" 441 w
  | ConsoleOutcome.noScript => logActions "ERROR: Failed to create Script object" 447 w
  | ConsoleOutcome.ran => logActions ("Console command executed: " ++ command) 455 w
  | ConsoleOutcome.threw =>
      logActions ("ERROR: Exception executing console command: " ++ command) 457 w

/-- The command text built by `SetQuestStageViaConsole`. -/
def setStageCommand (questEditorID : String) (stage : Int) : String :=
  "setstage " ++ questEditorID ++ " " ++ toString stage

/-- `SetQuestStageViaConsole`: logs the command, runs it, and returns `true`
whatever happened. -/
def SetQuestStageViaConsole (env : Env) (questEditorID : String) (stage : Int)
    (w : World) : Bool × World :=
  let command := setStageCommand questEditorID stage
  let w := logQuest banner 464 w
  let w := logQuest "EXECUTING CONSOLE COMMAND" 465 w
  let w := logQuest ("Command: " ++ command) 466 w
  let w := logQuest banner 467 w
  let w := ExecuteConsoleCommand env command w
  (true, w)

/-- `PlayerHasItem`. -/
def PlayerHasItem (env : Env) (itemFormID : Nat) : Bool :=
  if itemFormID = 0 then false
  else match env.player with
    | none => false
    | some _ =>
      if !env.isBoundObject itemFormID then false
      else match env.inventoryCount itemFormID with
        | some n => decide (0 < n)
        | none => false

/-- `RemoveItemFromPlayer`: the result and the new world. -/
def RemoveItemFromPlayer (env : Env) (itemFormID : Nat) (count : Int)
    (w : World) : Bool × World :=
  if itemFormID = 0 then (false, w)
  else match env.player with
    | none => (false, w)
    | some _ =>
      if !env.isBoundObject itemFormID then (false, w)
      else if env.removeThrows then
        (false, logActions "Exception while removing item from player inventory" 514 w)
      else
        (true, logActions ("Removed " ++ toString count ++ " item(s) from player inventory") 511
          (emit (Effect.removeItem itemFormID count) w))

/-! ## Identifier resolution -/

/-- The first block of `ResolveFormIDs` (source lines 1011 to 1022): the item. -/
def resolveItem (cfg : PluginConfig) (env : Env) (w : World) : World :=
  if cfg.item.enabled && !w.g_cachedFormIDs.itemResolved then
    let id := env.formIDFromPlugin cfg.item.itemPlugin cfg.item.itemID
    let w := { w with g_cachedFormIDs := { w.g_cachedFormIDs with itemFormID := id } }
    if id ≠ 0 then
      logActions ("Item (" ++ cfg.item.itemName ++ ") resolved successfully - FormID: 0x"
          ++ hexUpper id) 1018
        { w with g_cachedFormIDs := { w.g_cachedFormIDs with itemResolved := true } }
    else
      logActions ("WARNING: Item (" ++ cfg.item.itemName ++ ") FormID resolution failed")
        1020 w
  else w

/-- The second block of `ResolveFormIDs` (source lines 1024 to 1036): the quest. -/
def resolveQuest (cfg : PluginConfig) (env : Env) (w : World) : World :=
  if cfg.quest.enabled && !w.g_cachedFormIDs.questResolved then
    match env.questByEditorID cfg.quest.questEditorID with
    | some quest =>
      logQuest ("Quest (" ++ cfg.quest.questEditorID ++ ") resolved successfully - FormID: 0x"
          ++ hexUpper quest.formID) 1032
        { w with g_cachedFormIDs :=
            { w.g_cachedFormIDs with questFormID := quest.formID, questResolved := true } }
    | none =>
      logQuest ("WARNING: Quest (" ++ cfg.quest.questEditorID ++ ") not found") 1034 w
  else w

/-- `ResolveFormIDs`. -/
def ResolveFormIDs (cfg : PluginConfig) (env : Env) (w : World) : World :=
  resolveQuest cfg env (resolveItem cfg env w)

/-! ## The progress state machine -/

/-- The block of `ProcessQuestTrigger` that shows the trigger message (source
lines 1106 to 1110). -/
def showTriggerMessage (cfg : PluginConfig) (env : Env) (w : World) : World :=
  if cfg.messages.enabled && cfg.messages.showTriggerMessage
      && !w.g_triggerMessageShown then
    logActions "Trigger message displayed to player" 1109
      (ShowMessageBox env 1108 cfg.messages.triggerMessage
        { w with g_triggerMessageShown := true })
  else w

/-- The block of `ProcessQuestTrigger` that notifies the stage (source lines
1112 to 1114). -/
def notifyTriggerStage (cfg : PluginConfig) (w : World) : World :=
  if cfg.notification.enabled && cfg.quest.showNotification then
    ShowNotificationMessage 1113
      ("BWY-Fix - Quest stage " ++ toString cfg.quest.triggerStage ++ " reached") w
  else w

/-- `ProcessQuestTrigger`. -/
def ProcessQuestTrigger (cfg : PluginConfig) (env : Env) (w : World) : World :=
  if w.g_questState.triggerStageReached then w
  else
    let w := { w with g_questState := { w.g_questState with triggerStageReached := true } }
    let w := logQuest banner 1100 w
    let w := logQuest "TRIGGER STAGE REACHED" 1101 w
    let w := logQuest ("Quest: " ++ cfg.quest.questEditorID) 1102 w
    let w := logQuest ("Stage: " ++ toString cfg.quest.triggerStage) 1103 w
    let w := logQuest banner 1104 w
    let w := showTriggerMessage cfg env w
    let w := notifyTriggerStage cfg w
    logActions ("Now monitoring player inventory for: " ++ cfg.item.itemName) 1116 w

/-- The text of the notification shown when the item is detected. -/
def potionDetectedText : String :=
  "BWY FIX: Potion detected to cure the priestess. Wait for Yulia to take it."

/-- The block of `ProcessItemDetection` that shows the notification (source
lines 1165 to 1168). -/
def showPotionDetected (w : World) : World :=
  if !w.g_potionDetectedMessageShown then
    ShowNotificationMessage 1167 potionDetectedText
      { w with g_potionDetectedMessageShown := true }
  else w

/-- `ProcessItemDetection`. -/
def ProcessItemDetection (cfg : PluginConfig) (env : Env) (w : World) : World :=
  if w.g_questState.itemDetected then w
  else if w.g_waitingForPotionDelay then w
  else
    let w := { w with
      g_questState := { w.g_questState with itemDetected := true }
      g_waitingForPotionDelay := true
      g_potionDetectedTime := env.steadyNow }
    let w := logActions banner 1156 w
    let w := logActions "ITEM DETECTED IN PLAYER INVENTORY" 1157 w
    let w := logActions ("Item: " ++ cfg.item.itemName) 1158 w
    let w := logActions ("FormID: 0x" ++ hexUpper w.g_cachedFormIDs.itemFormID) 1161 w
    let w := logActions "Waiting 5 seconds before processing..." 1162 w
    let w := logActions banner 1163 w
    showPotionDetected w

/-- The block of `ProcessQuestCompletion` that shows the completion
notification (source lines 1215 to 1219). -/
def showCompletionMessage (cfg : PluginConfig) (w : World) : World :=
  if cfg.messages.enabled && cfg.messages.showCompletionMessage
      && !w.g_completionMessageShown then
    logActions "Completion notification displayed to player" 1218
      (ShowNotificationMessage 1217 cfg.messages.completionMessage
        { w with g_completionMessageShown := true })
  else w

/-- The part of `ProcessQuestCompletion` after its `completionDone` guard
(source lines 1203 to 1225). -/
def ProcessQuestCompletionBody (cfg : PluginConfig) (env : Env) (w : World) : World :=
  let w := logQuest banner 1203 w
  let w := logQuest "PROCESSING QUEST COMPLETION VIA CONSOLE" 1204 w
  let w := logQuest ("Quest: " ++ cfg.quest.questEditorID) 1205 w
  let w := logQuest ("Target Stage: " ++ toString cfg.quest.completionStage) 1206 w
  let w := logQuest banner 1207 w
  let w := (SetQuestStageViaConsole env cfg.quest.questEditorID cfg.quest.completionStage w).2
  let w := { w with g_questState := { w.g_questState with completionDone := true } }
  let w := logQuest "Console command sent successfully" 1213 w
  let w := showCompletionMessage cfg w
  let w := logActions banner 1221 w
  let w := logActions "QUEST FIX COMPLETED SUCCESSFULLY" 1222 w
  let w := logActions ("Quest: " ++ cfg.quest.questEditorID) 1223 w
  let w := logActions ("Final Stage: " ++ toString cfg.quest.completionStage) 1224 w
  logActions banner 1225 w

/-- `ProcessQuestCompletion`: the guard on `completionDone`, then the body. -/
def ProcessQuestCompletion (cfg : PluginConfig) (env : Env) (w : World) : World :=
  if w.g_questState.completionDone then w
  else ProcessQuestCompletionBody cfg env w

/-- The block of `ProcessDelayedQuestCompletion` that removes the item (source
lines 1189 to 1195). -/
def removeDetectedItem (cfg : PluginConfig) (env : Env) (w : World) : World :=
  if cfg.item.removeOnDetection then
    let r := RemoveItemFromPlayer env w.g_cachedFormIDs.itemFormID 1 w
    if r.1 then
      logActions "Item successfully removed from player inventory" 1191 r.2
    else
      logActions "WARNING: Failed to remove item from player inventory" 1193 r.2
  else w

/-- `ProcessDelayedQuestCompletion`. -/
def ProcessDelayedQuestCompletion (cfg : PluginConfig) (env : Env) (w : World) : World :=
  if !w.g_waitingForPotionDelay then w
  else if !w.g_questState.itemDetected then w
  else if w.g_questState.completionDone then w
  else
    let elapsed := elapsedSeconds env.steadyNow w.g_potionDetectedTime
    if elapsed < 5 then w
    else
      let w := { w with g_waitingForPotionDelay := false }
      let w := logActions banner 1185 w
      let w := logActions "5 SECOND DELAY COMPLETE - PROCESSING QUEST" 1186 w
      let w := logActions banner 1187 w
      let w := removeDetectedItem cfg env w
      ProcessQuestCompletion cfg env w

/-- `GetQuestCurrentStage` on a non-null quest. -/
def GetQuestCurrentStage (quest : Quest) : Int :=
  (quest.currentStageID : Int)

/-- The branch of `CheckQuestState` for a quest that is not found (source
lines 1053 to 1059). -/
def questNotFound (cfg : PluginConfig) (w : World) : World :=
  if w.g_questState.questActive then
    let w := logQuest ("Quest no longer accessible: " ++ cfg.quest.questEditorID) 1055 w
    { w with g_questState := { w.g_questState with questActive := false } }
  else w

/-- The block of `CheckQuestState` that activates the quest (source lines 1064
to 1073). -/
def activateQuest (cfg : PluginConfig) (isRunning : Bool) (currentStage : Int)
    (w : World) : World :=
  if !w.g_questState.questActive && isRunning then
    let w := { w with g_questState :=
      { w.g_questState with questActive := true, currentStage := currentStage } }
    let w := logQuest banner 1067 w
    let w := logQuest "QUEST ACTIVATED" 1068 w
    let w := logQuest ("Quest: " ++ cfg.quest.questEditorID) 1069 w
    let w := logQuest ("Current Stage: " ++ toString currentStage) 1070 w
    let w := logQuest ("Trigger Stage: " ++ toString cfg.quest.triggerStage) 1071 w
    logQuest banner 1072 w
  else w

/-- The block of `CheckQuestState` that records a stage change (source lines
1075 to 1079). -/
def recordStageChange (currentStage : Int) (w : World) : World :=
  if w.g_questState.questActive && currentStage != w.g_questState.currentStage then
    let w := logQuest ("Quest stage changed: " ++ toString w.g_questState.currentStage
      ++ " -> " ++ toString currentStage) 1077 w
    { w with g_questState := { w.g_questState with currentStage := currentStage } }
  else w

/-- The block of `CheckQuestState` that fires the trigger (source lines 1081 to
1085). -/
def checkTriggerStage (cfg : PluginConfig) (env : Env) (currentStage : Int)
    (w : World) : World :=
  if w.g_questState.questActive && !w.g_questState.triggerStageReached then
    if currentStage ≥ cfg.quest.triggerStage then ProcessQuestTrigger cfg env w
    else w
  else w

/-- The block of `CheckQuestState` for a quest that stopped running (source
lines 1087 to 1090). -/
def deactivateQuest (cfg : PluginConfig) (isRunning : Bool) (w : World) : World :=
  if !isRunning && w.g_questState.questActive then
    let w := { w with g_questState := { w.g_questState with questActive := false } }
    logQuest ("Quest is no longer running: " ++ cfg.quest.questEditorID) 1089 w
  else w

/-- `CheckQuestState`. -/
def CheckQuestState (cfg : PluginConfig) (env : Env) (w : World) : World :=
  if !cfg.quest.enabled then w
  else if w.g_questState.completionDone then w
  else
    let now := env.steadyNow
    let elapsed := elapsedMs now w.g_lastQuestCheck
    if elapsed < cfg.monitoring.checkIntervalMs then w
    else
      let w := { w with g_lastQuestCheck := now }
      match env.questByEditorID cfg.quest.questEditorID with
      | none => questNotFound cfg w
      | some quest =>
        let isRunning := quest.isRunning
        let currentStage := GetQuestCurrentStage quest
        let w := activateQuest cfg isRunning currentStage w
        let w := recordStageChange currentStage w
        let w := checkTriggerStage cfg env currentStage w
        deactivateQuest cfg isRunning w

/-- The block of `CheckPlayerInventory` that resolves the item on demand and
looks into the inventory (source lines 1134 to 1143). -/
def detectItem (cfg : PluginConfig) (env : Env) (w : World) : World :=
  let w := if !w.g_cachedFormIDs.itemResolved then ResolveFormIDs cfg env w else w
  if !w.g_cachedFormIDs.itemResolved then w
  else if PlayerHasItem env w.g_cachedFormIDs.itemFormID then
    ProcessItemDetection cfg env w
  else w

/-- `CheckPlayerInventory`. -/
def CheckPlayerInventory (cfg : PluginConfig) (env : Env) (w : World) : World :=
  if !cfg.item.enabled then w
  else if !w.g_questState.triggerStageReached then w
  else if w.g_questState.itemDetected then w
  else if w.g_questState.completionDone then w
  else
    let now := env.steadyNow
    let elapsed := elapsedMs now w.g_lastItemCheck
    if elapsed < cfg.monitoring.checkIntervalMs then w
    else
      detectItem cfg env { w with g_lastItemCheck := now }

/-! ## Event sinks -/

/-- The fields of `RE::TESContainerChangedEvent` the sink reads. -/
structure ContainerChangedEvent where
  newContainer : Nat
  baseObj : Nat
  itemCount : Int

/-- The fields of `RE::TESQuestStageEvent` the sink reads (`stage` is a
16-bit unsigned value in the engine). -/
structure QuestStageEvent where
  formID : Nat
  stage : Nat

/-- The fields of `RE::MenuOpenCloseEvent` the sink reads. -/
structure MenuOpenCloseEvent where
  menuName : String
  opening : Bool

/-- `GameEventProcessor::ProcessEvent`: logs the menu event. -/
def GameEventProcessor.ProcessEvent (event : Option MenuOpenCloseEvent) (w : World) : World :=
  match event with
  | none => w
  | some ev =>
    logActions ("Menu " ++ ev.menuName ++ " " ++ (if ev.opening then "opened" else "closed"))
      1248 w

/-- `ContainerChangeEventSink::ProcessEvent`. -/
def ContainerChangeEventSink.ProcessEvent (cfg : PluginConfig) (env : Env)
    (event : Option ContainerChangedEvent) (w : World) : World :=
  match event with
  | none => w
  | some ev =>
    if !w.g_questState.triggerStageReached || w.g_questState.itemDetected
        || w.g_questState.completionDone then w
    else match env.player with
      | none => w
      | some playerFormID =>
        if ev.newContainer = playerFormID then
          if w.g_cachedFormIDs.itemResolved && ev.baseObj == w.g_cachedFormIDs.itemFormID then
            let w := logActions banner 1288 w
            let w := logActions "CONTAINER CHANGE EVENT - ITEM ADDED TO PLAYER" 1289 w
            let w := logActions ("Item FormID: 0x" ++ hexUpper ev.baseObj) 1292 w
            let w := logActions ("Item Count: " ++ toString ev.itemCount) 1293 w
            let w := logActions banner 1294 w
            ProcessItemDetection cfg env w
          else w
        else w

/-- The block of `QuestStageEventSink::ProcessEvent` that fires the trigger
(source lines 1355 to 1357). -/
def eventTriggerStage (cfg : PluginConfig) (env : Env) (newStage : Int) (w : World) : World :=
  if !w.g_questState.triggerStageReached && newStage ≥ cfg.quest.triggerStage then
    ProcessQuestTrigger cfg env w
  else w

/-- `QuestStageEventSink::ProcessEvent`. -/
def QuestStageEventSink.ProcessEvent (cfg : PluginConfig) (env : Env)
    (event : Option QuestStageEvent) (w : World) : World :=
  match event with
  | none => w
  | some ev =>
    if !cfg.quest.enabled then w
    else if w.g_questState.completionDone then w
    else match env.questByFormID ev.formID with
      | none => w
      | some quest =>
        let questEditorID := quest.editorID
        if questEditorID = "" then w
        else if questEditorID = cfg.quest.questEditorID then
          let newStage : Int := (ev.stage : Int)
          let w := logQuest banner 1346 w
          let w := logQuest "QUEST STAGE EVENT RECEIVED" 1347 w
          let w := logQuest ("Quest: " ++ questEditorID) 1348 w
          let w := logQuest ("New Stage: " ++ toString newStage) 1349 w
          let w := logQuest banner 1350 w
          let w := { w with g_questState :=
            { w.g_questState with questActive := true, currentStage := newStage } }
          eventTriggerStage cfg env newStage w
        else w

/-! ## Poller and lifecycle -/

/-- The statements of `MonitoringThreadFunction` before its loop. -/
def MonitoringThreadPrologue (env : Env) (w : World) : World :=
  let w := logSystem "Monitoring thread started - Watching quest state and player inventory"
    1366 w
  let w := logSystem "Monitoring on dual paths (Primary & Secondary)" 1367 w
  let w := logSystem ("Primary: " ++ env.primaryLogDir) 1368 w
  let w := logSystem ("Secondary: " ++ env.secondaryLogDir) 1369 w
  let w := logSystem "Waiting 5 seconds before starting quest monitoring" 1370 w
  { w with g_monitoringStartTime := env.steadyNow, g_initialDelayComplete := false }

/-- The three checks at the end of a loop iteration; each reads the clock and
the engine on its own, hence one `Env` for each. -/
def MonitoringCycle (cfg : PluginConfig) (envQ envI envD : Env) (w : World) : World :=
  let w := { w with g_monitorCycles := w.g_monitorCycles + 1 }
  let w := CheckQuestState cfg envQ w
  let w := CheckPlayerInventory cfg envI w
  ProcessDelayedQuestCompletion cfg envD w

/-- One pass through the body of the loop of `MonitoringThreadFunction`, taken
when the loop condition holds. -/
def MonitoringThreadIteration (cfg : PluginConfig) (envR envQ envI envD : Env)
    (w : World) : World :=
  if w.g_isInGameTransition then
    logSystem "Game transition detected - monitoring paused" 1378 w
  else if !w.g_initialDelayComplete then
    if elapsedSeconds envR.steadyNow w.g_monitoringStartTime < 5 then w
    else
      let w := { w with g_initialDelayComplete := true }
      let w := logSystem "5-second initial delay complete, starting quest monitoring" 1392 w
      let w := ResolveFormIDs cfg envR w
      MonitoringCycle cfg envQ envI envD w
  else MonitoringCycle cfg envQ envI envD w

/-- `StartMonitoringThread`; the creation of the thread is recorded in the
trace, its first statements are `MonitoringThreadPrologue`. -/
def StartMonitoringThread (env : Env) (w : World) : World :=
  if !w.g_monitoringActive then
    let w := { w with
      g_monitoringActive := true
      g_monitorCycles := 0
      g_initialDelayComplete := false
      g_questState := { w.g_questState with
        questActive := false
        triggerStageReached := false
        itemDetected := false
        completionDone := false
        currentStage := 0 }
      g_triggerMessageShown := false
      g_completionMessageShown := false
      g_potionDetectedMessageShown := false
      g_waitingForPotionDelay := false
      g_cachedFormIDs := { w.g_cachedFormIDs with
        questFormID := 0
        itemFormID := 0
        questResolved := false
        itemResolved := false }
      g_lastQuestCheck := env.steadyNow
      g_lastItemCheck := env.steadyNow }
    let w := emit Effect.threadStart w
    logSystem "MONITORING SYSTEM ACTIVATED" 1437 w
  else w

/-- The message types `MessageListener` switches on.  `kDataLoaded`, which
registers the event sinks and calls `LoadConfiguration` and
`ValidatePluginsInINI` (modelled on their own), is not a case of this type;
`other` stands for the types that reach `default`. -/
inductive MessageType
  | kNewGame
  | kPostLoadGame
  | kPreLoadGame
  | kPostLoad
  | kInputLoaded
  | other
deriving DecidableEq, Repr

/-- The block of the session-start case that starts the monitoring thread when
none is active (source lines 1569 to 1574). -/
def ensureMonitoring (env : Env) (w : World) : World :=
  if !w.g_monitoringActive then
    StartMonitoringThread env (logActions "Monitoring thread logic: Starting..." 1570 w)
  else
    logActions "Monitoring thread logic: Already active, continuing." 1573 w

/-- The case `kNewGame` / `kPostLoadGame` of `MessageListener`. -/
def SessionStart (env : Env) (w : World) : World :=
  let w := logActions banner 1540 w
  let w := logActions "SESSION START (New/Load) - Resetting Logic State safely" 1541 w
  let w := { w with
    g_isInGameTransition := false
    g_isShuttingDown := false
    g_initialDelayComplete := false
    g_questState := { w.g_questState with
      questActive := false
      triggerStageReached := false
      itemDetected := false
      completionDone := false
      currentStage := 0 }
    g_triggerMessageShown := false
    g_completionMessageShown := false
    g_potionDetectedMessageShown := false
    g_waitingForPotionDelay := false
    g_cachedFormIDs := { w.g_cachedFormIDs with
      questFormID := 0
      itemFormID := 0
      questResolved := false
      itemResolved := false }
    g_lastQuestCheck := env.steadyNow
    g_lastItemCheck := env.steadyNow }
  let w := logActions "Logic reset complete." 1567 w
  let w := ensureMonitoring env w
  logActions banner 1576 w

/-- `MessageListener`. -/
def MessageListener (type : MessageType) (env : Env) (w : World) : World :=
  match type with
  | MessageType.kNewGame => SessionStart env w
  | MessageType.kPostLoadGame => SessionStart env w
  | MessageType.kPreLoadGame =>
    let w := logActions "Pre-load game detected - preparing for state reset" 1625 w
    { w with g_isInGameTransition := true }
  | MessageType.kPostLoad => logSystem "Post-load message received" 1632 w
  | MessageType.kInputLoaded => logSystem "Input loaded message received" 1638 w
  | MessageType.other => w

/-! ## Sequential runs -/

/-- One call into the plugin. -/
inductive Op
  | checkQuestState
  | checkPlayerInventory
  | processDelayedQuestCompletion
  | resolveFormIDs
  | monitoringThreadPrologue
  | monitoringThreadIteration (envQ envI envD : Env)
  | questStageEvent (event : Option QuestStageEvent)
  | containerChangeEvent (event : Option ContainerChangedEvent)
  | menuEvent (event : Option MenuOpenCloseEvent)
  | processQuestTrigger
  | processItemDetection
  | processQuestCompletion
  | startMonitoringThread
  | message (type : MessageType)

/-- The effect of one call, with the answers `env` of the engine. -/
def step (cfg : PluginConfig) (op : Op) (env : Env) (w : World) : World :=
  match op with
  | Op.checkQuestState => CheckQuestState cfg env w
  | Op.checkPlayerInventory => CheckPlayerInventory cfg env w
  | Op.processDelayedQuestCompletion => ProcessDelayedQuestCompletion cfg env w
  | Op.resolveFormIDs => ResolveFormIDs cfg env w
  | Op.monitoringThreadPrologue => MonitoringThreadPrologue env w
  | Op.monitoringThreadIteration envQ envI envD =>
    MonitoringThreadIteration cfg env envQ envI envD w
  | Op.questStageEvent event => QuestStageEventSink.ProcessEvent cfg env event w
  | Op.containerChangeEvent event => ContainerChangeEventSink.ProcessEvent cfg env event w
  | Op.menuEvent event => GameEventProcessor.ProcessEvent event w
  | Op.processQuestTrigger => ProcessQuestTrigger cfg env w
  | Op.processItemDetection => ProcessItemDetection cfg env w
  | Op.processQuestCompletion => ProcessQuestCompletion cfg env w
  | Op.startMonitoringThread => StartMonitoringThread env w
  | Op.message type => MessageListener type env w

/-- A sequential run: the calls are made one after the other. -/
def run (cfg : PluginConfig) (calls : List (Op × Env)) (w : World) : World :=
  calls.foldl (fun acc c => step cfg c.1 c.2 acc) w

/-- The calls that reset the session: the session-start messages, and
`StartMonitoringThread`, which resets the state when no thread is active. -/
def Op.isReset : Op → Bool
  | Op.startMonitoringThread => true
  | Op.message MessageType.kNewGame => true
  | Op.message MessageType.kPostLoadGame => true
  | _ => false

/-- The direct calls of the three transition functions, as opposed to the
calls the poller and the event sinks make. -/
def Op.isDirect : Op → Bool
  | Op.processQuestTrigger => true
  | Op.processItemDetection => true
  | Op.processQuestCompletion => true
  | _ => false

/-- An engine for concrete runs at clock value `now`: no quest is found, the
item of the configuration has FormID `0x0A625C7C`, the UI queue exists, the
player (FormID `0x14`) holds no item, and the console works. -/
def sampleEnv (now : Int) : Env :=
  { steadyNow := now
    questByEditorID := fun _ => none
    questByFormID := fun _ => none
    formIDFromPlugin := fun _ _ => 0x0A625C7C
    hasMessageQueue := true
    player := some 0x14
    isBoundObject := fun _ => true
    inventoryCount := fun _ => none
    removeThrows := false
    consoleOutcome := ConsoleOutcome.ran
    primaryLogDir := "Documents/My Games/Skyrim Special Edition/SKSE"
    secondaryLogDir := "Data/SKSE/Plugins" }

/-- No call of the run resets the session. -/
def noReset (calls : List (Op × Env)) : Bool :=
  calls.all (fun c => !c.1.isReset)

/-- No call of the run is a direct call of a transition function: the run is
made of poller calls, sink calls and lifecycle messages. -/
def noDirect (calls : List (Op × Env)) : Bool :=
  calls.all (fun c => !c.1.isDirect)

/-! ## Reading the trace -/

/-- The display of the trigger message, asked for at source line 1108 (a
message box, or a notification when the UI queue is missing). -/
def Effect.isTriggerMessage : Effect → Bool
  | Effect.debugMessageBox site _ => site == 1108
  | Effect.debugNotification site _ => site == 1108
  | _ => false

/-- The notification that the potion was detected (source line 1167). -/
def Effect.isPotionNotification : Effect → Bool
  | Effect.debugNotification site _ => site == 1167
  | _ => false

/-- The completion notification (source line 1217). -/
def Effect.isCompletionNotification : Effect → Bool
  | Effect.debugNotification site _ => site == 1217
  | _ => false

/-- A call of `ExecuteConsoleCommand`; the only command the plugin builds is
the `setstage` command of `SetQuestStageViaConsole`. -/
def Effect.isConsoleCommand : Effect → Bool
  | Effect.consoleCommand _ _ => true
  | _ => false

/-- The banner line `TRIGGER STAGE REACHED` (source line 1101), written each
time `ProcessQuestTrigger` passes its guard: the trigger event. -/
def Effect.isTriggerEvent : Effect → Bool
  | Effect.log Channel.quest _ lineNumber => lineNumber == 1101
  | _ => false

/-- The banner line `ITEM DETECTED IN PLAYER INVENTORY` (source line 1157),
written each time `ProcessItemDetection` passes its guards: the detection event. -/
def Effect.isDetectionEvent : Effect → Bool
  | Effect.log Channel.actions _ lineNumber => lineNumber == 1157
  | _ => false

/-- How many trigger messages were displayed. -/
def World.triggerMessages (w : World) : Nat := w.trace.countP Effect.isTriggerMessage

/-- How many potion notifications were displayed. -/
def World.potionNotifications (w : World) : Nat := w.trace.countP Effect.isPotionNotification

/-- How many completion notifications were displayed. -/
def World.completionNotifications (w : World) : Nat :=
  w.trace.countP Effect.isCompletionNotification

/-- How many console commands were issued. -/
def World.consoleCommands (w : World) : Nat := w.trace.countP Effect.isConsoleCommand

/-- How many trigger events happened. -/
def World.triggerEvents (w : World) : Nat := w.trace.countP Effect.isTriggerEvent

/-- How many detection events happened. -/
def World.detectionEvents (w : World) : Nat := w.trace.countP Effect.isDetectionEvent

/-- Whether the configuration lets `ProcessQuestTrigger` display a trigger message. -/
def PluginConfig.displaysTrigger (cfg : PluginConfig) : Bool :=
  cfg.messages.enabled && cfg.messages.showTriggerMessage

/-- Whether the configuration lets `ProcessQuestCompletion` display a
completion notification. -/
def PluginConfig.displaysCompletion (cfg : PluginConfig) : Bool :=
  cfg.messages.enabled && cfg.messages.showCompletionMessage

/-! ## Stage observations -/

/-- An observation of the stage of the running tracked quest: by a poll
(`CheckQuestState`) or by a stage event.  `env` gives the remaining answers of
the engine, `env.steadyNow` the time of the observation. -/
structure StageObs where
  viaEvent : Bool
  value : Nat
  formID : Nat
  env : Env

/-- The engine during the observation: both quest lookups find the tracked
quest, running, at stage `value`. -/
def StageObs.engine (cfg : PluginConfig) (o : StageObs) : Env :=
  { o.env with
    questByEditorID := fun _ =>
      some { formID := o.formID, editorID := cfg.quest.questEditorID,
             isRunning := true, currentStageID := o.value }
    questByFormID := fun _ =>
      some { formID := o.formID, editorID := cfg.quest.questEditorID,
             isRunning := true, currentStageID := o.value } }

/-- The call that delivers the observation. -/
def StageObs.call (cfg : PluginConfig) (o : StageObs) : Op × Env :=
  if o.viaEvent then
    (Op.questStageEvent (some { formID := o.formID, stage := o.value }), o.engine cfg)
  else (Op.checkQuestState, o.engine cfg)

/-- Every poll comes at least `checkIntervalMs` after the previous poll, the
first one after the time `last` of the reset. -/
def pollsSpaced (cfg : PluginConfig) (last : Int) : List StageObs → Bool
  | [] => true
  | o :: os =>
    if o.viaEvent then pollsSpaced cfg last os
    else decide (cfg.monitoring.checkIntervalMs ≤ elapsedMs o.env.steadyNow last)
      && pollsSpaced cfg o.env.steadyNow os

/-- Whether one of the observations shows a stage at or past the trigger stage. -/
def reachesTrigger (cfg : PluginConfig) (obs : List StageObs) : Bool :=
  obs.any (fun o => decide (cfg.quest.triggerStage ≤ (o.value : Int)))

/-- The run that delivers the observations one after the other. -/
def observe (cfg : PluginConfig) (obs : List StageObs) (w : World) : World :=
  run cfg (obs.map (StageObs.call cfg)) w

/-- The scenario of the specification: the stage values 5, 21, 21, 30, seen by
two polls (two and four seconds after the reset) and then by two events. -/
def scenarioStages : List StageObs :=
  [ { viaEvent := false, value := 5, formID := 1, env := sampleEnv 2000000000 },
    { viaEvent := false, value := 21, formID := 1, env := sampleEnv 4000000000 },
    { viaEvent := true, value := 21, formID := 1, env := sampleEnv 4500000000 },
    { viaEvent := true, value := 30, formID := 1, env := sampleEnv 5000000000 } ]

/-- The states the plugin can be in: those a sequential run of calls reaches
from a state whose progress is at its initial values. -/
def Reachable (cfg : PluginConfig) (w : World) : Prop :=
  ∃ (w0 : World) (calls : List (Op × Env)),
    w0.progress = Progress.initial ∧ run cfg calls w0 = w

/-- An engine in which the player holds one unit of every item. -/
def playerHasItemEnv (now : Int) : Env :=
  { sampleEnv now with inventoryCount := fun _ => some 1 }

/-- A run made by the poller alone: a poll sees stage 21, then an
inventory poll finds the item, then the delay elapses. -/
def pollerRun : List (Op × Env) :=
  [ StageObs.call {} { viaEvent := false, value := 21, formID := 1,
                       env := sampleEnv 2000000000 },
    (Op.checkPlayerInventory, playerHasItemEnv 3000000000),
    (Op.processDelayedQuestCompletion, sampleEnv 9000000000) ]

/-- The world in which the identifiers are resolved, the trigger has fired and
the item is awaited. -/
def armedWorld : World :=
  run {}
    [ (Op.resolveFormIDs, sampleEnv 1000000000),
      StageObs.call {} { viaEvent := false, value := 21, formID := 1,
                         env := sampleEnv 2000000000 } ] {}

/-- The event that the tracked item entered the player's container. -/
def itemAddedEvent : ContainerChangedEvent :=
  { newContainer := 0x14, baseObj := 0x0A625C7C, itemCount := 1 }

/-- The world after the trigger and the detection (at clock value 1): it
waits for the delay. -/
def waitingWorld : World :=
  run {} [(Op.processQuestTrigger, sampleEnv 0), (Op.processItemDetection, sampleEnv 1)] {}

/-- The local time `localtime_s` gives, and the milliseconds since the epoch. -/
structure LogClock where
  year : Nat
  month : Nat
  day : Nat
  hour : Nat
  minute : Nat
  second : Nat
  epochMs : Nat

/-- A number written with `setfill('0')` and `setw(width)`. -/
def zeroPad (width n : Nat) : String :=
  String.mk (List.replicate (width - (toString n).length) '0') ++ toString n

/-- The text `put_time(&buf, "%Y-%m-%d %H:%M:%S")` followed by `.` and the
millisecond part on three digits. -/
def timestampWithMillis (c : LogClock) : String :=
  toString c.year ++ "-" ++ zeroPad 2 c.month ++ "-" ++ zeroPad 2 c.day ++ " "
    ++ zeroPad 2 c.hour ++ ":" ++ zeroPad 2 c.minute ++ ":" ++ zeroPad 2 c.second
    ++ "." ++ zeroPad 3 (c.epochMs % 1000)

/-- The line a `WriteTo...Log` function builds; `tag` is the text it puts in
the second pair of brackets. -/
def formatLogLine (tag : String) (c : LogClock) (message : String) (lineNumber : Int) :
    String :=
  "[" ++ timestampWithMillis c ++ "] " ++ "[" ++ tag ++ "] [info] "
    ++ "[plugin.cpp:" ++ toString lineNumber ++ "] " ++ message

/-- The two open modes `WriteToDualPath` is called with. -/
inductive OpenMode
  | app
  | trunc
deriving DecidableEq, Repr

/-- What the file system does for one destination. -/
structure DestOutcome where
  /-- Whether checking or creating the parent directory throws. -/
  directoryThrows : Bool
  /-- Whether the stream is open after construction. -/
  opens : Bool

/-- One `try` block of `WriteToDualPath`: the new contents of the file. -/
def writeDestination (o : DestOutcome) (content : String) (mode : OpenMode)
    (file : String) : String :=
  if o.directoryThrows then file
  else if !o.opens then file
  else match mode with
    | OpenMode.app => file ++ content ++ "\n"
    | OpenMode.trunc => content ++ "\n"

/-- The contents of the two destination files of one channel. -/
structure LogFiles where
  primary : String := ""
  secondary : String := ""

/-- What the file system does for the two destinations during one call. -/
structure DualOutcome where
  primary : DestOutcome
  secondary : DestOutcome

/-- `WriteToDualPath`. -/
def WriteToDualPath (fsys : DualOutcome) (content : String) (mode : OpenMode)
    (files : LogFiles) : LogFiles :=
  { primary := writeDestination fsys.primary content mode files.primary
    secondary := writeDestination fsys.secondary content mode files.secondary }

/-- One channel: its deque of lines, the static `lineCount` of its function,
and its two files. -/
structure LogChannel where
  lines : List String := []
  lineCount : Nat := 0
  files : LogFiles := {}

/-- The text `bulkContent` of a compaction: every line followed by a newline. -/
def bulkContent (lines : List String) : String :=
  String.join (lines.map (fun line => line ++ "\n"))

/-- The body shared by `WriteToActionsLog`, `WriteToQuestLog` and
`WriteToSystemLog`, which differ in the tag, the deque and the file name. -/
def writeToLog (tag : String) (clock : LogClock) (fsys : DualOutcome) (message : String)
    (lineNumber : Int) (ch : LogChannel) : LogChannel :=
  let newLine := formatLogLine tag clock message lineNumber
  let pushed := ch.lines ++ [newLine]
  let lines := if pushed.length > 2000 then pushed.tail else pushed
  let lineCount := ch.lineCount + 1
  if lineCount ≥ 2500 then
    { lines := lines
      lineCount := lines.length
      files := WriteToDualPath fsys (bulkContent lines) OpenMode.trunc ch.files }
  else
    { lines := lines
      lineCount := lineCount
      files := WriteToDualPath fsys newLine OpenMode.app ch.files }

/-- `WriteToActionsLog`; its tag is `log`. -/
def WriteToActionsLog (clock : LogClock) (fsys : DualOutcome) (message : String)
    (lineNumber : Int) (ch : LogChannel) : LogChannel :=
  writeToLog "log" clock fsys message lineNumber ch

/-- `WriteToQuestLog`. -/
def WriteToQuestLog (clock : LogClock) (fsys : DualOutcome) (message : String)
    (lineNumber : Int) (ch : LogChannel) : LogChannel :=
  writeToLog "quest" clock fsys message lineNumber ch

/-- `WriteToSystemLog`. -/
def WriteToSystemLog (clock : LogClock) (fsys : DualOutcome) (message : String)
    (lineNumber : Int) (ch : LogChannel) : LogChannel :=
  writeToLog "system" clock fsys message lineNumber ch

/-- The arguments and the surroundings of one append. -/
structure Append where
  clock : LogClock
  fsys : DualOutcome
  message : String
  lineNumber : Int

/-- The tag each channel writes. -/
def Channel.tag : Channel → String
  | Channel.actions => "log"
  | Channel.quest => "quest"
  | Channel.system => "system"

/-- The append function of a channel. -/
def Channel.write (c : Channel) (a : Append) (ch : LogChannel) : LogChannel :=
  match c with
  | Channel.actions => WriteToActionsLog a.clock a.fsys a.message a.lineNumber ch
  | Channel.quest => WriteToQuestLog a.clock a.fsys a.message a.lineNumber ch
  | Channel.system => WriteToSystemLog a.clock a.fsys a.message a.lineNumber ch

/-- The line an append adds to the channel. -/
def Channel.line (c : Channel) (a : Append) : String :=
  formatLogLine c.tag a.clock a.message a.lineNumber

/-- A sequence of appends to one channel. -/
def Channel.appendAll (c : Channel) (appends : List Append) (ch : LogChannel) : LogChannel :=
  appends.foldl (fun acc a => c.write a acc) ch

/-- Whether an append to the channel in state `ch` takes the compaction branch. -/
def compacts (ch : LogChannel) : Bool :=
  decide (ch.lineCount + 1 ≥ 2500)

/-- A file system on which both destinations can be written. -/
def DualOutcome.succeeds (fsys : DualOutcome) : Bool :=
  !fsys.primary.directoryThrows && fsys.primary.opens
    && !fsys.secondary.directoryThrows && fsys.secondary.opens

/-- A file system on which every write succeeds. -/
def DualOutcome.ok : DualOutcome :=
  { primary := { directoryThrows := false, opens := true }
    secondary := { directoryThrows := false, opens := true } }

/-- An append for concrete checks. -/
def sampleAppend : Append :=
  { clock := { year := 2025, month := 1, day := 2, hour := 3, minute := 4, second := 5,
               epochMs := 1735787045006 }
    fsys := DualOutcome.ok
    message := "Menu Console opened"
    lineNumber := 1248 }

/-- The value of the static `lineCount` after `n` appends to a fresh channel. -/
def lineCountAfter (n : Nat) : Nat :=
  if n < 2500 then n else 2000 + (n - 2500) % 500

/-! ## The flags and the counts a run is judged by -/

/-- The part of a world the session invariants speak about: the pipeline
flags, the message-shown flags, and how many displays, commands and events
the trace holds. -/
structure Tally where
  trigger : Bool
  item : Bool
  done : Bool
  waiting : Bool
  trigShown : Bool
  potionShown : Bool
  complShown : Bool
  nTrigMsg : Nat
  nPotion : Nat
  nCompl : Nat
  nConsole : Nat
  nTrigEv : Nat
  nDetEv : Nat

/-- The tally of a world. -/
def World.tally (w : World) : Tally :=
  { trigger := w.g_questState.triggerStageReached
    item := w.g_questState.itemDetected
    done := w.g_questState.completionDone
    waiting := w.g_waitingForPotionDelay
    trigShown := w.g_triggerMessageShown
    potionShown := w.g_potionDetectedMessageShown
    complShown := w.g_completionMessageShown
    nTrigMsg := w.triggerMessages
    nPotion := w.potionNotifications
    nCompl := w.completionNotifications
    nConsole := w.consoleCommands
    nTrigEv := w.triggerEvents
    nDetEv := w.detectionEvents }

/-- The tally after one more effect in the trace. -/
def Tally.record (e : Effect) (t : Tally) : Tally :=
  { t with
    nTrigMsg := t.nTrigMsg + (if e.isTriggerMessage then 1 else 0)
    nPotion := t.nPotion + (if e.isPotionNotification then 1 else 0)
    nCompl := t.nCompl + (if e.isCompletionNotification then 1 else 0)
    nConsole := t.nConsole + (if e.isConsoleCommand then 1 else 0)
    nTrigEv := t.nTrigEv + (if e.isTriggerEvent then 1 else 0)
    nDetEv := t.nDetEv + (if e.isDetectionEvent then 1 else 0) }

/-- What `ProcessQuestTrigger` does to the tally. -/
def Tally.fireTrigger (cfg : PluginConfig) (t : Tally) : Tally :=
  if t.trigger then t
  else { t with
    trigger := true
    trigShown := t.trigShown || cfg.displaysTrigger
    nTrigMsg := t.nTrigMsg +
      (if cfg.displaysTrigger && !t.trigShown && decide (cfg.messages.triggerMessage ≠ "")
        then 1 else 0)
    nTrigEv := t.nTrigEv + 1 }

/-- What `ProcessItemDetection` does to the tally. -/
def Tally.fireItemDetected (t : Tally) : Tally :=
  if t.item then t
  else if t.waiting then t
  else { t with
    item := true
    waiting := true
    potionShown := true
    nPotion := t.nPotion + (if t.potionShown then 0 else 1)
    nDetEv := t.nDetEv + 1 }

/-- What `ProcessQuestCompletion` does to the tally. -/
def Tally.fireCompletion (cfg : PluginConfig) (t : Tally) : Tally :=
  if t.done then t
  else { t with
    done := true
    complShown := t.complShown || cfg.displaysCompletion
    nCompl := t.nCompl +
      (if cfg.displaysCompletion && !t.complShown
          && decide (cfg.messages.completionMessage ≠ "") then 1 else 0)
    nConsole := t.nConsole + 1 }

/-- What `ProcessDelayedQuestCompletion` does to the tally; `elapsed` tells
whether five seconds have passed. -/
def Tally.tickDelay (cfg : PluginConfig) (elapsed : Bool) (t : Tally) : Tally :=
  if !t.waiting then t
  else if !t.item then t
  else if t.done then t
  else if !elapsed then t
  else Tally.fireCompletion cfg { t with waiting := false }

/-- What a session reset does to the tally: the flags are cleared, the trace
is kept. -/
def Tally.reset (t : Tally) : Tally :=
  { t with
    trigger := false
    item := false
    done := false
    waiting := false
    trigShown := false
    potionShown := false
    complShown := false }

/-- The moves of the tally that the calls into the plugin can make.  `resets`
admits the session resets, `directs` the direct calls of `ProcessItemDetection`
and `ProcessQuestCompletion` (the poller and the sinks call the first only once
the trigger stage is reached, and the second only through the delay). -/
inductive TallyStep (cfg : PluginConfig) (resets directs : Bool) : Tally → Tally → Prop
  | stay (t : Tally) : TallyStep cfg resets directs t t
  | trigger (t : Tally) : TallyStep cfg resets directs t (t.fireTrigger cfg)
  | detect (t : Tally) (h : t.trigger = true) :
      TallyStep cfg resets directs t t.fireItemDetected
  | tick (t : Tally) (elapsed : Bool) : TallyStep cfg resets directs t (t.tickDelay cfg elapsed)
  | reset (t : Tally) (h : resets = true) : TallyStep cfg resets directs t t.reset
  | detectDirect (t : Tally) (h : directs = true) :
      TallyStep cfg resets directs t t.fireItemDetected
  | completeDirect (t : Tally) (h : directs = true) :
      TallyStep cfg resets directs t (t.fireCompletion cfg)
  | seq (a b c : Tally) (h₁ : TallyStep cfg resets directs a b)
      (h₂ : TallyStep cfg resets directs b c) : TallyStep cfg resets directs a c

/-- The order of the pipeline: completion and the delay presuppose the
detection, the detection presupposes the trigger. -/
def Tally.Ordered (t : Tally) : Prop :=
  (t.done = true → t.item = true) ∧ (t.waiting = true → t.item = true)
    ∧ (t.item = true → t.trigger = true)

/-- The bookkeeping of a session without reset: every display, command and
event is in the trace once if its flag is set, and not at all otherwise. -/
structure Tally.Once (cfg : PluginConfig) (t : Tally) : Prop where
  trigShown : t.trigShown = (t.trigger && cfg.displaysTrigger)
  nTrigMsg : t.nTrigMsg =
    if t.trigger && cfg.displaysTrigger && decide (cfg.messages.triggerMessage ≠ "")
      then 1 else 0
  potionShown : t.potionShown = t.item
  nPotion : t.nPotion = if t.item then 1 else 0
  nConsole : t.nConsole = if t.done then 1 else 0
  complShown : t.complShown = (t.done && cfg.displaysCompletion)
  nCompl : t.nCompl =
    if t.done && cfg.displaysCompletion && decide (cfg.messages.completionMessage ≠ "")
      then 1 else 0
  nTrigEv : t.nTrigEv = if t.trigger then 1 else 0
  nDetEv : t.nDetEv = if t.item then 1 else 0

/-! ## Further readings of the trace and of reachability -/

/-- A call of `player->RemoveItem` that went through. -/
def Effect.isRemoveItem : Effect → Bool
  | Effect.removeItem _ _ => true
  | _ => false

/-- Something shown to the player: a notification or a message box. -/
def Effect.isDisplay : Effect → Bool
  | Effect.debugNotification _ _ => true
  | Effect.debugMessageBox _ _ => true
  | _ => false

/-- How many item removals went through. -/
def World.removals (w : World) : Nat := w.trace.countP Effect.isRemoveItem

/-- How many notifications and message boxes were shown. -/
def World.displays (w : World) : Nat := w.trace.countP Effect.isDisplay

/-- The states the plugin itself can be in: those reached from a state whose
progress is at its initial values by the calls the poller, the event sinks and
the lifecycle make (no direct call of a transition function). -/
def PluginReachable (cfg : PluginConfig) (w : World) : Prop :=
  ∃ (w0 : World) (calls : List (Op × Env)),
    w0.progress = Progress.initial ∧ noDirect calls = true ∧ run cfg calls w0 = w

/-- The lines `ProcessItemDetection` logs after its guards. -/
def detectionLog (cfg : PluginConfig) (w : World) : List Effect :=
  [ Effect.log Channel.actions banner 1156,
    Effect.log Channel.actions "ITEM DETECTED IN PLAYER INVENTORY" 1157,
    Effect.log Channel.actions ("Item: " ++ cfg.item.itemName) 1158,
    Effect.log Channel.actions ("FormID: 0x" ++ hexUpper w.g_cachedFormIDs.itemFormID) 1161,
    Effect.log Channel.actions "Waiting 5 seconds before processing..." 1162,
    Effect.log Channel.actions banner 1163 ]

/-- The world at the end of the poller run: the quest fix is completed. -/
def completedWorld : World := run {} pollerRun {}

/-- An environment in which `RemoveItem` throws: `RemoveItemFromPlayer`
returns false. -/
def failedRemovalEnv (now : Int) : Env :=
  { sampleEnv now with removeThrows := true }

/-- The world of the poller run just before the delay elapses: the item is
detected and the completion is awaited. -/
def detectedWorld : World := run {} (pollerRun.take 2) {}

/-! ## The identifier cache along a run -/

/-- What `ResolveFormIDs` does to `g_cachedFormIDs`. -/
def CachedFormIDs.resolve (cfg : PluginConfig) (env : Env) (c : CachedFormIDs) :
    CachedFormIDs :=
  let c :=
    if cfg.item.enabled && !c.itemResolved then
      let id := env.formIDFromPlugin cfg.item.itemPlugin cfg.item.itemID
      if id ≠ 0 then { c with itemFormID := id, itemResolved := true }
      else { c with itemFormID := id }
    else c
  if cfg.quest.enabled && !c.questResolved then
    match env.questByEditorID cfg.quest.questEditorID with
    | some quest => { c with questFormID := quest.formID, questResolved := true }
    | none => c
  else c

/-- The moves of the identifier cache that the calls into the plugin can make:
it is left alone, `ResolveFormIDs` runs on it, or (when `resets` admits the
session resets) it is cleared. -/
inductive CacheStep (cfg : PluginConfig) (resets : Bool) :
    CachedFormIDs → CachedFormIDs → Prop
  | stay (c : CachedFormIDs) : CacheStep cfg resets c c
  | resolve (c : CachedFormIDs) (env : Env) : CacheStep cfg resets c (c.resolve cfg env)
  | reset (c : CachedFormIDs) (h : resets = true) : CacheStep cfg resets c {}
  | seq (a b c : CachedFormIDs) (h₁ : CacheStep cfg resets a b)
      (h₂ : CacheStep cfg resets b c) : CacheStep cfg resets a c

/-- The calls of `ResolveFormIDs`, one for each engine answer of the list. -/
def resolveCalls (envs : List Env) : List (Op × Env) :=
  envs.map (fun e => (Op.resolveFormIDs, e))

/-- An engine in which both lookups of `ResolveFormIDs` fail. -/
def unresolvedEnv (now : Int) : Env :=
  { sampleEnv now with formIDFromPlugin := fun _ _ => 0 }

/-- An engine in which the quest of the configuration is found (FormID
`0x0A000D62`, running, at stage 10) and the item lookup fails. -/
def questOnlyEnv (now : Int) : Env :=
  { unresolvedEnv now with
    questByEditorID := fun _ =>
      some { formID := 0x0A000D62, editorID := "YW_Quest_MDF", isRunning := true,
             currentStageID := 10 } }

/-- A file system on which the primary destination fails (its directory cannot
be created) and the secondary one can be written. -/
def DualOutcome.primaryFails : DualOutcome :=
  { primary := { directoryThrows := true, opens := false }
    secondary := { directoryThrows := false, opens := true } }

/-- The line the format of the specification asks for: the text between the
second pair of brackets is the name of the channel. -/
def namedLine (name : String) (a : Append) : String :=
  "[" ++ timestampWithMillis a.clock ++ "] [" ++ name ++ "] [info] [plugin.cpp:"
    ++ toString a.lineNumber ++ "] " ++ a.message

/-- The names of the three channels. -/
def Channel.name : Channel → String
  | Channel.actions => "actions"
  | Channel.quest => "quest"
  | Channel.system => "system"

/-! ## The configuration file -/

/-- The lines `SaveDefaultConfiguration` writes, each followed by `std::endl`
(source lines 837 to 870). -/
def defaultConfigurationLines : List String :=
  [ "[Quest]",
    "Enabled=true",
    "QuestEditorID=YW_Quest_MDF",
    "QuestPlugin=YurianaWench.esp",
    "TriggerStage=21",
    "CompletionStage=30",
    "ShowNotification=true",
    "",
    "[Item]",
    "Enabled=true",
    "ItemID=625C7C",
    "ItemPlugin=YurianaWench.esp",
    "ItemName=Lelyna's Remedy",
    "RemoveOnDetection=true",
    "ShowNotification=true",
    "",
    "[Messages]",
    "Enabled=true",
    "TriggerMessage=You must craft Lelyna's Remedy to cure Elora. Check your inventory for the recipe.",
    "CompletionMessage=You have crafted the potion and the temple girls are very happy. You have saved Elora!",
    "ShowTriggerMessage=true",
    "ShowCompletionMessage=true",
    "",
    "[Monitoring]",
    "Enabled=true",
    "CheckIntervalMs=1000",
    "MaxDetectionDistance=5000.0",
    "",
    "[Notification]",
    "Enabled=true" ]

/-- The text of the default configuration file. -/
def defaultConfigurationText : String :=
  String.join (defaultConfigurationLines.map (fun line => line ++ "\n"))

/-- The configuration file `GetPluginINIPath()` names: its text if it exists,
whether `std::ofstream` can open it for writing, and whether `std::ifstream`
can open it for reading. -/
structure IniStore where
  content : Option String := none
  creatable : Bool := true
  readable : Bool := true
deriving DecidableEq

/-- `SaveDefaultConfiguration`. -/
def SaveDefaultConfiguration (ini : IniStore) : IniStore :=
  if !ini.creatable then ini
  else { ini with content := some defaultConfigurationText }

/-- The pieces of a text between its newlines; `acc` holds the characters of
the current piece, last first. -/
def splitLines : List Char → List Char → List (List Char)
  | acc, [] => [acc.reverse]
  | acc, c :: cs =>
    if c = '\n' then acc.reverse :: splitLines [] cs
    else splitLines (c :: acc) cs

/-- The lines the loop `while (std::getline(iniFile, line))` sees: the pieces
between the newlines, without the piece after the last newline when that piece
is empty. -/
def getlines (text : String) : List String :=
  let pieces := splitLines [] text.data
  (if pieces.getLast? = some [] then pieces.dropLast else pieces).map String.mk

/-- The characters left by `s.erase(0, s.find_first_not_of(set))` followed by
`s.erase(s.find_last_not_of(set) + 1)`. -/
def eraseOutside (set : List Char) (cs : List Char) : List Char :=
  ((cs.dropWhile (fun c => set.contains c)).reverse.dropWhile
    (fun c => set.contains c)).reverse

/-- What the loop body of `LoadConfiguration` makes of one line. -/
inductive IniLine
  | blank
  | header (name : String)
  | assign (key value : String)
  | other
deriving DecidableEq, Repr

/-- The classification of a line (source lines 893 to 914). -/
def classifyLine (line : String) : IniLine :=
  let cs := eraseOutside [' ', '\t', '\r', '\n'] line.data
  match cs with
  | [] => IniLine.blank
  | first :: _ =>
    if first = ';' ∨ first = '#' then IniLine.blank
    else if first = '[' ∧ cs.getLast? = some ']' then
      IniLine.header (String.mk ((cs.drop 1).take (cs.length - 2)))
    else
      let key := cs.takeWhile (fun c => c != '=')
      if key.length = cs.length then IniLine.other
      else
        let value := cs.drop (key.length + 1)
        IniLine.assign (String.mk (eraseOutside [' ', '\t'] key))
          (String.mk (eraseOutside [' ', '\t'] value))

/-- The two exceptions `std::stoi` and `std::stof` throw. -/
inductive StoError
  | invalidArgument
  | outOfRange
deriving DecidableEq, Repr

/-- `std::stoi(value)`: `strtol` in base 10 skips the leading white space,
reads an optional sign and the decimal digits that follow, and ignores the
rest; no digit is `std::invalid_argument`, a value outside `int` is
`std::out_of_range`. -/
def stoi (value : String) : Except StoError Int :=
  let cs := value.data.dropWhile
    (fun c => [' ', '\t', '\n', '\x0b', '\x0c', '\r'].contains c)
  let signed : Bool × List Char :=
    match cs with
    | '-' :: rest => (true, rest)
    | '+' :: rest => (false, rest)
    | _ => (false, cs)
  let digits := signed.2.takeWhile Char.isDigit
  if digits.isEmpty then Except.error StoError.invalidArgument
  else
    let magnitude : Nat := digits.foldl (fun acc c => 10 * acc + (c.toNat - 48)) 0
    let v : Int := if signed.1 then -(magnitude : Int) else (magnitude : Int)
    if v < -2147483648 ∨ 2147483647 < v then Except.error StoError.outOfRange
    else Except.ok v

/-- The comparison `value == "1" || value == "true" || value == "True"`. -/
def parseBool (value : String) : Bool :=
  value == "1" || value == "true" || value == "True"

/-- The assignments of section `Quest` (source lines 917 to 930). -/
def assignQuest (key value : String) (c : QuestConfig) : Except StoError QuestConfig :=
  if key = "Enabled" then Except.ok { c with enabled := parseBool value }
  else if key = "QuestEditorID" then Except.ok { c with questEditorID := value }
  else if key = "QuestPlugin" then Except.ok { c with questPlugin := value }
  else if key = "TriggerStage" then
    (stoi value).map (fun v => { c with triggerStage := v })
  else if key = "CompletionStage" then
    (stoi value).map (fun v => { c with completionStage := v })
  else if key = "ShowNotification" then Except.ok { c with showNotification := parseBool value }
  else Except.ok c

/-- The assignments of section `Item` (source lines 931 to 944). -/
def assignItem (key value : String) (c : ItemConfig) : ItemConfig :=
  if key = "Enabled" then { c with enabled := parseBool value }
  else if key = "ItemID" then { c with itemID := value }
  else if key = "ItemPlugin" then { c with itemPlugin := value }
  else if key = "ItemName" then { c with itemName := value }
  else if key = "RemoveOnDetection" then { c with removeOnDetection := parseBool value }
  else if key = "ShowNotification" then { c with showNotification := parseBool value }
  else c

/-- The assignments of section `Messages` (source lines 945 to 956). -/
def assignMessages (key value : String) (c : MessagesConfig) : MessagesConfig :=
  if key = "Enabled" then { c with enabled := parseBool value }
  else if key = "TriggerMessage" then { c with triggerMessage := value }
  else if key = "CompletionMessage" then { c with completionMessage := value }
  else if key = "ShowTriggerMessage" then { c with showTriggerMessage := parseBool value }
  else if key = "ShowCompletionMessage" then
    { c with showCompletionMessage := parseBool value }
  else c

/-- The assignments of section `Monitoring` (source lines 957 to 964); `stof`
is `std::stof`, a function of the C++ library. -/
def assignMonitoring (stof : String → Except StoError FloatValue) (key value : String)
    (c : MonitoringConfig) : Except StoError MonitoringConfig :=
  if key = "Enabled" then Except.ok { c with enabled := parseBool value }
  else if key = "CheckIntervalMs" then
    (stoi value).map (fun v => { c with checkIntervalMs := v })
  else if key = "MaxDetectionDistance" then
    (stof value).map (fun v => { c with maxDetectionDistance := v })
  else Except.ok c

/-- The assignments of section `Notification` (source lines 965 to 969). -/
def assignNotification (key value : String) (c : NotificationConfig) : NotificationConfig :=
  if key = "Enabled" then { c with enabled := parseBool value }
  else c

/-- What one `key=value` line does to `g_config` in the current section; an
error is the exception of `std::stoi` or `std::stof`, thrown before the
assignment. -/
def applyAssignment (stof : String → Except StoError FloatValue)
    (currentSection key value : String) (cfg : PluginConfig) :
    Except StoError PluginConfig :=
  if currentSection = "Quest" then
    (assignQuest key value cfg.quest).map (fun q => { cfg with quest := q })
  else if currentSection = "Item" then
    Except.ok { cfg with item := assignItem key value cfg.item }
  else if currentSection = "Messages" then
    Except.ok { cfg with messages := assignMessages key value cfg.messages }
  else if currentSection = "Monitoring" then
    (assignMonitoring stof key value cfg.monitoring).map (fun m => { cfg with monitoring := m })
  else if currentSection = "Notification" then
    Except.ok { cfg with notification := assignNotification key value cfg.notification }
  else Except.ok cfg

/-- The loop of `LoadConfiguration` over the lines of the file: `g_config`
after the loop, and the exception that ended it, if any. -/
def loadLines (stof : String → Except StoError FloatValue) :
    List String → String → PluginConfig → PluginConfig × Option StoError
  | [], _, cfg => (cfg, none)
  | line :: rest, currentSection, cfg =>
    match classifyLine line with
    | IniLine.blank => loadLines stof rest currentSection cfg
    | IniLine.header name => loadLines stof rest name cfg
    | IniLine.other => loadLines stof rest currentSection cfg
    | IniLine.assign key value =>
      match applyAssignment stof currentSection key value cfg with
      | Except.ok cfg => loadLines stof rest currentSection cfg
      | Except.error e => (cfg, some e)

/-- The globals and files the configuration functions work on: `g_config`,
the configuration file, and the calls they make. -/
structure ConfigWorld where
  g_config : PluginConfig := {}
  ini : IniStore := {}
  trace : List Effect := []

/-- `LoadConfiguration`: the world after the call, and its return value or
the exception that leaves it. -/
def LoadConfiguration (stof : String → Except StoError FloatValue) (s : ConfigWorld) :
    ConfigWorld × Except StoError Bool :=
  let ini := if s.ini.content.isNone then SaveDefaultConfiguration s.ini else s.ini
  match ini.content with
  | none => ({ s with ini := ini }, Except.ok false)
  | some text =>
    if !ini.readable then ({ s with ini := ini }, Except.ok false)
    else
      match loadLines stof (getlines text) "" s.g_config with
      | (cfg, none) => ({ s with ini := ini, g_config := cfg }, Except.ok true)
      | (cfg, some e) => ({ s with ini := ini, g_config := cfg }, Except.error e)

/-- The block of `ValidatePluginsInINI` for the quest plugin (source lines 984
to 991); the Boolean is `needsUpdate`. -/
def validateQuestPlugin (lookupModByName : String → Bool) (needsUpdate : Bool)
    (s : ConfigWorld) : Bool × ConfigWorld :=
  if s.g_config.quest.enabled then
    if !lookupModByName s.g_config.quest.questPlugin then
      (true,
        { s with
          g_config := { s.g_config with quest := { s.g_config.quest with enabled := false } }
          trace := s.trace ++ [Effect.log Channel.actions
            ("Plugin not found: " ++ s.g_config.quest.questPlugin
              ++ " - Disabled [Quest] in memory") 989] })
    else (needsUpdate, s)
  else (needsUpdate, s)

/-- The block of `ValidatePluginsInINI` for the item plugin (source lines 993
to 1000). -/
def validateItemPlugin (lookupModByName : String → Bool) (needsUpdate : Bool)
    (s : ConfigWorld) : Bool × ConfigWorld :=
  if s.g_config.item.enabled then
    if !lookupModByName s.g_config.item.itemPlugin then
      (true,
        { s with
          g_config := { s.g_config with item := { s.g_config.item with enabled := false } }
          trace := s.trace ++ [Effect.log Channel.actions
            ("Plugin not found: " ++ s.g_config.item.itemPlugin
              ++ " - Disabled [Item] in memory") 998] })
    else (needsUpdate, s)
  else (needsUpdate, s)

/-- `ValidatePluginsInINI`; `dataHandler` is `none` when
`TESDataHandler::GetSingleton()` is null, and else tells for a plugin name
whether `LookupModByName` finds it. -/
def ValidatePluginsInINI (dataHandler : Option (String → Bool)) (s : ConfigWorld) :
    ConfigWorld :=
  match dataHandler with
  | none => s
  | some lookupModByName =>
    let q := validateQuestPlugin lookupModByName false s
    let i := validateItemPlugin lookupModByName q.1 q.2
    if i.1 then
      { i.2 with trace := i.2.trace ++
          [ Effect.log Channel.actions
              "Plugin validation completed - Some features disabled in memory due to missing plugins"
              1003,
            Effect.log Channel.actions
              "User INI files preserved - NO modifications made to configuration files"
              1004 ] }
    else i.2

/-- A `std::stof` for concrete checks: it knows the text `5000.0`. -/
def sampleStof (value : String) : Except StoError FloatValue :=
  if value = "5000.0" then Except.ok (FloatValue.finite 5000)
  else Except.error StoError.invalidArgument

/-- A configuration that differs from the default in every section. -/
def otherConfig : PluginConfig :=
  { quest := { enabled := false, questEditorID := "Q", questPlugin := "Q.esp",
               triggerStage := 1, completionStage := 2, showNotification := false }
    item := { enabled := false, itemID := "1", itemPlugin := "I.esp", itemName := "I",
              removeOnDetection := false, showNotification := false }
    messages := { enabled := false, triggerMessage := "", completionMessage := "",
                  showTriggerMessage := false, showCompletionMessage := false }
    monitoring := { enabled := false, checkIntervalMs := 5,
                    maxDetectionDistance := FloatValue.nan }
    notification := { enabled := false } }

/-- A load order in which only the named plugin is missing. -/
def missingPlugin (name : String) : Option (String → Bool) :=
  some (fun plugin => plugin != name)

/-! ## The progress state along the poll path and the event path -/

/-- What `ProcessQuestTrigger` does to the progress state. -/
def Progress.fireTrigger (cfg : PluginConfig) (p : Progress) : Progress :=
  if p.triggerStageReached then p
  else { p with
    triggerStageReached := true
    triggerMessageShown := p.triggerMessageShown || cfg.displaysTrigger }

/-- What the blocks of `CheckQuestState` for a quest that is found do to the
progress state (source lines 1061 to 1090). -/
def Progress.pollFound (cfg : PluginConfig) (isRunning : Bool) (currentStage : Int)
    (p : Progress) : Progress :=
  let p := if !p.questActive && isRunning then
      { p with questActive := true, currentStage := currentStage } else p
  let p := if p.questActive && currentStage != p.currentStage then
      { p with currentStage := currentStage } else p
  let p := if p.questActive && !p.triggerStageReached then
      (if currentStage ≥ cfg.quest.triggerStage then p.fireTrigger cfg else p) else p
  if !isRunning && p.questActive then { p with questActive := false } else p

/-- What the block of `CheckQuestState` for a quest that is not found does to
the progress state (source lines 1053 to 1059). -/
def Progress.pollNotFound (p : Progress) : Progress :=
  if p.questActive then { p with questActive := false } else p

/-- What `CheckQuestState` does to the progress state; `due` tells whether the
check interval has elapsed, `quest` is the answer of `GetQuestByEditorID`. -/
def Progress.poll (cfg : PluginConfig) (due : Bool) (quest : Option Quest)
    (p : Progress) : Progress :=
  if !cfg.quest.enabled then p
  else if p.completionDone then p
  else if !due then p
  else match quest with
    | none => p.pollNotFound
    | some q => p.pollFound cfg q.isRunning (GetQuestCurrentStage q)

/-- What `QuestStageEventSink::ProcessEvent` does to the progress state;
`tracked` tells whether the quest of the event is the tracked one. -/
def Progress.stageEvent (cfg : PluginConfig) (tracked : Bool) (newStage : Int)
    (p : Progress) : Progress :=
  if !cfg.quest.enabled then p
  else if p.completionDone then p
  else if !tracked then p
  else
    let p := { p with questActive := true, currentStage := newStage }
    if !p.triggerStageReached && newStage ≥ cfg.quest.triggerStage then p.fireTrigger cfg
    else p

/-- Whether the quest of a stage event is the tracked one: it is found by its
FormID and its editor ID, not empty, is the configured one. -/
def Env.tracks (env : Env) (cfg : PluginConfig) (ev : QuestStageEvent) : Bool :=
  match env.questByFormID ev.formID with
  | none => false
  | some quest => quest.editorID != "" && quest.editorID == cfg.quest.questEditorID

/-- Whether a call of `CheckQuestState` passes its rate limit. -/
def Env.pollDue (env : Env) (cfg : PluginConfig) (w : World) : Bool :=
  decide (cfg.monitoring.checkIntervalMs ≤ elapsedMs env.steadyNow w.g_lastQuestCheck)

/-- An engine in which the tracked quest is found, not running, at stage
`stage`. -/
def stoppedQuestEnv (now : Int) (stage : Nat) : Env :=
  { sampleEnv now with
    questByEditorID := fun _ =>
      some { formID := 1, editorID := "YW_Quest_MDF", isRunning := false,
             currentStageID := stage }
    questByFormID := fun _ =>
      some { formID := 1, editorID := "YW_Quest_MDF", isRunning := false,
             currentStageID := stage } }

/-- An engine in which the tracked quest is found, running, at stage `stage`. -/
def runningQuestEnv (now : Int) (stage : Nat) : Env :=
  { sampleEnv now with
    questByEditorID := fun _ =>
      some { formID := 1, editorID := "YW_Quest_MDF", isRunning := true,
             currentStageID := stage }
    questByFormID := fun _ =>
      some { formID := 1, editorID := "YW_Quest_MDF", isRunning := true,
             currentStageID := stage } }

/-- An engine in which the console cannot run a command: the script factory
is missing. -/
def noConsoleEnv (now : Int) : Env :=
  { sampleEnv now with consoleOutcome := ConsoleOutcome.noFactory }

/-- The poller run in which the console fails at the moment of the completion,
followed by further polls, an item event and a direct call of
`ProcessQuestCompletion`. -/
def failedConsoleRun : List (Op × Env) :=
  pollerRun.take 2 ++
    [ (Op.processDelayedQuestCompletion, noConsoleEnv 9000000000),
      (Op.monitoringThreadIteration (runningQuestEnv 10000000000 30)
        (playerHasItemEnv 10000000000) (sampleEnv 10000000000), sampleEnv 10000000000),
      (Op.containerChangeEvent (some itemAddedEvent), sampleEnv 11000000000),
      (Op.processDelayedQuestCompletion, sampleEnv 20000000000),
      (Op.processQuestCompletion, sampleEnv 21000000000) ]

/-- The pipeline has not started: no trigger, no detection, no completion, no
delay awaited. -/
def Tally.Idle (t : Tally) : Prop :=
  t.trigger = false ∧ t.item = false ∧ t.done = false ∧ t.waiting = false

/-- The default configuration with the quest feature switched off. -/
def questDisabledConfig : PluginConfig :=
  { quest := { enabled := false } }

/-- A run of poller calls and sink notifications in which the engine shows the
quest at its completion stage and the item in the inventory. -/
def eagerRun : List (Op × Env) :=
  [ (Op.resolveFormIDs, runningQuestEnv 1000000000 30),
    (Op.checkQuestState, runningQuestEnv 2000000000 30),
    (Op.questStageEvent (some { formID := 1, stage := 30 }), runningQuestEnv 2500000000 30),
    (Op.checkPlayerInventory, playerHasItemEnv 3000000000),
    (Op.containerChangeEvent (some itemAddedEvent), sampleEnv 3500000000),
    (Op.monitoringThreadIteration (runningQuestEnv 8000000000 30)
      (playerHasItemEnv 8000000000) (sampleEnv 8000000000), sampleEnv 8000000000),
    (Op.processDelayedQuestCompletion, sampleEnv 20000000000) ]

/-! ## The detection flag and the identifier cache, together -/

/-- The detection flag of a world with its identifier cache. -/
def World.known (w : World) : Bool × CachedFormIDs :=
  (w.g_questState.itemDetected, w.g_cachedFormIDs)

/-- The moves of the detection flag and the cache that the poller, the sinks
and the lifecycle can make: nothing, `ResolveFormIDs`, a detection (made only
with a resolved item identifier), or a session reset. -/
inductive KnownStep (cfg : PluginConfig) :
    Bool × CachedFormIDs → Bool × CachedFormIDs → Prop
  | stay (x : Bool × CachedFormIDs) : KnownStep cfg x x
  | resolve (i : Bool) (c : CachedFormIDs) (env : Env) :
      KnownStep cfg (i, c) (i, c.resolve cfg env)
  | detect (i : Bool) (c : CachedFormIDs) (h : c.itemResolved = true) :
      KnownStep cfg (i, c) (true, c)
  | reset (x : Bool × CachedFormIDs) : KnownStep cfg x (false, {})
  | seq (a b c : Bool × CachedFormIDs) (h₁ : KnownStep cfg a b) (h₂ : KnownStep cfg b c) :
      KnownStep cfg a c

/-- A detected item has a resolved identifier, and a resolved identifier is
not zero. -/
def ItemKnown (x : Bool × CachedFormIDs) : Prop :=
  (x.1 = true → x.2.itemResolved = true)
    ∧ (x.2.itemResolved = true → x.2.itemFormID ≠ 0)

/-- The states reached from the reset state (progress at its initial values,
identifier cache empty) by calls of the poller, the event sinks and the
lifecycle, session resets included. -/
def SessionReachable (cfg : PluginConfig) (w : World) : Prop :=
  ∃ (w0 : World) (calls : List (Op × Env)),
    w0.progress = Progress.initial ∧ w0.g_cachedFormIDs = {}
      ∧ noDirect calls = true ∧ run cfg calls w0 = w

/-! ## The lines of a log file -/

/-- The non-empty lines of a text: its pieces between newlines, the empty ones
left out. -/
def nonEmptyLines (text : String) : List String :=
  ((splitLines [] text.data).filter (fun piece => !piece.isEmpty)).map String.mk

/-- A text without a newline character. -/
def singleLine (text : String) : Bool :=
  !text.data.contains '\n'

/-- An append for concrete checks whose message is `message`. -/
def sampleAppendOf (message : String) : Append :=
  { sampleAppend with message := message }

/-- The two files of a channel mirror its buffer: both hold the same lines,
each ended by a newline; their non-empty lines end with the buffered lines and
are as many as the counter says. -/
def LogChannel.Mirrored (ch : LogChannel) : Prop :=
  ∃ (xs pre : List String),
    ch.files.primary = bulkContent xs ∧ ch.files.secondary = bulkContent xs
    ∧ (∀ x ∈ xs, singleLine x = true)
    ∧ xs.filter (fun x => x != "") = pre ++ ch.lines
    ∧ (pre ++ ch.lines).length = ch.lineCount
    ∧ ch.lines.length ≤ 2000 ∧ ch.lineCount ≤ 2499

/-- The lines the specification singles out: an assignment of `TriggerStage`
or `CompletionStage` (section `Quest`) or of `CheckIntervalMs` or
`MaxDetectionDistance` (section `Monitoring`) whose value the conversion to a
number rejects. -/
def rejectedLine (stof : String → Except StoError FloatValue)
    (currentSection line : String) : Bool :=
  match classifyLine line with
  | IniLine.assign key value =>
    (currentSection == "Quest" && (key == "TriggerStage" || key == "CompletionStage")
        && !(stoi value).isOk)
    || (currentSection == "Monitoring"
        && ((key == "CheckIntervalMs" && !(stoi value).isOk)
          || (key == "MaxDetectionDistance" && !(stof value).isOk)))
  | _ => false

/-- The two fields of `RE::TESFile` that `GetFormIDFromPlugin` reads:
`compileIndex` is a `std::uint8_t`, `smallFileCompileIndex` a
`std::uint16_t`. -/
structure TESFile where
  compileIndex : Nat
  smallFileCompileIndex : Nat
deriving DecidableEq, Repr

/-- The value of a hexadecimal digit. -/
def hexDigitValue (c : Char) : Option Nat :=
  if '0' ≤ c ∧ c ≤ '9' then some (c.toNat - 48)
  else if 'a' ≤ c ∧ c ≤ 'f' then some (c.toNat - 87)
  else if 'A' ≤ c ∧ c ≤ 'F' then some (c.toNat - 55)
  else none

/-- `std::stoul(value, nullptr, 16)` with a 32-bit `unsigned long`, after
`strtoul` of the C standard: white space, an optional sign, an optional `0x`
or `0X` before a hexadecimal digit, then the hexadecimal digits; no digit is
`std::invalid_argument`, a number above `ULONG_MAX` is `std::out_of_range`,
and a minus sign negates in `unsigned long`. -/
def stoul16 (value : String) : Except StoError Nat :=
  let cs := value.data.dropWhile
    (fun c => [' ', '\t', '\n', '\x0b', '\x0c', '\r'].contains c)
  let signed : Bool × List Char :=
    match cs with
    | '-' :: rest => (true, rest)
    | '+' :: rest => (false, rest)
    | _ => (false, cs)
  let body : List Char :=
    match signed.2 with
    | '0' :: x :: d :: rest =>
      if (x = 'x' ∨ x = 'X') ∧ (hexDigitValue d).isSome then d :: rest else signed.2
    | _ => signed.2
  let digits := body.takeWhile (fun c => (hexDigitValue c).isSome)
  if digits.isEmpty then Except.error StoError.invalidArgument
  else
    let magnitude : Nat := digits.foldl (fun acc c => 16 * acc + (hexDigitValue c).getD 0) 0
    if 4294967295 < magnitude then Except.error StoError.outOfRange
    else Except.ok (if signed.1 then (4294967296 - magnitude) % 4294967296 else magnitude)

/-- The text `cleanID` (source lines 404 to 407): the local identifier without
one leading `XX`. -/
def cleanID (localFormID : String) : String :=
  if localFormID.data.length ≥ 2 ∧ localFormID.data.take 2 = ['X', 'X'] then
    String.mk (localFormID.data.drop 2)
  else localFormID

/-- The value of `modIndex` (source lines 417 to 420), a `uint8_t`: the
assignments keep the low eight bits. -/
def modIndexOf (file : TESFile) : Nat :=
  let modIndex := file.compileIndex % 256
  if modIndex = 0xFF then file.smallFileCompileIndex % 256 else modIndex

/-- `GetFormIDFromPlugin` (source lines 391 to 425). `stoul` is
`std::stoul(_, nullptr, 16)`; `dataHandler` is `LookupModByName` of
`RE::TESDataHandler::GetSingleton()`, absent when the singleton is null. The
result is a `RE::FormID`, an unsigned 32-bit number. -/
def GetFormIDFromPlugin (stoul : String → Except StoError Nat)
    (dataHandler : Option (String → Option TESFile)) (pluginName localFormID : String) : Nat :=
  match dataHandler with
  | none => 0
  | some lookupModByName =>
    match lookupModByName pluginName with
    | none => 0
    | some file =>
      match stoul (cleanID localFormID) with
      | Except.error _ => 0
      | Except.ok parsed =>
        let localID := parsed % 4294967296
        ((modIndexOf file <<< 24) % 4294967296) ||| (localID &&& 0x00FFFFFF)

/-- The index the specification calls the effective mod index: `compileIndex`,
or `smallFileCompileIndex` when `compileIndex` is `0xFF`. -/
def effectiveModIndex (file : TESFile) : Nat :=
  if file.compileIndex = 0xFF then file.smallFileCompileIndex else file.compileIndex

/-- A load order for concrete checks: the master file at index 0, one full
plugin at index `0x0A`, one light plugin at index `0x1A4` and one at index
`0x05`. -/
def sampleLoadOrder (pluginName : String) : Option TESFile :=
  if pluginName = "YurianaWench.esp" then
    some { compileIndex := 0x0A, smallFileCompileIndex := 0 }
  else if pluginName = "Light.esl" then
    some { compileIndex := 0xFF, smallFileCompileIndex := 0x1A4 }
  else if pluginName = "Early.esl" then
    some { compileIndex := 0xFF, smallFileCompileIndex := 0x05 }
  else if pluginName = "Skyrim.esm" then
    some { compileIndex := 0, smallFileCompileIndex := 0 }
  else none

/-- An append whose message holds a line break. -/
def twoLineAppend : Append :=
  sampleAppendOf "first\nsecond"

/-- A message of 2500 lines, each the letter `x`. -/
def manyLinesMessage : String :=
  "x\n" ++ bulkContent (List.replicate 2498 "x") ++ "x"

/-! # Theorems -/

/-! ## Arithmetic of the clock -/

theorem elapsedSeconds_lt_five (now before : Int) (h : before ≤ now) :
    elapsedSeconds now before < 5 ↔ now - before < 5 * nsPerSec := by
  unfold elapsedSeconds nsPerSec
  rw [Int.tdiv_eq_ediv (by omega) (by omega)]
  omega

/-! ## The tally through the helpers -/

theorem countP_snoc {α : Type} (p : α → Bool) (l : List α) (a : α) :
    (l ++ [a]).countP p = l.countP p + (if p a then 1 else 0) := by
  cases h : p a <;> simp [List.countP_append, List.countP_cons, h]

theorem tally_emit (e : Effect) (w : World) : (emit e w).tally = (w.tally).record e := by
  simp only [World.tally, Tally.record, World.triggerMessages, World.potionNotifications,
    World.consoleCommands, World.completionNotifications, World.triggerEvents,
    World.detectionEvents, emit, countP_snoc]

theorem tally_logQuest (m : String) (l : Nat) (w : World) (h1 : l ≠ 1101) :
    (logQuest m l w).tally = w.tally := by
  simp [logQuest, tally_emit, Tally.record, Effect.isTriggerMessage,
    Effect.isPotionNotification, Effect.isCompletionNotification, Effect.isConsoleCommand,
    Effect.isTriggerEvent, Effect.isDetectionEvent, h1]

theorem tally_logActions (m : String) (l : Nat) (w : World) (h2 : l ≠ 1157) :
    (logActions m l w).tally = w.tally := by
  simp [logActions, tally_emit, Tally.record, Effect.isTriggerMessage,
    Effect.isPotionNotification, Effect.isCompletionNotification, Effect.isConsoleCommand,
    Effect.isTriggerEvent, Effect.isDetectionEvent, h2]

theorem tally_logSystem (m : String) (l : Nat) (w : World) :
    (logSystem m l w).tally = w.tally := by
  simp [logSystem, tally_emit, Tally.record, Effect.isTriggerMessage,
    Effect.isPotionNotification, Effect.isCompletionNotification, Effect.isConsoleCommand,
    Effect.isTriggerEvent, Effect.isDetectionEvent]

theorem tally_ShowNotificationMessage (site : Nat) (m : String) (w : World) :
    (ShowNotificationMessage site m w).tally =
      if m = "" then w.tally else (w.tally).record (Effect.debugNotification site m) := by
  unfold ShowNotificationMessage
  split <;> simp only [tally_emit]

theorem tally_ShowMessageBox (env : Env) (site : Nat) (m : String) (w : World) :
    (ShowMessageBox env site m w).tally =
      if m = "" then w.tally
      else if env.hasMessageQueue then (w.tally).record (Effect.debugMessageBox site m)
      else (w.tally).record (Effect.debugNotification site m) := by
  unfold ShowMessageBox
  split
  · rfl
  · rename_i h
    cases env.hasMessageQueue <;> simp [tally_ShowNotificationMessage, tally_emit, h]

theorem tally_showTriggerMessage (cfg : PluginConfig) (env : Env) (w : World) :
    (showTriggerMessage cfg env w).tally =
      { w.tally with
        trigShown := w.tally.trigShown || cfg.displaysTrigger
        nTrigMsg := w.tally.nTrigMsg +
          (if cfg.displaysTrigger && !w.tally.trigShown
              && decide (cfg.messages.triggerMessage ≠ "") then 1 else 0) } := by
  have hs : w.tally.trigShown = w.g_triggerMessageShown := rfl
  have hu : ({ w with g_triggerMessageShown := true } : World).tally
      = { w.tally with trigShown := true } := rfl
  unfold showTriggerMessage PluginConfig.displaysTrigger
  rw [hs]
  by_cases hc : (cfg.messages.enabled && cfg.messages.showTriggerMessage
      && !w.g_triggerMessageShown) = true
  · rw [if_pos hc, tally_logActions _ _ _ (by decide), tally_ShowMessageBox, hu]
    simp only [Bool.and_eq_true, Bool.not_eq_true'] at hc
    obtain ⟨⟨h1, h2⟩, h3⟩ := hc
    by_cases hm : cfg.messages.triggerMessage = ""
    · simp [hm, h1, h2, h3, ← hs]
    · cases env.hasMessageQueue <;>
        simp [hm, h1, h2, h3, ← hs, Tally.record, Effect.isTriggerMessage,
          Effect.isPotionNotification, Effect.isCompletionNotification,
          Effect.isConsoleCommand, Effect.isTriggerEvent, Effect.isDetectionEvent]
  · rw [if_neg hc]
    cases h1 : cfg.messages.enabled <;> cases h2 : cfg.messages.showTriggerMessage <;>
      cases h3 : w.g_triggerMessageShown <;> simp [h1, h2, h3] at hc ⊢ <;>
      simp [World.tally, h3]

theorem record_other_notification (site : Nat) (m : String) (t : Tally)
    (h1 : site ≠ 1108) (h2 : site ≠ 1167) (h3 : site ≠ 1217) :
    t.record (Effect.debugNotification site m) = t := by
  simp [Tally.record, Effect.isTriggerMessage, Effect.isPotionNotification,
    Effect.isCompletionNotification, Effect.isConsoleCommand, Effect.isTriggerEvent,
    Effect.isDetectionEvent, h1, h2, h3]

theorem tally_notifyTriggerStage (cfg : PluginConfig) (w : World) :
    (notifyTriggerStage cfg w).tally = w.tally := by
  unfold notifyTriggerStage
  split
  · rw [tally_ShowNotificationMessage,
      record_other_notification _ _ _ (by decide) (by decide) (by decide)]
    simp
  · rfl

theorem tally_ProcessQuestTrigger (cfg : PluginConfig) (env : Env) (w : World) :
    (ProcessQuestTrigger cfg env w).tally = (w.tally).fireTrigger cfg := by
  have ht : w.tally.trigger = w.g_questState.triggerStageReached := rfl
  have hu : ({ w with g_questState := { w.g_questState with triggerStageReached := true } }
      : World).tally = { w.tally with trigger := true } := rfl
  unfold ProcessQuestTrigger Tally.fireTrigger
  rw [ht]
  split
  · rfl
  · simp only [tally_logActions _ _ _ (show (1116 : Nat) ≠ 1157 by decide),
      tally_notifyTriggerStage, tally_showTriggerMessage,
      tally_logQuest _ _ _ (show (1100 : Nat) ≠ 1101 by decide),
      tally_logQuest _ _ _ (show (1102 : Nat) ≠ 1101 by decide),
      tally_logQuest _ _ _ (show (1103 : Nat) ≠ 1101 by decide),
      tally_logQuest _ _ _ (show (1104 : Nat) ≠ 1101 by decide)]
    simp only [logQuest, tally_emit, hu]
    simp [Tally.record, Effect.isTriggerMessage, Effect.isPotionNotification,
      Effect.isCompletionNotification, Effect.isConsoleCommand, Effect.isTriggerEvent,
      Effect.isDetectionEvent]

theorem tally_showPotionDetected (w : World) :
    (showPotionDetected w).tally =
      { w.tally with
        potionShown := true
        nPotion := w.tally.nPotion + (if w.tally.potionShown then 0 else 1) } := by
  have hs : w.tally.potionShown = w.g_potionDetectedMessageShown := rfl
  have hu : ({ w with g_potionDetectedMessageShown := true } : World).tally
      = { w.tally with potionShown := true } := rfl
  unfold showPotionDetected
  rw [hs]
  cases h : w.g_potionDetectedMessageShown
  · simp only [Bool.not_false, if_true, tally_ShowNotificationMessage, hu]
    simp [potionDetectedText, Tally.record, Effect.isTriggerMessage,
      Effect.isPotionNotification, Effect.isCompletionNotification, Effect.isConsoleCommand,
      Effect.isTriggerEvent, Effect.isDetectionEvent]
  · simp [World.tally, h]

theorem tally_ProcessItemDetection (cfg : PluginConfig) (env : Env) (w : World) :
    (ProcessItemDetection cfg env w).tally = (w.tally).fireItemDetected := by
  have hi : w.tally.item = w.g_questState.itemDetected := rfl
  have hw : w.tally.waiting = w.g_waitingForPotionDelay := rfl
  have hu : ({ w with
      g_questState := { w.g_questState with itemDetected := true }
      g_waitingForPotionDelay := true
      g_potionDetectedTime := env.steadyNow } : World).tally
      = { w.tally with item := true, waiting := true } := rfl
  unfold ProcessItemDetection Tally.fireItemDetected
  rw [hi, hw]
  split
  · rfl
  · split
    · rfl
    · simp only [tally_showPotionDetected,
        tally_logActions _ _ _ (show (1156 : Nat) ≠ 1157 by decide),
        tally_logActions _ _ _ (show (1158 : Nat) ≠ 1157 by decide),
        tally_logActions _ _ _ (show (1161 : Nat) ≠ 1157 by decide),
        tally_logActions _ _ _ (show (1162 : Nat) ≠ 1157 by decide),
        tally_logActions _ _ _ (show (1163 : Nat) ≠ 1157 by decide)]
      simp only [logActions, tally_emit, hu]
      simp [Tally.record, Effect.isTriggerMessage, Effect.isPotionNotification,
        Effect.isCompletionNotification, Effect.isConsoleCommand, Effect.isTriggerEvent,
        Effect.isDetectionEvent]

theorem tally_ExecuteConsoleCommand (env : Env) (command : String) (w : World) :
    (ExecuteConsoleCommand env command w).tally =
      { w.tally with nConsole := w.tally.nConsole + 1 } := by
  unfold ExecuteConsoleCommand
  cases env.consoleOutcome <;>
    simp [tally_logActions, tally_emit, Tally.record, Effect.isTriggerMessage,
      Effect.isPotionNotification, Effect.isCompletionNotification, Effect.isConsoleCommand,
      Effect.isTriggerEvent, Effect.isDetectionEvent]

theorem tally_SetQuestStageViaConsole (env : Env) (q : String) (stage : Int) (w : World) :
    (SetQuestStageViaConsole env q stage w).2.tally =
      { w.tally with nConsole := w.tally.nConsole + 1 } := by
  unfold SetQuestStageViaConsole
  simp [tally_ExecuteConsoleCommand, tally_logQuest]

theorem tally_showCompletionMessage (cfg : PluginConfig) (w : World) :
    (showCompletionMessage cfg w).tally =
      { w.tally with
        complShown := w.tally.complShown || cfg.displaysCompletion
        nCompl := w.tally.nCompl +
          (if cfg.displaysCompletion && !w.tally.complShown
              && decide (cfg.messages.completionMessage ≠ "") then 1 else 0) } := by
  have hs : w.tally.complShown = w.g_completionMessageShown := rfl
  have hu : ({ w with g_completionMessageShown := true } : World).tally
      = { w.tally with complShown := true } := rfl
  unfold showCompletionMessage PluginConfig.displaysCompletion
  rw [hs]
  by_cases hc : (cfg.messages.enabled && cfg.messages.showCompletionMessage
      && !w.g_completionMessageShown) = true
  · rw [if_pos hc, tally_logActions _ _ _ (by decide), tally_ShowNotificationMessage, hu]
    simp only [Bool.and_eq_true, Bool.not_eq_true'] at hc
    obtain ⟨⟨h1, h2⟩, h3⟩ := hc
    by_cases hm : cfg.messages.completionMessage = ""
    · simp [hm, h1, h2, h3, ← hs]
    · simp [hm, h1, h2, h3, ← hs, Tally.record, Effect.isTriggerMessage,
        Effect.isPotionNotification, Effect.isCompletionNotification,
        Effect.isConsoleCommand, Effect.isTriggerEvent, Effect.isDetectionEvent]
  · rw [if_neg hc]
    cases h1 : cfg.messages.enabled <;> cases h2 : cfg.messages.showCompletionMessage <;>
      cases h3 : w.g_completionMessageShown <;> simp [h1, h2, h3] at hc ⊢ <;>
      simp [World.tally, h3]

theorem tally_ProcessQuestCompletionBody (cfg : PluginConfig) (env : Env) (w : World) :
    (ProcessQuestCompletionBody cfg env w).tally =
      { w.tally with
        done := true
        complShown := w.tally.complShown || cfg.displaysCompletion
        nCompl := w.tally.nCompl +
          (if cfg.displaysCompletion && !w.tally.complShown
              && decide (cfg.messages.completionMessage ≠ "") then 1 else 0)
        nConsole := w.tally.nConsole + 1 } := by
  have hu : ∀ v : World, ({ v with g_questState := { v.g_questState with completionDone := true } }
      : World).tally = { v.tally with done := true } := fun _ => rfl
  unfold ProcessQuestCompletionBody
  simp [tally_logActions, tally_logQuest, tally_showCompletionMessage, hu,
    tally_SetQuestStageViaConsole]

theorem tally_ProcessQuestCompletion (cfg : PluginConfig) (env : Env) (w : World) :
    (ProcessQuestCompletion cfg env w).tally = (w.tally).fireCompletion cfg := by
  have hd : w.tally.done = w.g_questState.completionDone := rfl
  unfold ProcessQuestCompletion Tally.fireCompletion
  rw [hd]
  split
  · rfl
  · rw [tally_ProcessQuestCompletionBody]

theorem tally_RemoveItemFromPlayer (env : Env) (id : Nat) (count : Int) (w : World) :
    (RemoveItemFromPlayer env id count w).2.tally = w.tally := by
  unfold RemoveItemFromPlayer
  split
  · rfl
  · split
    · rfl
    · split
      · rfl
      · split
        · simp [tally_logActions]
        · simp [tally_logActions, tally_emit, Tally.record, Effect.isTriggerMessage,
            Effect.isPotionNotification, Effect.isCompletionNotification,
            Effect.isConsoleCommand, Effect.isTriggerEvent, Effect.isDetectionEvent]

theorem tally_removeDetectedItem (cfg : PluginConfig) (env : Env) (w : World) :
    (removeDetectedItem cfg env w).tally = w.tally := by
  unfold removeDetectedItem
  split
  · simp only []
    split <;> simp [tally_logActions, tally_RemoveItemFromPlayer]
  · rfl

theorem tally_ProcessDelayedQuestCompletion (cfg : PluginConfig) (env : Env) (w : World) :
    (ProcessDelayedQuestCompletion cfg env w).tally =
      (w.tally).tickDelay cfg
        (decide (5 ≤ elapsedSeconds env.steadyNow w.g_potionDetectedTime)) := by
  have hi : w.tally.item = w.g_questState.itemDetected := rfl
  have hw : w.tally.waiting = w.g_waitingForPotionDelay := rfl
  have hd : w.tally.done = w.g_questState.completionDone := rfl
  have hu : ({ w with g_waitingForPotionDelay := false } : World).tally
      = { w.tally with waiting := false } := rfl
  unfold ProcessDelayedQuestCompletion Tally.tickDelay
  rw [hi, hw, hd]
  split
  · rfl
  · split
    · rfl
    · split
      · rfl
      · simp only []
        by_cases he : elapsedSeconds env.steadyNow w.g_potionDetectedTime < 5
        · have : ¬ (5 ≤ elapsedSeconds env.steadyNow w.g_potionDetectedTime) := by omega
          simp [he, this]
        · have : 5 ≤ elapsedSeconds env.steadyNow w.g_potionDetectedTime := by omega
          simp [he, this, tally_ProcessQuestCompletion, tally_removeDetectedItem,
            tally_logActions, hu]
          rfl

/-! ## The tally through the poller, the sinks and the lifecycle -/

theorem tally_resolveItem (cfg : PluginConfig) (env : Env) (w : World) :
    (resolveItem cfg env w).tally = w.tally := by
  unfold resolveItem
  split
  · simp only []
    split <;> rw [tally_logActions _ _ _ (by decide)] <;> rfl
  · rfl

theorem tally_resolveQuest (cfg : PluginConfig) (env : Env) (w : World) :
    (resolveQuest cfg env w).tally = w.tally := by
  unfold resolveQuest
  split
  · split
    · rw [tally_logQuest _ _ _ (by decide)]; rfl
    · rw [tally_logQuest _ _ _ (by decide)]
  · rfl

theorem tally_ResolveFormIDs (cfg : PluginConfig) (env : Env) (w : World) :
    (ResolveFormIDs cfg env w).tally = w.tally := by
  unfold ResolveFormIDs
  rw [tally_resolveQuest, tally_resolveItem]

theorem tally_questNotFound (cfg : PluginConfig) (w : World) :
    (questNotFound cfg w).tally = w.tally := by
  unfold questNotFound
  split
  · exact tally_logQuest _ _ w (by decide)
  · rfl

theorem tally_activateQuest (cfg : PluginConfig) (r : Bool) (stage : Int) (w : World) :
    (activateQuest cfg r stage w).tally = w.tally := by
  unfold activateQuest
  split
  · simp only [tally_logQuest _ _ _ (show (1067 : Nat) ≠ 1101 by decide),
      tally_logQuest _ _ _ (show (1068 : Nat) ≠ 1101 by decide),
      tally_logQuest _ _ _ (show (1069 : Nat) ≠ 1101 by decide),
      tally_logQuest _ _ _ (show (1070 : Nat) ≠ 1101 by decide),
      tally_logQuest _ _ _ (show (1071 : Nat) ≠ 1101 by decide),
      tally_logQuest _ _ _ (show (1072 : Nat) ≠ 1101 by decide)]
    rfl
  · rfl

theorem tally_recordStageChange (stage : Int) (w : World) :
    (recordStageChange stage w).tally = w.tally := by
  unfold recordStageChange
  split
  · exact tally_logQuest _ _ w (by decide)
  · rfl

theorem tally_deactivateQuest (cfg : PluginConfig) (r : Bool) (w : World) :
    (deactivateQuest cfg r w).tally = w.tally := by
  unfold deactivateQuest
  split
  · rw [tally_logQuest _ _ _ (by decide)]; rfl
  · rfl

theorem tally_checkTriggerStage (cfg : PluginConfig) (env : Env) (stage : Int) (w : World) :
    (checkTriggerStage cfg env stage w).tally =
      if w.g_questState.questActive && decide (cfg.quest.triggerStage ≤ stage)
        then (w.tally).fireTrigger cfg else w.tally := by
  have ht : w.tally.trigger = w.g_questState.triggerStageReached := rfl
  unfold checkTriggerStage
  cases ha : w.g_questState.questActive <;> cases hr : w.g_questState.triggerStageReached <;>
    by_cases hs : cfg.quest.triggerStage ≤ stage <;>
    simp [ha, hr, hs, tally_ProcessQuestTrigger, Tally.fireTrigger, ht]

theorem tallyStep_CheckQuestState (cfg : PluginConfig) (r d : Bool) (env : Env) (w : World) :
    TallyStep cfg r d w.tally (CheckQuestState cfg env w).tally := by
  unfold CheckQuestState
  split
  · exact TallyStep.stay _
  · split
    · exact TallyStep.stay _
    · simp only []
      split
      · exact TallyStep.stay _
      · split
        · rw [tally_questNotFound]; exact TallyStep.stay _
        · rw [tally_deactivateQuest, tally_checkTriggerStage, tally_recordStageChange,
            tally_activateQuest]
          split
          · exact TallyStep.trigger _
          · exact TallyStep.stay _

theorem tallyStep_detectItem (cfg : PluginConfig) (r d : Bool) (env : Env) (w : World)
    (ht : w.g_questState.triggerStageReached = true) :
    TallyStep cfg r d w.tally (detectItem cfg env w).tally := by
  have key : ∀ w1 : World, w1.tally = w.tally →
      TallyStep cfg r d w.tally
        (if !w1.g_cachedFormIDs.itemResolved then w1
          else if PlayerHasItem env w1.g_cachedFormIDs.itemFormID then
            ProcessItemDetection cfg env w1
          else w1).tally := by
    intro w1 h1
    split
    · rw [h1]; exact TallyStep.stay _
    · split
      · rw [tally_ProcessItemDetection, h1]
        exact TallyStep.detect _ ht
      · rw [h1]; exact TallyStep.stay _
  unfold detectItem
  exact key _ (by split
                  · exact tally_ResolveFormIDs cfg env w
                  · rfl)

theorem tallyStep_CheckPlayerInventory (cfg : PluginConfig) (r d : Bool) (env : Env)
    (w : World) : TallyStep cfg r d w.tally (CheckPlayerInventory cfg env w).tally := by
  unfold CheckPlayerInventory
  split
  · exact TallyStep.stay _
  · split
    · exact TallyStep.stay _
    · rename_i ht
      simp only [Bool.not_eq_true, Bool.not_eq_false'] at ht
      split
      · exact TallyStep.stay _
      · split
        · exact TallyStep.stay _
        · simp only []
          split
          · exact TallyStep.stay _
          · exact tallyStep_detectItem cfg r d env
              { w with g_lastItemCheck := env.steadyNow } ht

theorem tallyStep_ContainerChange (cfg : PluginConfig) (r d : Bool) (env : Env)
    (event : Option ContainerChangedEvent) (w : World) :
    TallyStep cfg r d w.tally (ContainerChangeEventSink.ProcessEvent cfg env event w).tally := by
  unfold ContainerChangeEventSink.ProcessEvent
  split
  · exact TallyStep.stay _
  · split
    · exact TallyStep.stay _
    · rename_i hg
      have ht : w.g_questState.triggerStageReached = true := by
        cases h : w.g_questState.triggerStageReached <;> simp [h] at hg ⊢
      split
      · exact TallyStep.stay _
      · split
        · split
          · rw [tally_ProcessItemDetection]
            simp only [tally_logActions _ _ _ (show (1288 : Nat) ≠ 1157 by decide),
              tally_logActions _ _ _ (show (1289 : Nat) ≠ 1157 by decide),
              tally_logActions _ _ _ (show (1292 : Nat) ≠ 1157 by decide),
              tally_logActions _ _ _ (show (1293 : Nat) ≠ 1157 by decide),
              tally_logActions _ _ _ (show (1294 : Nat) ≠ 1157 by decide)]
            exact TallyStep.detect _ ht
          · exact TallyStep.stay _
        · exact TallyStep.stay _

theorem tally_eventTriggerStage (cfg : PluginConfig) (env : Env) (stage : Int) (w : World) :
    (eventTriggerStage cfg env stage w).tally =
      if decide (cfg.quest.triggerStage ≤ stage) then (w.tally).fireTrigger cfg
      else w.tally := by
  have ht : w.tally.trigger = w.g_questState.triggerStageReached := rfl
  unfold eventTriggerStage
  cases hr : w.g_questState.triggerStageReached <;>
    by_cases hs : cfg.quest.triggerStage ≤ stage <;>
    simp [hr, hs, tally_ProcessQuestTrigger, Tally.fireTrigger, ht]

theorem tally_setActive (v : World) (b : Bool) (stage : Int) :
    ({ v with g_questState :=
        { v.g_questState with questActive := b, currentStage := stage } } : World).tally
      = v.tally := rfl

theorem tallyStep_QuestStage (cfg : PluginConfig) (r d : Bool) (env : Env)
    (event : Option QuestStageEvent) (w : World) :
    TallyStep cfg r d w.tally (QuestStageEventSink.ProcessEvent cfg env event w).tally := by
  unfold QuestStageEventSink.ProcessEvent
  split
  · exact TallyStep.stay _
  · split
    · exact TallyStep.stay _
    · split
      · exact TallyStep.stay _
      · split
        · exact TallyStep.stay _
        · simp only []
          split
          · exact TallyStep.stay _
          · split
            · simp only [tally_eventTriggerStage, tally_setActive,
                tally_logQuest _ _ _ (show (1346 : Nat) ≠ 1101 by decide),
                tally_logQuest _ _ _ (show (1347 : Nat) ≠ 1101 by decide),
                tally_logQuest _ _ _ (show (1348 : Nat) ≠ 1101 by decide),
                tally_logQuest _ _ _ (show (1349 : Nat) ≠ 1101 by decide),
                tally_logQuest _ _ _ (show (1350 : Nat) ≠ 1101 by decide)]
              split
              · exact TallyStep.trigger _
              · exact TallyStep.stay _
            · exact TallyStep.stay _

theorem tally_MenuEvent (event : Option MenuOpenCloseEvent) (w : World) :
    (GameEventProcessor.ProcessEvent event w).tally = w.tally := by
  unfold GameEventProcessor.ProcessEvent
  split
  · rfl
  · exact tally_logActions _ _ w (by decide)

theorem tally_setMonitoringStart (v : World) (t : Int) (b : Bool) :
    ({ v with g_monitoringStartTime := t, g_initialDelayComplete := b } : World).tally
      = v.tally := rfl

theorem tally_MonitoringThreadPrologue (env : Env) (w : World) :
    (MonitoringThreadPrologue env w).tally = w.tally := by
  unfold MonitoringThreadPrologue
  simp only [tally_setMonitoringStart, tally_logSystem]

theorem tallyStep_MonitoringCycle (cfg : PluginConfig) (r d : Bool) (envQ envI envD : Env)
    (w : World) : TallyStep cfg r d w.tally (MonitoringCycle cfg envQ envI envD w).tally := by
  unfold MonitoringCycle
  simp only []
  refine TallyStep.seq _ (CheckPlayerInventory cfg envI (CheckQuestState cfg envQ
      { w with g_monitorCycles := w.g_monitorCycles + 1 })).tally _ ?_ ?_
  · exact TallyStep.seq _ _ _ (tallyStep_CheckQuestState cfg r d envQ
      { w with g_monitorCycles := w.g_monitorCycles + 1 })
      (tallyStep_CheckPlayerInventory cfg r d envI _)
  · rw [tally_ProcessDelayedQuestCompletion]
    exact TallyStep.tick _ _

theorem tallyStep_MonitoringThreadIteration (cfg : PluginConfig) (r d : Bool)
    (envR envQ envI envD : Env) (w : World) :
    TallyStep cfg r d w.tally (MonitoringThreadIteration cfg envR envQ envI envD w).tally := by
  unfold MonitoringThreadIteration
  split
  · rw [tally_logSystem]; exact TallyStep.stay _
  · split
    · split
      · exact TallyStep.stay _
      · simp only []
        have h := tallyStep_MonitoringCycle cfg r d envQ envI envD
          (ResolveFormIDs cfg envR (logSystem
            "5-second initial delay complete, starting quest monitoring" 1392
            { w with g_initialDelayComplete := true }))
        rw [tally_ResolveFormIDs, tally_logSystem] at h
        exact h
    · exact tallyStep_MonitoringCycle cfg r d envQ envI envD w

theorem tally_StartMonitoringThread (env : Env) (w : World) :
    (StartMonitoringThread env w).tally =
      if w.g_monitoringActive then w.tally else (w.tally).reset := by
  unfold StartMonitoringThread
  cases h : w.g_monitoringActive
  · simp only [Bool.not_false, if_true, tally_logSystem, tally_emit]
    simp [Tally.record, Effect.isTriggerMessage, Effect.isPotionNotification,
      Effect.isCompletionNotification, Effect.isConsoleCommand, Effect.isTriggerEvent,
      Effect.isDetectionEvent]
    rfl
  · simp

theorem tally_reset_reset (t : Tally) : t.reset.reset = t.reset := rfl

theorem tally_sessionReset (v : World) (a b c : Bool) (t₁ t₂ : Int) :
    ({ v with
      g_isInGameTransition := a
      g_isShuttingDown := b
      g_initialDelayComplete := c
      g_questState := { v.g_questState with
        questActive := false
        triggerStageReached := false
        itemDetected := false
        completionDone := false
        currentStage := 0 }
      g_triggerMessageShown := false
      g_completionMessageShown := false
      g_potionDetectedMessageShown := false
      g_waitingForPotionDelay := false
      g_cachedFormIDs := { v.g_cachedFormIDs with
        questFormID := 0
        itemFormID := 0
        questResolved := false
        itemResolved := false }
      g_lastQuestCheck := t₁
      g_lastItemCheck := t₂ } : World).tally = (v.tally).reset := rfl

theorem tally_SessionStart (env : Env) (w : World) :
    (SessionStart env w).tally = (w.tally).reset := by
  unfold SessionStart ensureMonitoring
  simp only []
  rw [tally_logActions _ _ _ (by decide)]
  split
  · rw [tally_StartMonitoringThread]
    split <;>
      simp only [tally_logActions _ _ _ (show (1570 : Nat) ≠ 1157 by decide),
        tally_logActions _ _ _ (show (1567 : Nat) ≠ 1157 by decide),
        tally_logActions _ _ _ (show (1541 : Nat) ≠ 1157 by decide),
        tally_logActions _ _ _ (show (1540 : Nat) ≠ 1157 by decide),
        tally_sessionReset, tally_reset_reset]
  · simp only [tally_logActions _ _ _ (show (1573 : Nat) ≠ 1157 by decide),
      tally_logActions _ _ _ (show (1567 : Nat) ≠ 1157 by decide),
      tally_logActions _ _ _ (show (1541 : Nat) ≠ 1157 by decide),
      tally_logActions _ _ _ (show (1540 : Nat) ≠ 1157 by decide),
      tally_sessionReset]

theorem tally_MessageListener (type : MessageType) (env : Env) (w : World) :
    (MessageListener type env w).tally =
      if type = MessageType.kNewGame ∨ type = MessageType.kPostLoadGame
        then (w.tally).reset else w.tally := by
  cases type <;> simp only [MessageListener, tally_SessionStart, tally_logSystem] <;>
    simp
  · rw [show ∀ v : World, ({ v with g_isInGameTransition := true } : World).tally = v.tally
      from fun _ => rfl]
    exact tally_logActions _ _ w (by decide)

theorem tallyStep_step (cfg : PluginConfig) (r d : Bool) (op : Op) (env : Env) (w : World)
    (hr : op.isReset = true → r = true) (hd : op.isDirect = true → d = true) :
    TallyStep cfg r d w.tally (step cfg op env w).tally := by
  cases op with
  | checkQuestState => exact tallyStep_CheckQuestState cfg r d env w
  | checkPlayerInventory => exact tallyStep_CheckPlayerInventory cfg r d env w
  | processDelayedQuestCompletion =>
    show TallyStep cfg r d w.tally (ProcessDelayedQuestCompletion cfg env w).tally
    rw [tally_ProcessDelayedQuestCompletion]; exact TallyStep.tick _ _
  | resolveFormIDs =>
    show TallyStep cfg r d w.tally (ResolveFormIDs cfg env w).tally
    rw [tally_ResolveFormIDs]; exact TallyStep.stay _
  | monitoringThreadPrologue =>
    show TallyStep cfg r d w.tally (MonitoringThreadPrologue env w).tally
    rw [tally_MonitoringThreadPrologue]; exact TallyStep.stay _
  | monitoringThreadIteration envQ envI envD =>
    exact tallyStep_MonitoringThreadIteration cfg r d env envQ envI envD w
  | questStageEvent event => exact tallyStep_QuestStage cfg r d env event w
  | containerChangeEvent event => exact tallyStep_ContainerChange cfg r d env event w
  | menuEvent event =>
    show TallyStep cfg r d w.tally (GameEventProcessor.ProcessEvent event w).tally
    rw [tally_MenuEvent]; exact TallyStep.stay _
  | processQuestTrigger =>
    show TallyStep cfg r d w.tally (ProcessQuestTrigger cfg env w).tally
    rw [tally_ProcessQuestTrigger]; exact TallyStep.trigger _
  | processItemDetection =>
    show TallyStep cfg r d w.tally (ProcessItemDetection cfg env w).tally
    rw [tally_ProcessItemDetection]; exact TallyStep.detectDirect _ (hd rfl)
  | processQuestCompletion =>
    show TallyStep cfg r d w.tally (ProcessQuestCompletion cfg env w).tally
    rw [tally_ProcessQuestCompletion]; exact TallyStep.completeDirect _ (hd rfl)
  | startMonitoringThread =>
    show TallyStep cfg r d w.tally (StartMonitoringThread env w).tally
    rw [tally_StartMonitoringThread]
    split
    · exact TallyStep.stay _
    · exact TallyStep.reset _ (hr rfl)
  | message type =>
    show TallyStep cfg r d w.tally (MessageListener type env w).tally
    rw [tally_MessageListener]
    split
    · rename_i h
      refine TallyStep.reset _ (hr ?_)
      rcases h with h | h <;> subst h <;> rfl
    · exact TallyStep.stay _

theorem run_nil (cfg : PluginConfig) (w : World) : run cfg [] w = w := rfl

theorem run_cons (cfg : PluginConfig) (c : Op × Env) (calls : List (Op × Env)) (w : World) :
    run cfg (c :: calls) w = run cfg calls (step cfg c.1 c.2 w) := rfl

theorem run_append (cfg : PluginConfig) (xs ys : List (Op × Env)) (w : World) :
    run cfg (xs ++ ys) w = run cfg ys (run cfg xs w) := by
  simp [run, List.foldl_append]

theorem tallyStep_run (cfg : PluginConfig) (r d : Bool) (calls : List (Op × Env)) (w : World)
    (hr : ∀ c ∈ calls, c.1.isReset = true → r = true)
    (hd : ∀ c ∈ calls, c.1.isDirect = true → d = true) :
    TallyStep cfg r d w.tally (run cfg calls w).tally := by
  induction calls generalizing w with
  | nil => exact TallyStep.stay _
  | cons c calls ih =>
    rw [run_cons]
    exact TallyStep.seq _ _ _
      (tallyStep_step cfg r d c.1 c.2 w (hr c (List.mem_cons_self _ _))
        (hd c (List.mem_cons_self _ _)))
      (ih _ (fun x hx => hr x (List.mem_cons_of_mem _ hx))
        (fun x hx => hd x (List.mem_cons_of_mem _ hx)))

/-! ## Invariants of the tally -/

theorem Ordered_step (cfg : PluginConfig) (a b : Tally)
    (h : TallyStep cfg true false a b) (ha : a.Ordered) : b.Ordered := by
  induction h with
  | stay t => exact ha
  | trigger t =>
    obtain ⟨h1, h2, h3⟩ := ha
    unfold Tally.fireTrigger
    split
    · exact ⟨h1, h2, h3⟩
    · exact ⟨h1, h2, fun _ => rfl⟩
  | detect t ht =>
    obtain ⟨h1, h2, h3⟩ := ha
    unfold Tally.fireItemDetected
    split
    · exact ⟨h1, h2, h3⟩
    · split
      · exact ⟨h1, h2, h3⟩
      · exact ⟨fun _ => rfl, fun _ => rfl, fun _ => ht⟩
  | tick t elapsed =>
    obtain ⟨h1, h2, h3⟩ := ha
    unfold Tally.tickDelay
    split
    · exact ⟨h1, h2, h3⟩
    · split
      · exact ⟨h1, h2, h3⟩
      · rename_i hi
        simp only [Bool.not_eq_true, Bool.not_eq_false'] at hi
        split
        · exact ⟨h1, h2, h3⟩
        · split
          · exact ⟨h1, h2, h3⟩
          · unfold Tally.fireCompletion
            split
            · exact ⟨fun _ => hi, fun h => by simp at h, h3⟩
            · exact ⟨fun _ => hi, fun h => by simp at h, h3⟩
  | reset t _ =>
    exact ⟨fun h => by simp [Tally.reset] at h, fun h => by simp [Tally.reset] at h,
      fun h => by simp [Tally.reset] at h⟩
  | detectDirect t h => simp at h
  | completeDirect t h => simp at h
  | seq a b c _ _ ih₁ ih₂ => exact ih₂ (ih₁ ha)

theorem Once_of_initial (cfg : PluginConfig) (w : World)
    (h0 : w.progress = Progress.initial) (ht : w.trace = []) : (w.tally).Once cfg := by
  have h := congrArg Progress.triggerStageReached h0
  have h2 := congrArg Progress.itemDetected h0
  have h3 := congrArg Progress.completionDone h0
  have h4 := congrArg Progress.triggerMessageShown h0
  have h5 := congrArg Progress.completionMessageShown h0
  have h6 := congrArg Progress.potionDetectedMessageShown h0
  simp only [World.progress, Progress.initial] at h h2 h3 h4 h5 h6
  constructor <;>
    simp [World.tally, World.triggerMessages, World.potionNotifications,
      World.consoleCommands, World.completionNotifications, World.triggerEvents,
      World.detectionEvents, h, h2, h3, h4, h5, h6, ht]

theorem fireCompletion_done (cfg : PluginConfig) (t : Tally) :
    (t.fireCompletion cfg).done = true := by
  unfold Tally.fireCompletion
  split
  · assumption
  · rfl

theorem delayed_noop (cfg : PluginConfig) (env : Env) (w : World)
    (he : elapsedSeconds env.steadyNow w.g_potionDetectedTime < 5) :
    ProcessDelayedQuestCompletion cfg env w = w := by
  unfold ProcessDelayedQuestCompletion
  simp [he]

theorem delayed_fires (cfg : PluginConfig) (env : Env) (w : World)
    (hw : w.g_waitingForPotionDelay = true) (hi : w.g_questState.itemDetected = true)
    (hc : w.g_questState.completionDone = false)
    (he : 5 ≤ elapsedSeconds env.steadyNow w.g_potionDetectedTime) :
    (ProcessDelayedQuestCompletion cfg env w).g_questState.completionDone = true := by
  have h := congrArg Tally.done (tally_ProcessDelayedQuestCompletion cfg env w)
  have e1 : w.tally.waiting = true := hw
  have e2 : w.tally.item = true := hi
  have e3 : w.tally.done = false := hc
  simp only [Tally.tickDelay, e1, e2, e3, he, decide_True, Bool.not_true, Bool.false_eq_true,
    if_false, fireCompletion_done] at h
  exact h

/-- C3.  In a state that waits for the delay (`g_waitingForPotionDelay` and
`itemDetected` true, `completionDone` false), at a time `now` not earlier than
the recorded detection time, `ProcessDelayedQuestCompletion` sets
`completionDone` if and only if `now - detectionTime ≥ 5 s`; before that it
changes nothing at all.  In particular at 4.999 s it is a no-op and at 5.000 s
it fires: truncating the elapsed time to whole seconds does not move the
threshold. -/
theorem delay_threshold (cfg : PluginConfig) (env : Env) (w : World)
    (hw : w.g_waitingForPotionDelay = true) (hi : w.g_questState.itemDetected = true)
    (hc : w.g_questState.completionDone = false)
    (hnow : w.g_potionDetectedTime ≤ env.steadyNow) :
    ((ProcessDelayedQuestCompletion cfg env w).g_questState.completionDone = true
        ↔ 5 * nsPerSec ≤ env.steadyNow - w.g_potionDetectedTime)
    ∧ (env.steadyNow - w.g_potionDetectedTime < 5 * nsPerSec →
        ProcessDelayedQuestCompletion cfg env w = w)
    ∧ (env.steadyNow = w.g_potionDetectedTime + 4999 * nsPerMs →
        ProcessDelayedQuestCompletion cfg env w = w)
    ∧ (env.steadyNow = w.g_potionDetectedTime + 5000 * nsPerMs →
        (ProcessDelayedQuestCompletion cfg env w).g_questState.completionDone = true) := by
  have hlt := elapsedSeconds_lt_five env.steadyNow w.g_potionDetectedTime hnow
  have hno : env.steadyNow - w.g_potionDetectedTime < 5 * nsPerSec →
      ProcessDelayedQuestCompletion cfg env w = w :=
    fun h => delayed_noop cfg env w (hlt.mpr h)
  have hyes : 5 * nsPerSec ≤ env.steadyNow - w.g_potionDetectedTime →
      (ProcessDelayedQuestCompletion cfg env w).g_questState.completionDone = true := by
    intro h
    refine delayed_fires cfg env w hw hi hc ?_
    by_contra hcon
    have := hlt.mp (by omega)
    omega
  refine ⟨⟨?_, hyes⟩, hno, ?_, ?_⟩
  · intro hdone
    by_contra hcon
    rw [hno (by omega), hc] at hdone
    exact Bool.false_ne_true hdone
  · intro h
    exact hno (by simp only [h, nsPerSec, nsPerMs]; omega)
  · intro h
    exact hyes (by simp only [h, nsPerSec, nsPerMs]; omega)

theorem delay_threshold_witness :
    waitingWorld.g_waitingForPotionDelay = true
    ∧ waitingWorld.g_questState.itemDetected = true
    ∧ waitingWorld.g_questState.completionDone = false
    ∧ waitingWorld.g_potionDetectedTime ≤ (sampleEnv 5000000001).steadyNow
    ∧ ((ProcessDelayedQuestCompletion {} (sampleEnv 5000000001) waitingWorld
          ).g_questState.completionDone = true
        ↔ 5 * nsPerSec ≤ (sampleEnv 5000000001).steadyNow - waitingWorld.g_potionDetectedTime) :=
  ⟨by decide, by decide, by decide, by decide,
    (delay_threshold {} (sampleEnv 5000000001) waitingWorld
      (by decide) (by decide) (by decide) (by decide)).1⟩

/-! ## C4: the session reset -/

theorem SessionStart_progress (env : Env) (w : World) :
    (SessionStart env w).progress = Progress.initial := by
  cases h : w.g_monitoringActive <;>
    simp [SessionStart, ensureMonitoring, StartMonitoringThread, World.progress,
      Progress.initial, logActions, logSystem, emit, h]

theorem SessionStart_cached (env : Env) (w : World) :
    (SessionStart env w).g_cachedFormIDs = {} := by
  cases h : w.g_monitoringActive <;>
    simp [SessionStart, ensureMonitoring, StartMonitoringThread, logActions, logSystem,
      emit, h]

/-- C4.  From every prior state, with the monitoring thread active or not,
handling `kNewGame` or `kPostLoadGame` leaves the progress state at its initial
values (all flags false, stage 0) and the cached identifiers cleared (both
FormIDs 0, both resolved flags false). -/
theorem session_start_resets (env : Env) (w : World) :
    (MessageListener MessageType.kNewGame env w).progress = Progress.initial
    ∧ (MessageListener MessageType.kNewGame env w).g_cachedFormIDs
        = { questFormID := 0, itemFormID := 0, questResolved := false, itemResolved := false }
    ∧ (MessageListener MessageType.kPostLoadGame env w).progress = Progress.initial
    ∧ (MessageListener MessageType.kPostLoadGame env w).g_cachedFormIDs
        = { questFormID := 0, itemFormID := 0, questResolved := false, itemResolved := false } :=
  ⟨SessionStart_progress env w, SessionStart_cached env w, SessionStart_progress env w,
    SessionStart_cached env w⟩

/-! ## The logger: buffer and counter -/

theorem writeToLog_lines (tag : String) (c : LogClock) (f : DualOutcome) (m : String)
    (l : Int) (ch : LogChannel) :
    (writeToLog tag c f m l ch).lines =
      if (ch.lines ++ [formatLogLine tag c m l]).length > 2000
        then (ch.lines ++ [formatLogLine tag c m l]).tail
        else ch.lines ++ [formatLogLine tag c m l] := by
  unfold writeToLog
  simp only []
  split <;> rfl

theorem Channel.write_eq (c : Channel) (a : Append) (ch : LogChannel) :
    c.write a ch = writeToLog c.tag a.clock a.fsys a.message a.lineNumber ch := by
  cases c <;> rfl

theorem Channel.appendAll_snoc (c : Channel) (as : List Append) (a : Append)
    (ch : LogChannel) : c.appendAll (as ++ [a]) ch = c.write a (c.appendAll as ch) := by
  simp [Channel.appendAll, List.foldl_append]

theorem Channel.write_lines (c : Channel) (a : Append) (ch : LogChannel) :
    (c.write a ch).lines =
      if (ch.lines ++ [c.line a]).length > 2000 then (ch.lines ++ [c.line a]).tail
      else ch.lines ++ [c.line a] := by
  rw [Channel.write_eq, writeToLog_lines]; rfl

theorem buffer_after (c : Channel) (as : List Append) :
    (c.appendAll as {}).lines = (as.map c.line).drop (as.length - 2000) := by
  induction as using List.reverseRecOn with
  | nil => rfl
  | append_singleton as a ih =>
    rw [Channel.appendAll_snoc, Channel.write_lines, ih]
    have hlen : ((as.map c.line).drop (as.length - 2000) ++ [c.line a]).length
        = min as.length 2000 + 1 := by
      simp only [List.length_append, List.length_drop, List.length_map, List.length_singleton]
      omega
    rw [hlen]
    simp only [List.map_append, List.map_cons, List.map_nil, List.length_append,
      List.length_singleton]
    by_cases h : as.length < 2000
    · have h1 : ¬ (min as.length 2000 + 1 > 2000) := by omega
      rw [if_neg h1]
      have e1 : as.length - 2000 = 0 := by omega
      have e2 : as.length + 1 - 2000 = 0 := by omega
      rw [e1, e2]; rfl
    · have h1 : min as.length 2000 + 1 > 2000 := by omega
      rw [if_pos h1]
      have e2 : as.length + 1 - 2000 = (as.length - 2000) + 1 := by omega
      rw [e2, ← List.drop_drop 1]
      have hle : as.length - 2000 ≤ (as.map c.line).length := by
        simp only [List.length_map]; omega
      rw [List.drop_append_of_le_length hle, List.drop_one]

theorem buffer_length (c : Channel) (as : List Append) :
    (c.appendAll as {}).lines.length = min as.length 2000 := by
  rw [buffer_after]
  simp only [List.length_drop, List.length_map]
  omega

theorem Channel.write_lineCount (c : Channel) (a : Append) (ch : LogChannel) :
    (c.write a ch).lineCount =
      if compacts ch then (c.write a ch).lines.length else ch.lineCount + 1 := by
  rw [Channel.write_eq]
  unfold writeToLog compacts
  simp only []
  split <;> simp [*]

theorem counter_after (c : Channel) (as : List Append) :
    (c.appendAll as {}).lineCount = lineCountAfter as.length := by
  induction as using List.reverseRecOn with
  | nil => rfl
  | append_singleton as a ih =>
    have hl := buffer_length c (as ++ [a])
    rw [Channel.appendAll_snoc] at hl ⊢
    rw [Channel.write_lineCount, hl]
    unfold compacts
    rw [ih]
    simp only [List.length_append, List.length_singleton]
    unfold lineCountAfter
    by_cases h1 : as.length < 2500
    · rw [if_pos h1]
      by_cases h2 : as.length + 1 < 2500
      · rw [if_pos h2]
        have : ¬ (as.length + 1 ≥ 2500) := by omega
        simp [this]
      · rw [if_neg h2]
        have : as.length + 1 ≥ 2500 := by omega
        simp only [this, decide_True, if_true]
        omega
    · rw [if_neg h1]
      have h2 : ¬ (as.length + 1 < 2500) := by omega
      rw [if_neg h2]
      by_cases h3 : 2000 + (as.length - 2500) % 500 + 1 ≥ 2500
      · simp only [h3, decide_True, if_true]
        omega
      · simp only [h3, decide_False]
        simp only [Bool.false_eq_true, if_false]
        omega

theorem compacts_after (c : Channel) (as : List Append) :
    compacts (c.appendAll as {}) = true
      ↔ (2500 ≤ as.length + 1 ∧ (as.length + 1 - 2500) % 500 = 0) := by
  unfold compacts
  rw [counter_after]
  unfold lineCountAfter
  simp only [decide_eq_true_eq]
  split <;> omega

theorem counter_below_2500 (c : Channel) (as : List Append) :
    (c.appendAll as {}).lineCount < 2500 := by
  rw [counter_after]
  unfold lineCountAfter
  split <;> omega

/-! ## C5: the buffer keeps the last 2000 lines -/

/-- C5.  For each channel and every sequence of appends to the fresh channel,
the buffer holds at most 2000 lines: exactly the last `min n 2000` formatted
lines, in append order.  After 2001 appends it is the lines 2 to 2001: the
first line is gone and the 2001st is the last one. -/
theorem buffer_keeps_last_2000 (c : Channel) (as : List Append) :
    (c.appendAll as {}).lines.length ≤ 2000
    ∧ (c.appendAll as {}).lines.length = min as.length 2000
    ∧ (c.appendAll as {}).lines = (as.map c.line).drop (as.length - min as.length 2000)
    ∧ (∀ (first : Append) (rest : List Append), as = first :: rest → rest.length = 2000 →
        (c.appendAll as {}).lines = rest.map c.line) := by
  have hl := buffer_length c as
  have hb := buffer_after c as
  refine ⟨by omega, hl, ?_, ?_⟩
  · have e : as.length - min as.length 2000 = as.length - 2000 := by omega
    rw [hb, e]
  · intro first rest he hr
    have e : as.length - 2000 = 1 := by
      rw [he, List.length_cons]
      omega
    rw [hb, e, he, List.map_cons, List.drop_one, List.tail_cons]

theorem buffer_keeps_last_2000_witness :
    (List.replicate 2000 sampleAppend).length = 2000
    ∧ (Channel.quest.appendAll (sampleAppend :: List.replicate 2000 sampleAppend) {}).lines
        = (List.replicate 2000 sampleAppend).map Channel.quest.line :=
  ⟨List.length_replicate _ _,
    (buffer_keeps_last_2000 Channel.quest (sampleAppend :: List.replicate 2000 sampleAppend)
      ).2.2.2 sampleAppend (List.replicate 2000 sampleAppend) rfl
      (List.length_replicate _ _)⟩

/-! ## C6: what an append writes -/

theorem writeDestination_ok (o : DestOutcome) (content : String) (mode : OpenMode)
    (file : String) (h1 : o.directoryThrows = false) (h2 : o.opens = true) :
    writeDestination o content mode file =
      match mode with
      | OpenMode.app => file ++ content ++ "\n"
      | OpenMode.trunc => content ++ "\n" := by
  cases mode <;> simp [writeDestination, h1, h2]

theorem succeeds_iff (f : DualOutcome) :
    f.succeeds = true ↔
      (f.primary.directoryThrows = false ∧ f.primary.opens = true
        ∧ f.secondary.directoryThrows = false ∧ f.secondary.opens = true) := by
  unfold DualOutcome.succeeds
  cases f.primary.directoryThrows <;> cases f.primary.opens <;>
    cases f.secondary.directoryThrows <;> cases f.secondary.opens <;> simp

theorem Channel.write_files (c : Channel) (a : Append) (ch : LogChannel) :
    (c.write a ch).files =
      if compacts ch then
        WriteToDualPath a.fsys (bulkContent (c.write a ch).lines) OpenMode.trunc ch.files
      else WriteToDualPath a.fsys (c.line a) OpenMode.app ch.files := by
  rw [Channel.write_eq]
  unfold writeToLog compacts
  simp only []
  split <;> simp [*, Channel.line]

theorem string_append_newline_ne (s : String) : s ++ "\n" ≠ s := by
  intro h
  have h1 := congrArg String.length h
  have h2 : ("\n" : String).length = 1 := rfl
  rw [String.length_append, h2] at h1
  omega

/-- What one append does to a channel that was filled from the fresh state,
when both destinations can be written.  It compacts exactly when the
incremented counter is 2500.  A compacting append sets the counter to the
size of the buffer and replaces each file by the buffered lines, each followed
by a newline, and one more newline; any other append increments the counter
and adds the new line and a newline to each file. -/
theorem append_effect (c : Channel) (as : List Append) (a : Append)
    (hok : a.fsys.succeeds = true) :
    (compacts (c.appendAll as {}) = true ↔ (c.appendAll as {}).lineCount + 1 = 2500)
    ∧ (compacts (c.appendAll as {}) = true →
        (c.appendAll (as ++ [a]) {}).lineCount = (c.appendAll (as ++ [a]) {}).lines.length
        ∧ (c.appendAll (as ++ [a]) {}).files.primary
            = bulkContent (c.appendAll (as ++ [a]) {}).lines ++ "\n"
        ∧ (c.appendAll (as ++ [a]) {}).files.secondary
            = bulkContent (c.appendAll (as ++ [a]) {}).lines ++ "\n")
    ∧ (compacts (c.appendAll as {}) = false →
        (c.appendAll (as ++ [a]) {}).lineCount = (c.appendAll as {}).lineCount + 1
        ∧ (c.appendAll (as ++ [a]) {}).files.primary
            = (c.appendAll as {}).files.primary ++ c.line a ++ "\n"
        ∧ (c.appendAll (as ++ [a]) {}).files.secondary
            = (c.appendAll as {}).files.secondary ++ c.line a ++ "\n") := by
  obtain ⟨p1, p2, s1, s2⟩ := (succeeds_iff a.fsys).mp hok
  have hlt := counter_below_2500 c as
  refine ⟨?_, ?_, ?_⟩
  · unfold compacts
    simp only [decide_eq_true_eq]
    omega
  · intro hc
    rw [Channel.appendAll_snoc, Channel.write_lineCount, Channel.write_files]
    simp [hc, WriteToDualPath, writeDestination_ok _ _ _ _ p1 p2,
      writeDestination_ok _ _ _ _ s1 s2]
  · intro hc
    rw [Channel.appendAll_snoc, Channel.write_lineCount, Channel.write_files]
    simp [hc, WriteToDualPath, writeDestination_ok _ _ _ _ p1 p2,
      writeDestination_ok _ _ _ _ s1 s2]

theorem append_effect_witness :
    sampleAppend.fsys.succeeds = true
    ∧ (compacts (Channel.actions.appendAll [sampleAppend] {}) = true
        ↔ (Channel.actions.appendAll [sampleAppend] {}).lineCount + 1 = 2500) :=
  ⟨rfl, (append_effect Channel.actions [sampleAppend] sampleAppend rfl).1⟩

/-- C6, the code at the failing input.  The 2500th append to a channel, with
both destinations writable, takes the compaction branch, and each destination
file then holds the buffered lines, each followed by a newline, followed by one
more newline: the contents are not the buffer alone. -/
theorem compaction_adds_blank_line (c : Channel) (as : List Append) (a : Append)
    (hlen : as.length = 2499) (hok : a.fsys.succeeds = true) :
    compacts (c.appendAll as {}) = true
    ∧ (c.appendAll (as ++ [a]) {}).files.primary
        = bulkContent (c.appendAll (as ++ [a]) {}).lines ++ "\n"
    ∧ (c.appendAll (as ++ [a]) {}).files.secondary
        = bulkContent (c.appendAll (as ++ [a]) {}).lines ++ "\n"
    ∧ (c.appendAll (as ++ [a]) {}).files.primary
        ≠ bulkContent (c.appendAll (as ++ [a]) {}).lines
    ∧ (c.appendAll (as ++ [a]) {}).files.secondary
        ≠ bulkContent (c.appendAll (as ++ [a]) {}).lines := by
  obtain ⟨p1, p2, s1, s2⟩ := (succeeds_iff a.fsys).mp hok
  have hc : compacts (c.appendAll as {}) = true := by
    rw [compacts_after, hlen]
    decide
  have hf : (c.appendAll (as ++ [a]) {}).files.primary
        = bulkContent (c.appendAll (as ++ [a]) {}).lines ++ "\n"
      ∧ (c.appendAll (as ++ [a]) {}).files.secondary
        = bulkContent (c.appendAll (as ++ [a]) {}).lines ++ "\n" := by
    rw [Channel.appendAll_snoc, Channel.write_files]
    simp [hc, WriteToDualPath, writeDestination_ok _ _ _ _ p1 p2,
      writeDestination_ok _ _ _ _ s1 s2]
  refine ⟨hc, hf.1, hf.2, ?_, ?_⟩
  · rw [hf.1]; exact string_append_newline_ne _
  · rw [hf.2]; exact string_append_newline_ne _

theorem compaction_adds_blank_line_witness :
    (List.replicate 2499 sampleAppend).length = 2499
    ∧ sampleAppend.fsys.succeeds = true
    ∧ (Channel.actions.appendAll (List.replicate 2499 sampleAppend ++ [sampleAppend])
          {}).files.primary
        ≠ bulkContent (Channel.actions.appendAll
            (List.replicate 2499 sampleAppend ++ [sampleAppend]) {}).lines :=
  ⟨List.length_replicate _ _, rfl,
    (compaction_adds_blank_line Channel.actions (List.replicate 2499 sampleAppend)
      sampleAppend (List.length_replicate _ _) rfl).2.2.2.1⟩

/-! ## C7: when compaction happens -/

/-- C7, as amended.  After `n` appends to a fresh channel the counter is `n`
while `n < 2500` and `2000 + (n - 2500) mod 500` from then on; the next append
compacts exactly when its number `n + 1` is 2500, 3000, 3500, ...: the first
compaction comes with the 2500th append and each later one 500 appends after
the previous one.  The counter drops to the buffer size at every compaction. -/
theorem compaction_every_500 (c : Channel) (as : List Append) :
    (c.appendAll as {}).lineCount = lineCountAfter as.length
    ∧ (compacts (c.appendAll as {}) = true
        ↔ (2500 ≤ as.length + 1 ∧ (as.length + 1 - 2500) % 500 = 0)) :=
  ⟨counter_after c as, compacts_after c as⟩

/-- C7, counterexample to the claim as stated.  On the actions channel the
2500th append compacts and so does the 3000th, only 500 appends later; and the
counter, 2499 after 2499 appends, is 2000 after the 2500th: it decreased. -/
theorem compactions_500_apart :
    compacts (Channel.actions.appendAll (List.replicate 2499 sampleAppend) {}) = true
    ∧ compacts (Channel.actions.appendAll (List.replicate 2999 sampleAppend) {}) = true
    ∧ (Channel.actions.appendAll (List.replicate 2499 sampleAppend) {}).lineCount = 2499
    ∧ (Channel.actions.appendAll (List.replicate 2500 sampleAppend) {}).lineCount = 2000 := by
  refine ⟨?_, ?_, ?_, ?_⟩
  · rw [compacts_after, List.length_replicate]; decide
  · rw [compacts_after, List.length_replicate]; decide
  · rw [counter_after, List.length_replicate]; decide
  · rw [counter_after, List.length_replicate]; decide

/-! ## Frame lemmas: `g_lastQuestCheck`, `questActive` -/

theorem lq_ShowNotificationMessage (site : Nat) (m : String) (w : World) :
    (ShowNotificationMessage site m w).g_lastQuestCheck = w.g_lastQuestCheck := by
  unfold ShowNotificationMessage; split <;> rfl

theorem lq_ShowMessageBox (env : Env) (site : Nat) (m : String) (w : World) :
    (ShowMessageBox env site m w).g_lastQuestCheck = w.g_lastQuestCheck := by
  unfold ShowMessageBox
  split
  · rfl
  · split
    · exact lq_ShowNotificationMessage _ _ _
    · rfl

theorem lq_ProcessQuestTrigger (cfg : PluginConfig) (env : Env) (w : World) :
    (ProcessQuestTrigger cfg env w).g_lastQuestCheck = w.g_lastQuestCheck := by
  unfold ProcessQuestTrigger
  split
  · rfl
  · show (notifyTriggerStage cfg _).g_lastQuestCheck = _
    unfold notifyTriggerStage
    have hs : ∀ v : World, (showTriggerMessage cfg env v).g_lastQuestCheck
        = v.g_lastQuestCheck := by
      intro v
      unfold showTriggerMessage
      split
      · show (ShowMessageBox env _ _ _).g_lastQuestCheck = _
        rw [lq_ShowMessageBox]
      · rfl
    split
    · rw [lq_ShowNotificationMessage, hs]; rfl
    · rw [hs]; rfl

theorem lq_activateQuest (cfg : PluginConfig) (r : Bool) (s : Int) (w : World) :
    (activateQuest cfg r s w).g_lastQuestCheck = w.g_lastQuestCheck := by
  unfold activateQuest; split <;> rfl

theorem lq_recordStageChange (s : Int) (w : World) :
    (recordStageChange s w).g_lastQuestCheck = w.g_lastQuestCheck := by
  unfold recordStageChange; split <;> rfl

theorem lq_checkTriggerStage (cfg : PluginConfig) (env : Env) (s : Int) (w : World) :
    (checkTriggerStage cfg env s w).g_lastQuestCheck = w.g_lastQuestCheck := by
  unfold checkTriggerStage
  split
  · split
    · exact lq_ProcessQuestTrigger cfg env w
    · rfl
  · rfl

theorem lq_deactivateQuest (cfg : PluginConfig) (r : Bool) (w : World) :
    (deactivateQuest cfg r w).g_lastQuestCheck = w.g_lastQuestCheck := by
  unfold deactivateQuest; split <;> rfl

theorem lq_eventTriggerStage (cfg : PluginConfig) (env : Env) (s : Int) (w : World) :
    (eventTriggerStage cfg env s w).g_lastQuestCheck = w.g_lastQuestCheck := by
  unfold eventTriggerStage
  split
  · exact lq_ProcessQuestTrigger cfg env w
  · rfl

theorem active_activateQuest (cfg : PluginConfig) (s : Int) (w : World) :
    (activateQuest cfg true s w).g_questState.questActive = true := by
  unfold activateQuest
  cases h : w.g_questState.questActive
  · simp only [Bool.not_false, Bool.and_self, if_true]; rfl
  · simp [h]

theorem active_recordStageChange (s : Int) (w : World) :
    (recordStageChange s w).g_questState.questActive = w.g_questState.questActive := by
  unfold recordStageChange; split <;> rfl

/-! ## One stage observation -/

theorem poll_observation (cfg : PluginConfig) (o : StageObs) (w : World)
    (hq : cfg.quest.enabled = true) (hd : w.g_questState.completionDone = false)
    (hv : o.viaEvent = false)
    (hr : cfg.monitoring.checkIntervalMs ≤ elapsedMs o.env.steadyNow w.g_lastQuestCheck) :
    (step cfg (o.call cfg).1 (o.call cfg).2 w).tally =
        (if decide (cfg.quest.triggerStage ≤ (o.value : Int)) then (w.tally).fireTrigger cfg
          else w.tally)
    ∧ (step cfg (o.call cfg).1 (o.call cfg).2 w).g_lastQuestCheck = o.env.steadyNow := by
  have hc : o.call cfg = (Op.checkQuestState, o.engine cfg) := by
    unfold StageObs.call; simp [hv]
  have hnot : ¬ (elapsedMs o.env.steadyNow w.g_lastQuestCheck
      < cfg.monitoring.checkIntervalMs) := by omega
  rw [hc]
  show (CheckQuestState cfg (o.engine cfg) w).tally = _
    ∧ (CheckQuestState cfg (o.engine cfg) w).g_lastQuestCheck = _
  unfold CheckQuestState
  have he : (o.engine cfg).steadyNow = o.env.steadyNow := rfl
  have hl : (o.engine cfg).questByEditorID cfg.quest.questEditorID
      = some { formID := o.formID, editorID := cfg.quest.questEditorID,
               isRunning := true, currentStageID := o.value } := rfl
  simp only [hq, hd, Bool.not_true, Bool.false_eq_true, if_false, he, hnot, hl]
  constructor
  · rw [tally_deactivateQuest, tally_checkTriggerStage, tally_recordStageChange,
      tally_activateQuest, active_recordStageChange, active_activateQuest]
    simp only [Bool.true_and, GetQuestCurrentStage]
    rfl
  · rw [lq_deactivateQuest, lq_checkTriggerStage, lq_recordStageChange, lq_activateQuest]

theorem event_observation (cfg : PluginConfig) (o : StageObs) (w : World)
    (hq : cfg.quest.enabled = true) (hid : cfg.quest.questEditorID ≠ "")
    (hd : w.g_questState.completionDone = false) (hv : o.viaEvent = true) :
    (step cfg (o.call cfg).1 (o.call cfg).2 w).tally =
        (if decide (cfg.quest.triggerStage ≤ (o.value : Int)) then (w.tally).fireTrigger cfg
          else w.tally)
    ∧ (step cfg (o.call cfg).1 (o.call cfg).2 w).g_lastQuestCheck = w.g_lastQuestCheck := by
  have hc : o.call cfg
      = (Op.questStageEvent (some { formID := o.formID, stage := o.value }), o.engine cfg) := by
    unfold StageObs.call; simp [hv]
  rw [hc]
  show (QuestStageEventSink.ProcessEvent cfg (o.engine cfg) _ w).tally = _
    ∧ (QuestStageEventSink.ProcessEvent cfg (o.engine cfg) _ w).g_lastQuestCheck = _
  unfold QuestStageEventSink.ProcessEvent
  have hl : (o.engine cfg).questByFormID o.formID
      = some { formID := o.formID, editorID := cfg.quest.questEditorID,
               isRunning := true, currentStageID := o.value } := rfl
  simp only [hq, hd, Bool.not_true, Bool.false_eq_true, if_false, hl, hid, if_true]
  constructor
  · simp only [tally_eventTriggerStage, tally_setActive,
      tally_logQuest _ _ _ (show (1346 : Nat) ≠ 1101 by decide),
      tally_logQuest _ _ _ (show (1347 : Nat) ≠ 1101 by decide),
      tally_logQuest _ _ _ (show (1348 : Nat) ≠ 1101 by decide),
      tally_logQuest _ _ _ (show (1349 : Nat) ≠ 1101 by decide),
      tally_logQuest _ _ _ (show (1350 : Nat) ≠ 1101 by decide)]
  · have h1 : ∀ (m : String) (l : Nat) (v : World),
        (logQuest m l v).g_lastQuestCheck = v.g_lastQuestCheck := fun _ _ _ => rfl
    have h2 : ∀ (v : World) (q : QuestStateData),
        ({ v with g_questState := q } : World).g_lastQuestCheck = v.g_lastQuestCheck :=
      fun _ _ => rfl
    simp only [lq_eventTriggerStage, h1, h2]

/-! ## C8: a sequence of stage observations -/

theorem fireTrigger_idem (cfg : PluginConfig) (t : Tally) :
    (t.fireTrigger cfg).fireTrigger cfg = t.fireTrigger cfg := by
  unfold Tally.fireTrigger
  split
  · simp [*]
  · simp

theorem fireTrigger_done (cfg : PluginConfig) (t : Tally) :
    (t.fireTrigger cfg).done = t.done := by
  unfold Tally.fireTrigger
  split <;> rfl

theorem observe_tally (cfg : PluginConfig) (hq : cfg.quest.enabled = true)
    (hid : cfg.quest.questEditorID ≠ "") (obs : List StageObs) (w : World)
    (hd : w.g_questState.completionDone = false)
    (hs : pollsSpaced cfg w.g_lastQuestCheck obs = true) :
    (observe cfg obs w).tally =
      if reachesTrigger cfg obs then (w.tally).fireTrigger cfg else w.tally := by
  induction obs generalizing w with
  | nil => rfl
  | cons o os ih =>
    have hstep : (step cfg (o.call cfg).1 (o.call cfg).2 w).tally =
          (if decide (cfg.quest.triggerStage ≤ (o.value : Int))
            then (w.tally).fireTrigger cfg else w.tally)
        ∧ pollsSpaced cfg (step cfg (o.call cfg).1 (o.call cfg).2 w).g_lastQuestCheck os
            = true := by
      cases hv : o.viaEvent
      · simp only [pollsSpaced, hv, Bool.false_eq_true, if_false, Bool.and_eq_true,
          decide_eq_true_eq] at hs
        have h := poll_observation cfg o w hq hd hv hs.1
        exact ⟨h.1, by rw [h.2]; exact hs.2⟩
      · simp only [pollsSpaced, hv, if_true] at hs
        have h := event_observation cfg o w hq hid hd hv
        exact ⟨h.1, by rw [h.2]; exact hs⟩
    have hd1 : (step cfg (o.call cfg).1 (o.call cfg).2 w).g_questState.completionDone
        = false := by
      have : (step cfg (o.call cfg).1 (o.call cfg).2 w).tally.done = false := by
        rw [hstep.1]
        split
        · rw [fireTrigger_done]; exact hd
        · exact hd
      exact this
    have hrun : observe cfg (o :: os) w
        = observe cfg os (step cfg (o.call cfg).1 (o.call cfg).2 w) := rfl
    rw [hrun, ih _ hd1 hstep.2, hstep.1]
    unfold reachesTrigger
    rw [List.any_cons]
    by_cases h1 : cfg.quest.triggerStage ≤ (o.value : Int)
    · simp only [h1, decide_True, Bool.true_or, if_true, fireTrigger_idem]
      split <;> rfl
    · simp only [h1, decide_False, Bool.false_or, Bool.false_eq_true, if_false]

theorem pollsSpaced_take (cfg : PluginConfig) (obs : List StageObs) (last : Int) (k : Nat)
    (hs : pollsSpaced cfg last obs = true) : pollsSpaced cfg last (obs.take k) = true := by
  induction obs generalizing last k with
  | nil => simp [pollsSpaced]
  | cons o os ih =>
    cases k with
    | zero => simp [pollsSpaced]
    | succ k =>
      rw [List.take_succ_cons]
      cases hv : o.viaEvent
      · simp only [pollsSpaced, hv, Bool.false_eq_true, if_false, Bool.and_eq_true] at hs ⊢
        exact ⟨hs.1, ih _ _ hs.2⟩
      · simp only [pollsSpaced, hv, if_true] at hs ⊢
        exact ih _ _ hs

/-- C8.  With quest monitoring enabled and a tracked quest that has an editor
id, let any sequence of stage values of the running tracked quest be observed
from the reset state, each by a poll that comes at least `checkIntervalMs`
after the previous poll or by a stage event.  After the first `k` observations
the trace holds one trigger event if one of them showed a value at or past the
trigger stage, and none otherwise: the trigger event happens at the first such
observation and at no later one.  No number of stage observations sets
`completionDone` or issues a console command. -/
theorem stage_observations_trigger_once (cfg : PluginConfig) (obs : List StageObs)
    (w : World) (k : Nat) (hq : cfg.quest.enabled = true)
    (hid : cfg.quest.questEditorID ≠ "") (h0 : w.progress = Progress.initial)
    (ht : w.trace = []) (hs : pollsSpaced cfg w.g_lastQuestCheck obs = true) :
    (observe cfg (obs.take k) w).triggerEvents
        = (if reachesTrigger cfg (obs.take k) then 1 else 0)
    ∧ (observe cfg (obs.take k) w).g_questState.triggerStageReached
        = reachesTrigger cfg (obs.take k)
    ∧ (observe cfg (obs.take k) w).g_questState.completionDone = false
    ∧ (observe cfg (obs.take k) w).consoleCommands = 0 := by
  have hi := Once_of_initial cfg w h0 ht
  have hd : w.g_questState.completionDone = false := by
    have := congrArg Progress.completionDone h0
    exact this
  have htr : w.tally.trigger = false := by
    have := congrArg Progress.triggerStageReached h0
    exact this
  have hdone : w.tally.done = false := hd
  have hT := observe_tally cfg hq hid (obs.take k) w hd (pollsSpaced_take cfg obs _ k hs)
  have e1 : (observe cfg (obs.take k) w).triggerEvents
      = (observe cfg (obs.take k) w).tally.nTrigEv := rfl
  have e2 : (observe cfg (obs.take k) w).g_questState.triggerStageReached
      = (observe cfg (obs.take k) w).tally.trigger := rfl
  have e3 : (observe cfg (obs.take k) w).g_questState.completionDone
      = (observe cfg (obs.take k) w).tally.done := rfl
  have e4 : (observe cfg (obs.take k) w).consoleCommands
      = (observe cfg (obs.take k) w).tally.nConsole := rfl
  have n1 := hi.nTrigEv
  have n2 := hi.nConsole
  rw [htr] at n1
  rw [hdone] at n2
  rw [e1, e2, e3, e4, hT]
  cases hr : reachesTrigger cfg (obs.take k)
  · simp only [Bool.false_eq_true, if_false]
    exact ⟨by simpa using n1, htr, hdone, by simpa using n2⟩
  · simp only [if_true, Tally.fireTrigger, htr, Bool.false_eq_true, if_false]
    exact ⟨by simp [n1], trivial, hdone, by simpa using n2⟩

theorem stage_observations_trigger_once_witness :
    ({} : PluginConfig).quest.enabled = true
    ∧ ({} : PluginConfig).quest.questEditorID ≠ ""
    ∧ ({} : World).progress = Progress.initial
    ∧ ({} : World).trace = []
    ∧ pollsSpaced {} ({} : World).g_lastQuestCheck scenarioStages = true
    ∧ (observe {} (scenarioStages.take 1) {}).triggerEvents = 0
    ∧ (observe {} (scenarioStages.take 2) {}).triggerEvents = 1
    ∧ (observe {} (scenarioStages.take 3) {}).triggerEvents = 1
    ∧ (observe {} (scenarioStages.take 4) {}).triggerEvents = 1
    ∧ (observe {} (scenarioStages.take 4) {}).g_questState.completionDone = false
    ∧ (observe {} (scenarioStages.take 4) {}).consoleCommands = 0 :=
  ⟨rfl, by decide, rfl, rfl, by decide,
    (stage_observations_trigger_once {} scenarioStages {} 1 rfl (by decide) rfl rfl
      (by decide)).1,
    (stage_observations_trigger_once {} scenarioStages {} 2 rfl (by decide) rfl rfl
      (by decide)).1,
    (stage_observations_trigger_once {} scenarioStages {} 3 rfl (by decide) rfl rfl
      (by decide)).1,
    (stage_observations_trigger_once {} scenarioStages {} 4 rfl (by decide) rfl rfl
      (by decide)).1,
    (stage_observations_trigger_once {} scenarioStages {} 4 rfl (by decide) rfl rfl
      (by decide)).2.2.1,
    (stage_observations_trigger_once {} scenarioStages {} 4 rfl (by decide) rfl rfl
      (by decide)).2.2.2⟩

/-! ## C10: completion presupposes the trigger -/

theorem Ordered_of_initial (w : World) (h0 : w.progress = Progress.initial) :
    (w.tally).Ordered := by
  have h1 := congrArg Progress.itemDetected h0
  have h2 := congrArg Progress.completionDone h0
  have h3 := congrArg Progress.waitingForPotionDelay h0
  simp only [World.progress, Progress.initial] at h1 h2 h3
  refine ⟨?_, ?_, ?_⟩ <;> intro h <;> simp [World.tally, h1, h2, h3] at h

/-- C10.  In every state reached from the reset state by calls of the poller,
of the event sinks and of the lifecycle (session resets included), but without
direct calls of the transition functions, `completionDone` implies
`triggerStageReached`. -/
theorem completion_implies_trigger (cfg : PluginConfig) (calls : List (Op × Env))
    (w : World) (h0 : w.progress = Progress.initial) (hd : noDirect calls = true) :
    (run cfg calls w).g_questState.completionDone = true →
      (run cfg calls w).g_questState.triggerStageReached = true := by
  have hstep := tallyStep_run cfg true false calls w (fun _ _ _ => rfl) (by
    intro c hc hdir
    have := (List.all_eq_true.mp hd) c hc
    simp [hdir] at this)
  have h := Ordered_step cfg _ _ hstep (Ordered_of_initial w h0)
  intro hdone
  exact h.2.2 (h.1 hdone)

theorem completion_implies_trigger_witness :
    ({} : World).progress = Progress.initial
    ∧ noDirect pollerRun = true
    ∧ (run {} pollerRun {}).g_questState.completionDone = true
    ∧ (run {} pollerRun {}).g_questState.triggerStageReached = true :=
  ⟨rfl, rfl, by decide,
    completion_implies_trigger {} pollerRun {} rfl rfl (by decide)⟩

/-! ## C9: observing the item -/

theorem waiting_step (cfg : PluginConfig) (r d : Bool) (a b : Tally)
    (h : TallyStep cfg r d a b) (ha : a.waiting = true → a.item = true) :
    b.waiting = true → b.item = true := by
  induction h with
  | stay t => exact ha
  | trigger t =>
    unfold Tally.fireTrigger
    split <;> exact ha
  | detect t _ =>
    unfold Tally.fireItemDetected
    split
    · exact ha
    · split
      · exact ha
      · exact fun _ => rfl
  | tick t elapsed =>
    unfold Tally.tickDelay
    split
    · exact ha
    · split
      · exact ha
      · split
        · exact ha
        · split
          · exact ha
          · unfold Tally.fireCompletion
            split <;> (intro h; simp at h)
  | reset t _ => intro h; simp [Tally.reset] at h
  | detectDirect t _ =>
    unfold Tally.fireItemDetected
    split
    · exact ha
    · split
      · exact ha
      · exact fun _ => rfl
  | completeDirect t _ =>
    unfold Tally.fireCompletion
    split <;> exact ha
  | seq a b c _ _ ih₁ ih₂ => exact ih₂ (ih₁ ha)

theorem Reachable.waiting_item {cfg : PluginConfig} {w : World} (h : Reachable cfg w) :
    w.g_waitingForPotionDelay = true → w.g_questState.itemDetected = true := by
  obtain ⟨w0, calls, h0, hrun⟩ := h
  subst hrun
  have hstep := tallyStep_run cfg true true calls w0 (fun _ _ _ => rfl) (fun _ _ _ => rfl)
  refine waiting_step cfg true true _ _ hstep ?_
  intro hw
  have h3 := congrArg Progress.waitingForPotionDelay h0
  simp only [World.progress, Progress.initial] at h3
  have : w0.tally.waiting = false := h3
  rw [this] at hw
  exact absurd hw (by decide)

theorem CheckPlayerInventory_idle (cfg : PluginConfig) (env : Env) (w : World)
    (h : ¬ (w.g_questState.triggerStageReached = true ∧ w.g_questState.itemDetected = false
      ∧ w.g_questState.completionDone = false)) :
    CheckPlayerInventory cfg env w = w := by
  unfold CheckPlayerInventory
  cases h1 : w.g_questState.triggerStageReached <;> cases h2 : w.g_questState.itemDetected <;>
    cases h3 : w.g_questState.completionDone <;> simp [h1, h2, h3] at h ⊢

theorem ContainerChange_idle (cfg : PluginConfig) (env : Env)
    (event : Option ContainerChangedEvent) (w : World)
    (h : ¬ (w.g_questState.triggerStageReached = true ∧ w.g_questState.itemDetected = false
      ∧ w.g_questState.completionDone = false ∧ w.g_cachedFormIDs.itemResolved = true)) :
    ContainerChangeEventSink.ProcessEvent cfg env event w = w := by
  unfold ContainerChangeEventSink.ProcessEvent
  cases event with
  | none => rfl
  | some ev =>
    cases h1 : w.g_questState.triggerStageReached <;>
      cases h2 : w.g_questState.itemDetected <;>
      cases h3 : w.g_questState.completionDone <;>
      cases h4 : w.g_cachedFormIDs.itemResolved <;> simp [h1, h2, h3, h4] at h ⊢
    split <;> rfl

theorem item_resolveQuest (cfg : PluginConfig) (env : Env) (w : World) :
    (resolveQuest cfg env w).g_cachedFormIDs.itemResolved = w.g_cachedFormIDs.itemResolved
    ∧ (resolveQuest cfg env w).g_cachedFormIDs.itemFormID = w.g_cachedFormIDs.itemFormID := by
  unfold resolveQuest
  split
  · split <;> exact ⟨rfl, rfl⟩
  · exact ⟨rfl, rfl⟩

theorem item_resolveItem (cfg : PluginConfig) (env : Env) (w : World)
    (hen : cfg.item.enabled = true) (hr : w.g_cachedFormIDs.itemResolved = false)
    (hid : env.formIDFromPlugin cfg.item.itemPlugin cfg.item.itemID ≠ 0) :
    (resolveItem cfg env w).g_cachedFormIDs.itemResolved = true
    ∧ (resolveItem cfg env w).g_cachedFormIDs.itemFormID
        = env.formIDFromPlugin cfg.item.itemPlugin cfg.item.itemID := by
  unfold resolveItem
  simp only [hen, hr, Bool.not_false, Bool.and_self, if_true, hid, ne_eq, not_false_eq_true]
  exact ⟨rfl, rfl⟩

theorem PlayerHasItem_ne_zero (env : Env) (id : Nat) (h : PlayerHasItem env id = true) :
    id ≠ 0 := by
  intro h0
  subst h0
  simp [PlayerHasItem] at h

theorem detectItem_fires (cfg : PluginConfig) (env : Env) (w : World)
    (hen : cfg.item.enabled = true)
    (hhas : PlayerHasItem env (env.formIDFromPlugin cfg.item.itemPlugin cfg.item.itemID) = true)
    (hid : w.g_cachedFormIDs.itemResolved = true →
      w.g_cachedFormIDs.itemFormID = env.formIDFromPlugin cfg.item.itemPlugin cfg.item.itemID) :
    (detectItem cfg env w).tally = (w.tally).fireItemDetected
    ∧ (detectItem cfg env w).g_cachedFormIDs.itemResolved = true := by
  have key : ∀ w1 : World, w1.tally = w.tally → w1.g_cachedFormIDs.itemResolved = true →
      w1.g_cachedFormIDs.itemFormID = env.formIDFromPlugin cfg.item.itemPlugin cfg.item.itemID →
      (if !w1.g_cachedFormIDs.itemResolved then w1
        else if PlayerHasItem env w1.g_cachedFormIDs.itemFormID then
          ProcessItemDetection cfg env w1
        else w1).tally = (w.tally).fireItemDetected
      ∧ (if !w1.g_cachedFormIDs.itemResolved then w1
        else if PlayerHasItem env w1.g_cachedFormIDs.itemFormID then
          ProcessItemDetection cfg env w1
        else w1).g_cachedFormIDs.itemResolved = true := by
    intro w1 h1 h2 h3
    simp only [h2, h3, hhas, Bool.not_true, Bool.false_eq_true, if_false, if_true,
      tally_ProcessItemDetection, h1, true_and]
    unfold ProcessItemDetection
    split
    · exact h2
    · split
      · exact h2
      · show (showPotionDetected _).g_cachedFormIDs.itemResolved = true
        unfold showPotionDetected
        split
        · unfold ShowNotificationMessage
          split <;> exact h2
        · exact h2
  unfold detectItem
  cases hr : w.g_cachedFormIDs.itemResolved
  · have hne := PlayerHasItem_ne_zero env _ hhas
    have hi := item_resolveItem cfg env w hen hr hne
    have hq := item_resolveQuest cfg env (resolveItem cfg env w)
    simp only [Bool.not_false, if_true]
    refine key (ResolveFormIDs cfg env w) (tally_ResolveFormIDs cfg env w) ?_ ?_
    · unfold ResolveFormIDs; rw [hq.1, hi.1]
    · unfold ResolveFormIDs; rw [hq.2, hi.2]
  · simp only [Bool.not_true, Bool.false_eq_true, if_false]
    have := key w rfl hr (hid hr)
    simpa [hr] using this

theorem fireItemDetected_fresh (t : Tally) (hi : t.item = false) (hw : t.waiting = false) :
    t.fireItemDetected.item = true ∧ t.fireItemDetected.nDetEv = t.nDetEv + 1 := by
  unfold Tally.fireItemDetected
  simp [hi, hw]

theorem progress_ne_of_item (w w' : World) (h : w.g_questState.itemDetected = false)
    (h' : w'.g_questState.itemDetected = true) : w'.progress ≠ w.progress := by
  intro he
  have := congrArg Progress.itemDetected he
  simp only [World.progress] at this
  rw [h, h'] at this
  exact absurd this (by decide)

theorem CheckPlayerInventory_fires (cfg : PluginConfig) (env : Env) (w : World)
    (hen : cfg.item.enabled = true)
    (hdue : cfg.monitoring.checkIntervalMs ≤ elapsedMs env.steadyNow w.g_lastItemCheck)
    (hhas : PlayerHasItem env (env.formIDFromPlugin cfg.item.itemPlugin cfg.item.itemID) = true)
    (hid : w.g_cachedFormIDs.itemResolved = true →
      w.g_cachedFormIDs.itemFormID = env.formIDFromPlugin cfg.item.itemPlugin cfg.item.itemID)
    (h1 : w.g_questState.triggerStageReached = true)
    (h2 : w.g_questState.itemDetected = false)
    (h3 : w.g_questState.completionDone = false) :
    (CheckPlayerInventory cfg env w).tally = (w.tally).fireItemDetected
    ∧ (CheckPlayerInventory cfg env w).g_cachedFormIDs.itemResolved = true := by
  have hnot : ¬ (elapsedMs env.steadyNow w.g_lastItemCheck
      < cfg.monitoring.checkIntervalMs) := by omega
  unfold CheckPlayerInventory
  simp only [hen, h1, h2, h3, Bool.not_true, Bool.false_eq_true, if_false, hnot]
  exact detectItem_fires cfg env { w with g_lastItemCheck := env.steadyNow } hen hhas hid

theorem ContainerChange_fires (cfg : PluginConfig) (env : Env) (ev : ContainerChangedEvent)
    (w : World) (hpl : env.player = some ev.newContainer)
    (hid : w.g_cachedFormIDs.itemResolved = true → ev.baseObj = w.g_cachedFormIDs.itemFormID)
    (h1 : w.g_questState.triggerStageReached = true)
    (h2 : w.g_questState.itemDetected = false)
    (h3 : w.g_questState.completionDone = false)
    (h4 : w.g_cachedFormIDs.itemResolved = true) :
    (ContainerChangeEventSink.ProcessEvent cfg env (some ev) w).tally
      = (w.tally).fireItemDetected := by
  unfold ContainerChangeEventSink.ProcessEvent
  simp only [h1, h2, h3, h4, hpl, hid h4, Bool.not_true, Bool.or_self, Bool.false_eq_true,
    if_false, if_true, beq_self_eq_true, Bool.and_self, tally_ProcessItemDetection,
    tally_logActions _ _ _ (show (1288 : Nat) ≠ 1157 by decide),
    tally_logActions _ _ _ (show (1289 : Nat) ≠ 1157 by decide),
    tally_logActions _ _ _ (show (1292 : Nat) ≠ 1157 by decide),
    tally_logActions _ _ _ (show (1293 : Nat) ≠ 1157 by decide),
    tally_logActions _ _ _ (show (1294 : Nat) ≠ 1157 by decide)]

/-- C9.  Let the state be reachable.  On the poll path let the inventory poll
be due, with item monitoring enabled, and let the player hold the tracked item
(the item the configuration names, whose id the cache holds when it is
resolved; the poll resolves it on demand).  On the event path let the event
move the tracked item into the player's container.  Then the observation
changes the progress state and emits a detection event exactly when
`triggerStageReached` is true and `itemDetected` and `completionDone` are false
(for the event: and the item identifier is resolved); otherwise it changes
nothing, in particular while `triggerStageReached` is false.  When it fires, it
emits one detection event, and observing again emits no second one. -/
theorem item_observation (cfg : PluginConfig) (w : World) (envP envE : Env)
    (ev : ContainerChangedEvent) (hreach : Reachable cfg w)
    (hen : cfg.item.enabled = true)
    (hdue : cfg.monitoring.checkIntervalMs ≤ elapsedMs envP.steadyNow w.g_lastItemCheck)
    (hhas : PlayerHasItem envP
      (envP.formIDFromPlugin cfg.item.itemPlugin cfg.item.itemID) = true)
    (hidP : w.g_cachedFormIDs.itemResolved = true → w.g_cachedFormIDs.itemFormID
      = envP.formIDFromPlugin cfg.item.itemPlugin cfg.item.itemID)
    (hpl : envE.player = some ev.newContainer)
    (hidE : w.g_cachedFormIDs.itemResolved = true →
      ev.baseObj = w.g_cachedFormIDs.itemFormID) :
    ((w.g_questState.triggerStageReached = true ∧ w.g_questState.itemDetected = false
        ∧ w.g_questState.completionDone = false) →
      (CheckPlayerInventory cfg envP w).progress ≠ w.progress
      ∧ (CheckPlayerInventory cfg envP w).detectionEvents = w.detectionEvents + 1
      ∧ (CheckPlayerInventory cfg envP w).g_cachedFormIDs.itemResolved = true
      ∧ ∀ env₂ : Env, CheckPlayerInventory cfg env₂ (CheckPlayerInventory cfg envP w)
          = CheckPlayerInventory cfg envP w)
    ∧ (¬ (w.g_questState.triggerStageReached = true ∧ w.g_questState.itemDetected = false
        ∧ w.g_questState.completionDone = false) →
      CheckPlayerInventory cfg envP w = w)
    ∧ ((w.g_questState.triggerStageReached = true ∧ w.g_questState.itemDetected = false
        ∧ w.g_questState.completionDone = false ∧ w.g_cachedFormIDs.itemResolved = true) →
      (ContainerChangeEventSink.ProcessEvent cfg envE (some ev) w).progress ≠ w.progress
      ∧ (ContainerChangeEventSink.ProcessEvent cfg envE (some ev) w).detectionEvents
          = w.detectionEvents + 1
      ∧ ∀ (env₂ : Env) (ev₂ : Option ContainerChangedEvent),
          ContainerChangeEventSink.ProcessEvent cfg env₂ ev₂
            (ContainerChangeEventSink.ProcessEvent cfg envE (some ev) w)
          = ContainerChangeEventSink.ProcessEvent cfg envE (some ev) w)
    ∧ (¬ (w.g_questState.triggerStageReached = true ∧ w.g_questState.itemDetected = false
        ∧ w.g_questState.completionDone = false ∧ w.g_cachedFormIDs.itemResolved = true) →
      ContainerChangeEventSink.ProcessEvent cfg envE (some ev) w = w) := by
  have hwi := hreach.waiting_item
  refine ⟨?_, CheckPlayerInventory_idle cfg envP w, ?_, ContainerChange_idle cfg envE _ w⟩
  · rintro ⟨h1, h2, h3⟩
    have hw : w.tally.waiting = false := by
      cases hwf : w.g_waitingForPotionDelay
      · exact hwf
      · rw [hwi hwf] at h2; exact absurd h2 (by decide)
    have hf := CheckPlayerInventory_fires cfg envP w hen hdue hhas hidP h1 h2 h3
    have hfresh := fireItemDetected_fresh w.tally h2 hw
    have hitem : (CheckPlayerInventory cfg envP w).g_questState.itemDetected = true := by
      have := congrArg Tally.item hf.1
      rw [hfresh.1] at this
      exact this
    refine ⟨progress_ne_of_item w _ h2 hitem, ?_, hf.2, ?_⟩
    · have := congrArg Tally.nDetEv hf.1
      rw [hfresh.2] at this
      exact this
    · intro env₂
      exact CheckPlayerInventory_idle cfg env₂ _ (by rintro ⟨_, h, _⟩; rw [hitem] at h; exact absurd h (by decide))
  · rintro ⟨h1, h2, h3, h4⟩
    have hw : w.tally.waiting = false := by
      cases hwf : w.g_waitingForPotionDelay
      · exact hwf
      · rw [hwi hwf] at h2; exact absurd h2 (by decide)
    have hf := ContainerChange_fires cfg envE ev w hpl hidE h1 h2 h3 h4
    have hfresh := fireItemDetected_fresh w.tally h2 hw
    have hitem : (ContainerChangeEventSink.ProcessEvent cfg envE (some ev) w
        ).g_questState.itemDetected = true := by
      have := congrArg Tally.item hf
      rw [hfresh.1] at this
      exact this
    refine ⟨progress_ne_of_item w _ h2 hitem, ?_, ?_⟩
    · have := congrArg Tally.nDetEv hf
      rw [hfresh.2] at this
      exact this
    · intro env₂ ev₂
      exact ContainerChange_idle cfg env₂ ev₂ _
        (by rintro ⟨_, h, _⟩; rw [hitem] at h; exact absurd h (by decide))

theorem item_observation_witness :
    Reachable {} armedWorld
    ∧ ({} : PluginConfig).item.enabled = true
    ∧ ({} : PluginConfig).monitoring.checkIntervalMs
        ≤ elapsedMs (playerHasItemEnv 3000000000).steadyNow armedWorld.g_lastItemCheck
    ∧ PlayerHasItem (playerHasItemEnv 3000000000)
        ((playerHasItemEnv 3000000000).formIDFromPlugin ({} : PluginConfig).item.itemPlugin
          ({} : PluginConfig).item.itemID) = true
    ∧ armedWorld.g_cachedFormIDs.itemFormID
        = (playerHasItemEnv 3000000000).formIDFromPlugin ({} : PluginConfig).item.itemPlugin
            ({} : PluginConfig).item.itemID
    ∧ (sampleEnv 3000000000).player = some itemAddedEvent.newContainer
    ∧ itemAddedEvent.baseObj = armedWorld.g_cachedFormIDs.itemFormID
    ∧ armedWorld.g_questState.triggerStageReached = true
    ∧ (CheckPlayerInventory {} (playerHasItemEnv 3000000000) armedWorld).detectionEvents
        = armedWorld.detectionEvents + 1 :=
  ⟨⟨{}, _, rfl, rfl⟩, rfl, by decide, by decide, by decide, rfl, by decide, by decide,
    ((item_observation {} armedWorld (playerHasItemEnv 3000000000) (sampleEnv 3000000000)
      itemAddedEvent ⟨{}, _, rfl, rfl⟩ rfl (by decide) (by decide)
      (fun _ => by decide) rfl (fun _ => by decide)).1
      ⟨by decide, by decide, by decide⟩).2.1⟩

/-! ## C13: what `ProcessItemDetection` changes -/

theorem ProcessItemDetection_idle (cfg : PluginConfig) (env : Env) (w : World)
    (h : ¬ (w.g_questState.itemDetected = false ∧ w.g_waitingForPotionDelay = false)) :
    ProcessItemDetection cfg env w = w := by
  unfold ProcessItemDetection
  cases h1 : w.g_questState.itemDetected <;> cases h2 : w.g_waitingForPotionDelay <;>
    simp [h1, h2] at h ⊢

theorem ProcessItemDetection_fires (cfg : PluginConfig) (env : Env) (w : World)
    (h1 : w.g_questState.itemDetected = false) (h2 : w.g_waitingForPotionDelay = false) :
    ProcessItemDetection cfg env w =
      { w with
        g_questState := { w.g_questState with itemDetected := true }
        g_waitingForPotionDelay := true
        g_potionDetectedTime := env.steadyNow
        g_potionDetectedMessageShown := true
        trace := w.trace ++ detectionLog cfg w ++
          (if w.g_potionDetectedMessageShown then []
            else [Effect.debugNotification 1167 potionDetectedText]) } := by
  have hne : ¬ potionDetectedText = "" := by decide
  unfold ProcessItemDetection
  simp only [h1, h2, Bool.false_eq_true, if_false]
  unfold showPotionDetected ShowNotificationMessage
  cases h3 : w.g_potionDetectedMessageShown <;>
    simp [logActions, emit, detectionLog, h3, hne]

/-! ## C14: the completion does not depend on the removal -/

theorem removals_logActions (m : String) (l : Nat) (w : World) :
    (logActions m l w).removals = w.removals := by
  simp [logActions, emit, World.removals, List.countP_append, List.countP_cons,
    Effect.isRemoveItem]

theorem removals_logQuest (m : String) (l : Nat) (w : World) :
    (logQuest m l w).removals = w.removals := by
  simp [logQuest, emit, World.removals, List.countP_append, List.countP_cons,
    Effect.isRemoveItem]

theorem removals_ShowNotificationMessage (site : Nat) (m : String) (w : World) :
    (ShowNotificationMessage site m w).removals = w.removals := by
  unfold ShowNotificationMessage
  split
  · rfl
  · simp [emit, World.removals, List.countP_append, List.countP_cons, Effect.isRemoveItem]

theorem removals_ProcessQuestCompletionBody (cfg : PluginConfig) (env : Env) (w : World) :
    (ProcessQuestCompletionBody cfg env w).removals = w.removals := by
  have hx : ∀ v : World, (ExecuteConsoleCommand env
      (setStageCommand cfg.quest.questEditorID cfg.quest.completionStage) v).removals
      = v.removals := by
    intro v
    have he : ∀ o : ConsoleOutcome, (emit (Effect.consoleCommand
        (setStageCommand cfg.quest.questEditorID cfg.quest.completionStage) o) v).removals
        = v.removals := by
      intro o
      simp [emit, World.removals, List.countP_append, List.countP_cons, Effect.isRemoveItem]
    unfold ExecuteConsoleCommand
    cases env.consoleOutcome <;> simp only [removals_logActions, he]
  have hs : ∀ v : World, (showCompletionMessage cfg v).removals = v.removals := by
    intro v
    unfold showCompletionMessage
    split
    · rw [removals_logActions, removals_ShowNotificationMessage]; rfl
    · rfl
  have hd : ∀ v : World, ({ v with g_questState :=
      { v.g_questState with completionDone := true } } : World).removals = v.removals :=
    fun _ => rfl
  unfold ProcessQuestCompletionBody SetQuestStageViaConsole
  simp only [removals_logActions, removals_logQuest, hs, hd, hx]

theorem removals_ProcessQuestCompletion (cfg : PluginConfig) (env : Env) (w : World) :
    (ProcessQuestCompletion cfg env w).removals = w.removals := by
  unfold ProcessQuestCompletion
  split
  · rfl
  · exact removals_ProcessQuestCompletionBody cfg env w

theorem RemoveItemFromPlayer_removals (env : Env) (id : Nat) (count : Int) (w : World) :
    (RemoveItemFromPlayer env id count w).2.removals
      = w.removals + (if (RemoveItemFromPlayer env id count w).1 then 1 else 0) := by
  unfold RemoveItemFromPlayer
  split
  · simp
  · split
    · simp
    · split
      · simp
      · split
        · simp only [removals_logActions]
          simp
        · simp only [removals_logActions]
          simp [emit, World.removals, List.countP_append, List.countP_cons,
            Effect.isRemoveItem]

theorem RemoveItemFromPlayer_mem (env : Env) (id : Nat) (count : Int) (w : World)
    (h : (RemoveItemFromPlayer env id count w).1 = true) :
    Effect.removeItem id count ∈ (RemoveItemFromPlayer env id count w).2.trace := by
  unfold RemoveItemFromPlayer at h ⊢
  split
  · simp_all
  · split
    · simp_all
    · split
      · simp_all
      · split
        · simp_all
        · simp [logActions, emit]

theorem mem_emit (e x : Effect) (w : World) (h : e ∈ w.trace) : e ∈ (emit x w).trace := by
  simp [emit, h]

theorem mem_logActions (e : Effect) (m : String) (l : Nat) (w : World) (h : e ∈ w.trace) :
    e ∈ (logActions m l w).trace := mem_emit e _ w h

theorem mem_logQuest (e : Effect) (m : String) (l : Nat) (w : World) (h : e ∈ w.trace) :
    e ∈ (logQuest m l w).trace := mem_emit e _ w h

theorem mem_ShowNotificationMessage (e : Effect) (site : Nat) (m : String) (w : World)
    (h : e ∈ w.trace) : e ∈ (ShowNotificationMessage site m w).trace := by
  unfold ShowNotificationMessage
  split
  · exact h
  · exact mem_emit e _ w h

theorem mem_showCompletionMessage (e : Effect) (cfg : PluginConfig) (w : World)
    (h : e ∈ w.trace) : e ∈ (showCompletionMessage cfg w).trace := by
  unfold showCompletionMessage
  split
  · exact mem_logActions e _ _ _ (mem_ShowNotificationMessage e _ _ _ h)
  · exact h

theorem mem_ExecuteConsoleCommand (e : Effect) (env : Env) (command : String) (w : World)
    (h : e ∈ w.trace) : e ∈ (ExecuteConsoleCommand env command w).trace := by
  unfold ExecuteConsoleCommand
  cases env.consoleOutcome <;> exact mem_logActions e _ _ _ (mem_emit e _ w h)

theorem command_mem_ExecuteConsoleCommand (env : Env) (command : String) (w : World) :
    Effect.consoleCommand command env.consoleOutcome
      ∈ (ExecuteConsoleCommand env command w).trace := by
  have h : Effect.consoleCommand command env.consoleOutcome
      ∈ (emit (Effect.consoleCommand command env.consoleOutcome) w).trace := by
    simp [emit]
  unfold ExecuteConsoleCommand
  cases hc : env.consoleOutcome <;> rw [hc] at h <;> exact mem_logActions _ _ _ _ h

theorem mem_afterConsole (e : Effect) (cfg : PluginConfig) (v : World) (h : e ∈ v.trace) :
    e ∈ (logActions banner 1225
      (logActions ("Final Stage: " ++ toString cfg.quest.completionStage) 1224
        (logActions ("Quest: " ++ cfg.quest.questEditorID) 1223
          (logActions "QUEST FIX COMPLETED SUCCESSFULLY" 1222
            (logActions banner 1221
              (showCompletionMessage cfg
                (logQuest "Console command sent successfully" 1213
                  { v with g_questState :=
                      { v.g_questState with completionDone := true } }))))))).trace := by
  refine mem_logActions e _ _ _ (mem_logActions e _ _ _ (mem_logActions e _ _ _
    (mem_logActions e _ _ _ (mem_logActions e _ _ _ (mem_showCompletionMessage e cfg _
      (mem_logQuest e _ _ _ ?_))))))
  exact h

theorem mem_ProcessQuestCompletionBody (e : Effect) (cfg : PluginConfig) (env : Env)
    (w : World) (h : e ∈ w.trace) : e ∈ (ProcessQuestCompletionBody cfg env w).trace := by
  unfold ProcessQuestCompletionBody SetQuestStageViaConsole
  exact mem_afterConsole e cfg _ (mem_ExecuteConsoleCommand e env _ _
    (mem_logQuest e _ _ _ (mem_logQuest e _ _ _ (mem_logQuest e _ _ _ (mem_logQuest e _ _ _
      (mem_logQuest e _ _ _ (mem_logQuest e _ _ _ (mem_logQuest e _ _ _
        (mem_logQuest e _ _ _ (mem_logQuest e _ _ _ h))))))))))

theorem command_mem_ProcessQuestCompletionBody (cfg : PluginConfig) (env : Env) (w : World) :
    Effect.consoleCommand
        (setStageCommand cfg.quest.questEditorID cfg.quest.completionStage) env.consoleOutcome
      ∈ (ProcessQuestCompletionBody cfg env w).trace := by
  unfold ProcessQuestCompletionBody SetQuestStageViaConsole
  exact mem_afterConsole _ cfg _ (command_mem_ExecuteConsoleCommand env _ _)

theorem RemoveItemFromPlayer_result (env : Env) (id : Nat) (count : Int) (w v : World) :
    (RemoveItemFromPlayer env id count w).1 = (RemoveItemFromPlayer env id count v).1 := by
  unfold RemoveItemFromPlayer
  split
  · rfl
  · split
    · rfl
    · split
      · rfl
      · split <;> rfl

theorem removeDetectedItem_done (cfg : PluginConfig) (env : Env) (w : World) :
    (removeDetectedItem cfg env w).g_questState = w.g_questState := by
  have hr : (RemoveItemFromPlayer env w.g_cachedFormIDs.itemFormID 1 w).2.g_questState
      = w.g_questState := by
    unfold RemoveItemFromPlayer
    split
    · rfl
    · split
      · rfl
      · split
        · rfl
        · split <;> rfl
  unfold removeDetectedItem
  split
  · simp only []
    split <;> exact hr
  · rfl

theorem removeDetectedItem_removals (cfg : PluginConfig) (env : Env) (v : World)
    (hr : cfg.item.removeOnDetection = true) :
    (removeDetectedItem cfg env v).removals = v.removals +
      (if (RemoveItemFromPlayer env v.g_cachedFormIDs.itemFormID 1 v).1 then 1 else 0) := by
  unfold removeDetectedItem
  simp only [hr, if_true]
  split
  · rename_i h
    rw [removals_logActions, RemoveItemFromPlayer_removals, if_pos h]
  · rename_i h
    rw [removals_logActions, RemoveItemFromPlayer_removals, if_neg h]

theorem removeDetectedItem_mem (cfg : PluginConfig) (env : Env) (v : World)
    (hr : cfg.item.removeOnDetection = true)
    (hs : (RemoveItemFromPlayer env v.g_cachedFormIDs.itemFormID 1 v).1 = true) :
    Effect.removeItem v.g_cachedFormIDs.itemFormID 1 ∈ (removeDetectedItem cfg env v).trace := by
  unfold removeDetectedItem
  simp only [hr, if_true, hs]
  exact mem_logActions _ _ _ _ (RemoveItemFromPlayer_mem env _ 1 _ hs)

theorem delayed_unfold (cfg : PluginConfig) (env : Env) (w : World)
    (hw : w.g_waitingForPotionDelay = true) (hi : w.g_questState.itemDetected = true)
    (hc : w.g_questState.completionDone = false)
    (he : 5 ≤ elapsedSeconds env.steadyNow w.g_potionDetectedTime) :
    ProcessDelayedQuestCompletion cfg env w =
      ProcessQuestCompletionBody cfg env (removeDetectedItem cfg env
        (logActions banner 1187
          (logActions "5 SECOND DELAY COMPLETE - PROCESSING QUEST" 1186
            (logActions banner 1185 { w with g_waitingForPotionDelay := false })))) := by
  have hn : ¬ elapsedSeconds env.steadyNow w.g_potionDetectedTime < 5 := by omega
  unfold ProcessDelayedQuestCompletion
  simp only [hw, hi, hc, hn, Bool.not_true, Bool.false_eq_true, if_false]
  unfold ProcessQuestCompletion
  rw [removeDetectedItem_done]
  have : (logActions banner 1187
      (logActions "5 SECOND DELAY COMPLETE - PROCESSING QUEST" 1186
        (logActions banner 1185 { w with g_waitingForPotionDelay := false }))
      ).g_questState.completionDone = false := hc
  simp only [this, Bool.false_eq_true, if_false]

/-- C14.  When the delay has elapsed and `removeOnDetection` is set,
`ProcessDelayedQuestCompletion` calls `RemoveItemFromPlayer` for one unit of
the cached item and then completes the quest: whatever the removal returns,
`completionDone` is true afterwards, the waiting flag is cleared, and exactly
one console command, `setstage <quest> <completionStage>`, is issued.  A
removal goes through exactly when `RemoveItemFromPlayer` returns true, and it
is the removal of one unit. -/
theorem completion_despite_removal (cfg : PluginConfig) (env : Env) (w : World)
    (hw : w.g_waitingForPotionDelay = true) (hi : w.g_questState.itemDetected = true)
    (hc : w.g_questState.completionDone = false)
    (he : 5 ≤ elapsedSeconds env.steadyNow w.g_potionDetectedTime)
    (hr : cfg.item.removeOnDetection = true) :
    (ProcessDelayedQuestCompletion cfg env w).g_questState.completionDone = true
    ∧ (ProcessDelayedQuestCompletion cfg env w).g_waitingForPotionDelay = false
    ∧ (ProcessDelayedQuestCompletion cfg env w).consoleCommands = w.consoleCommands + 1
    ∧ Effect.consoleCommand
        (setStageCommand cfg.quest.questEditorID cfg.quest.completionStage) env.consoleOutcome
        ∈ (ProcessDelayedQuestCompletion cfg env w).trace
    ∧ (ProcessDelayedQuestCompletion cfg env w).removals = w.removals +
        (if (RemoveItemFromPlayer env w.g_cachedFormIDs.itemFormID 1 w).1 then 1 else 0)
    ∧ ((RemoveItemFromPlayer env w.g_cachedFormIDs.itemFormID 1 w).1 = true →
        Effect.removeItem w.g_cachedFormIDs.itemFormID 1
          ∈ (ProcessDelayedQuestCompletion cfg env w).trace) := by
  have hT := tally_ProcessDelayedQuestCompletion cfg env w
  have e1 : w.tally.waiting = true := hw
  have e2 : w.tally.item = true := hi
  have e3 : w.tally.done = false := hc
  simp only [Tally.tickDelay, e1, e2, e3, he, decide_True, Bool.not_true, Bool.false_eq_true,
    if_false, Tally.fireCompletion] at hT
  have hU := delayed_unfold cfg env w hw hi hc he
  have hq := removals_ProcessQuestCompletionBody cfg env
  refine ⟨?_, ?_, ?_, ?_, ?_, ?_⟩
  · exact congrArg Tally.done hT
  · exact congrArg Tally.waiting hT
  · exact congrArg Tally.nConsole hT
  · rw [hU]; exact command_mem_ProcessQuestCompletionBody cfg env _
  · rw [hU, hq, removeDetectedItem_removals cfg env _ hr,
      RemoveItemFromPlayer_result env _ 1 _ w]
    simp only [removals_logActions]
    rfl
  · intro hs
    rw [hU]
    refine mem_ProcessQuestCompletionBody _ cfg env _ ?_
    refine removeDetectedItem_mem cfg env _ hr ?_
    rw [RemoveItemFromPlayer_result env _ 1 _ w]
    exact hs

theorem completion_despite_removal_witness :
    detectedWorld.g_waitingForPotionDelay = true
    ∧ detectedWorld.g_questState.itemDetected = true
    ∧ detectedWorld.g_questState.completionDone = false
    ∧ 5 ≤ elapsedSeconds (failedRemovalEnv 9000000000).steadyNow detectedWorld.g_potionDetectedTime
    ∧ ({} : PluginConfig).item.removeOnDetection = true
    ∧ detectedWorld.g_cachedFormIDs.itemFormID = 0x0A625C7C
    ∧ (RemoveItemFromPlayer (failedRemovalEnv 9000000000)
        detectedWorld.g_cachedFormIDs.itemFormID 1 detectedWorld).1 = false
    ∧ (ProcessDelayedQuestCompletion {} (failedRemovalEnv 9000000000) detectedWorld
        ).g_questState.completionDone = true
    ∧ (ProcessDelayedQuestCompletion {} (failedRemovalEnv 9000000000) detectedWorld
        ).consoleCommands = detectedWorld.consoleCommands + 1 :=
  ⟨by decide, by decide, by decide, by decide, by decide, by decide, by decide,
    (completion_despite_removal {} (failedRemovalEnv 9000000000) detectedWorld
      (by decide) (by decide) (by decide) (by decide) (by decide)).1,
    (completion_despite_removal {} (failedRemovalEnv 9000000000) detectedWorld
      (by decide) (by decide) (by decide) (by decide) (by decide)).2.2.1⟩

/-! ## C11, C12: the waiting flag, and the completed state -/

theorem done_step (cfg : PluginConfig) (d : Bool) (a b : Tally)
    (h : TallyStep cfg false d a b) (ha : a.done = true) : b.done = true := by
  induction h with
  | stay t => exact ha
  | trigger t =>
    unfold Tally.fireTrigger
    split <;> exact ha
  | detect t _ =>
    unfold Tally.fireItemDetected
    split
    · exact ha
    · split <;> exact ha
  | tick t elapsed =>
    unfold Tally.tickDelay
    simp only [ha, if_true]
    split
    · exact ha
    · split <;> exact ha
  | reset t h => simp at h
  | detectDirect t _ =>
    unfold Tally.fireItemDetected
    split
    · exact ha
    · split <;> exact ha
  | completeDirect t _ => exact fireCompletion_done cfg t
  | seq a b c _ _ ih₁ ih₂ => exact ih₂ (ih₁ ha)

theorem waiting_exact_step (cfg : PluginConfig) (a b : Tally)
    (h : TallyStep cfg true false a b)
    (ha : a.Ordered ∧ a.waiting = (a.item && !a.done)) :
    b.Ordered ∧ b.waiting = (b.item && !b.done) := by
  induction h with
  | stay t => exact ha
  | trigger t =>
    refine ⟨Ordered_step cfg _ _ (TallyStep.trigger t) ha.1, ?_⟩
    unfold Tally.fireTrigger
    split <;> exact ha.2
  | detect t ht =>
    refine ⟨Ordered_step cfg _ _ (TallyStep.detect t ht) ha.1, ?_⟩
    obtain ⟨⟨h1, _, _⟩, h4⟩ := ha
    unfold Tally.fireItemDetected
    split
    · exact h4
    · split
      · exact h4
      · rename_i hi _
        have hd : t.done = false := by
          cases hd : t.done
          · rfl
          · exact absurd (h1 hd) hi
        simp [hd]
  | tick t elapsed =>
    refine ⟨Ordered_step cfg _ _ (TallyStep.tick t elapsed) ha.1, ?_⟩
    obtain ⟨_, h4⟩ := ha
    unfold Tally.tickDelay
    split
    · exact h4
    · split
      · exact h4
      · rename_i hi
        simp only [Bool.not_eq_true, Bool.not_eq_false'] at hi
        split
        · exact h4
        · split
          · exact h4
          · rename_i hd _
            unfold Tally.fireCompletion
            split
            · rename_i hd2
              exact absurd hd2 hd
            · simp
  | reset t _ =>
    refine ⟨Ordered_step cfg _ _ (TallyStep.reset t rfl) ha.1, ?_⟩
    simp [Tally.reset]
  | detectDirect t h => simp at h
  | completeDirect t h => simp at h
  | seq a b c _ _ ih₁ ih₂ => exact ih₂ (ih₁ ha)

theorem PluginReachable.tally {cfg : PluginConfig} {w : World} (h : PluginReachable cfg w) :
    (w.tally).Ordered ∧ w.tally.waiting = (w.tally.item && !w.tally.done) := by
  obtain ⟨w0, calls, h0, hd, hrun⟩ := h
  subst hrun
  refine waiting_exact_step cfg _ _ (tallyStep_run cfg true false calls w0 (fun _ _ _ => rfl) ?_)
    ⟨Ordered_of_initial w0 h0, ?_⟩
  · intro c hc hdir
    have := (List.all_eq_true.mp hd) c hc
    simp [hdir] at this
  · have h1 := congrArg Progress.itemDetected h0
    have h3 := congrArg Progress.waitingForPotionDelay h0
    simp only [World.progress, Progress.initial] at h1 h3
    simp [World.tally, h1, h3]

/-- C11, counterexample.  In the poller run the item is detected and awaited
(both flags true); when the delay has elapsed `ProcessDelayedQuestCompletion`
clears the waiting flag and leaves `itemDetected` true, so the state it reaches,
without any session reset, has the two flags different. -/
theorem delay_clears_only_waiting :
    PluginReachable {} detectedWorld
    ∧ detectedWorld.g_waitingForPotionDelay = true
    ∧ detectedWorld.g_questState.itemDetected = true
    ∧ (ProcessDelayedQuestCompletion {} (sampleEnv 9000000000) detectedWorld
        ).g_waitingForPotionDelay = false
    ∧ (ProcessDelayedQuestCompletion {} (sampleEnv 9000000000) detectedWorld
        ).g_questState.itemDetected = true
    ∧ PluginReachable {}
        (ProcessDelayedQuestCompletion {} (sampleEnv 9000000000) detectedWorld) :=
  ⟨⟨{}, pollerRun.take 2, rfl, by decide, rfl⟩, by decide, by decide, by decide, by decide,
    ⟨{}, pollerRun, rfl, by decide, rfl⟩⟩

/-- C11, as amended.  In every state the plugin reaches (poller, sinks and
lifecycle calls, session resets included) the waiting flag is true exactly
while the item is detected and the completion is not yet done.
`ProcessItemDetection` sets `itemDetected` and the waiting flag together;
`ProcessDelayedQuestCompletion`, once five seconds have elapsed, clears the
waiting flag only, completes the quest, and never changes `itemDetected`. -/
theorem waiting_tracks_detection (cfg : PluginConfig) (w : World)
    (hr : PluginReachable cfg w) :
    w.g_waitingForPotionDelay = (w.g_questState.itemDetected && !w.g_questState.completionDone)
    ∧ (∀ env : Env, w.g_questState.itemDetected = false →
        (ProcessItemDetection cfg env w).g_questState.itemDetected = true
        ∧ (ProcessItemDetection cfg env w).g_waitingForPotionDelay = true)
    ∧ (∀ env : Env, w.g_waitingForPotionDelay = true →
        5 ≤ elapsedSeconds env.steadyNow w.g_potionDetectedTime →
        (ProcessDelayedQuestCompletion cfg env w).g_waitingForPotionDelay = false
        ∧ (ProcessDelayedQuestCompletion cfg env w).g_questState.itemDetected = true
        ∧ (ProcessDelayedQuestCompletion cfg env w).g_questState.completionDone = true)
    ∧ (∀ env : Env, (ProcessDelayedQuestCompletion cfg env w).g_questState.itemDetected
        = w.g_questState.itemDetected) := by
  obtain ⟨_, hx⟩ := hr.tally
  have hx' : w.g_waitingForPotionDelay
      = (w.g_questState.itemDetected && !w.g_questState.completionDone) := hx
  refine ⟨hx', ?_, ?_, ?_⟩
  · intro env hi
    have hw : w.g_waitingForPotionDelay = false := by rw [hx', hi]; rfl
    have hT := tally_ProcessItemDetection cfg env w
    have e1 : w.tally.item = false := hi
    have e2 : w.tally.waiting = false := hw
    simp only [Tally.fireItemDetected, e1, e2, Bool.false_eq_true, if_false] at hT
    exact ⟨congrArg Tally.item hT, congrArg Tally.waiting hT⟩
  · intro env hw he
    have hid : (w.g_questState.itemDetected && !w.g_questState.completionDone) = true := by
      rw [← hx']; exact hw
    simp only [Bool.and_eq_true, Bool.not_eq_true'] at hid
    have hT := tally_ProcessDelayedQuestCompletion cfg env w
    have e1 : w.tally.waiting = true := hw
    have e2 : w.tally.item = true := hid.1
    have e3 : w.tally.done = false := hid.2
    simp only [Tally.tickDelay, e1, e2, e3, he, decide_True, Bool.not_true, Bool.false_eq_true,
      if_false, Tally.fireCompletion] at hT
    exact ⟨congrArg Tally.waiting hT, congrArg Tally.item hT, congrArg Tally.done hT⟩
  · intro env
    have hT := congrArg Tally.item (tally_ProcessDelayedQuestCompletion cfg env w)
    have : (w.tally.tickDelay cfg
        (decide (5 ≤ elapsedSeconds env.steadyNow w.g_potionDetectedTime))).item
        = w.tally.item := by
      unfold Tally.tickDelay Tally.fireCompletion
      split
      · rfl
      · split
        · rfl
        · split
          · rfl
          · split
            · rfl
            · split <;> rfl
    rw [this] at hT
    exact hT

theorem waiting_tracks_detection_witness :
    PluginReachable {} completedWorld
    ∧ completedWorld.g_waitingForPotionDelay
        = (completedWorld.g_questState.itemDetected
            && !completedWorld.g_questState.completionDone) :=
  ⟨⟨{}, pollerRun, rfl, by decide, rfl⟩,
    (waiting_tracks_detection {} completedWorld ⟨{}, pollerRun, rfl, by decide, rfl⟩).1⟩

/-- C12.  In every state the plugin reaches in which `completionDone` is true,
each of `CheckQuestState`, `CheckPlayerInventory`,
`ProcessDelayedQuestCompletion`, `ProcessQuestTrigger`, `ProcessItemDetection`,
`ProcessQuestCompletion` and the two event sinks returns the state it was
given: no flag, no stage snapshot and no shown flag changes, and nothing is
added to the trace, so no message is displayed and no console command is
issued.  No call other than a session reset makes `completionDone` false. -/
theorem completed_is_sticky (cfg : PluginConfig) (w : World)
    (hr : PluginReachable cfg w) (hd : w.g_questState.completionDone = true) :
    (∀ env : Env, CheckQuestState cfg env w = w)
    ∧ (∀ env : Env, CheckPlayerInventory cfg env w = w)
    ∧ (∀ env : Env, ProcessDelayedQuestCompletion cfg env w = w)
    ∧ (∀ env : Env, ProcessQuestTrigger cfg env w = w)
    ∧ (∀ env : Env, ProcessItemDetection cfg env w = w)
    ∧ (∀ env : Env, ProcessQuestCompletion cfg env w = w)
    ∧ (∀ (env : Env) (event : Option QuestStageEvent),
        QuestStageEventSink.ProcessEvent cfg env event w = w)
    ∧ (∀ (env : Env) (event : Option ContainerChangedEvent),
        ContainerChangeEventSink.ProcessEvent cfg env event w = w)
    ∧ (∀ (op : Op) (env : Env), op.isReset = false →
        (step cfg op env w).g_questState.completionDone = true) := by
  obtain ⟨⟨h1, _, h3⟩, _⟩ := hr.tally
  have hi : w.g_questState.itemDetected = true := h1 hd
  have ht : w.g_questState.triggerStageReached = true := h3 hi
  refine ⟨?_, ?_, ?_, ?_, ?_, ?_, ?_, ?_, ?_⟩
  · intro env
    unfold CheckQuestState
    simp [hd]
  · intro env
    exact CheckPlayerInventory_idle cfg env w (by simp [hd])
  · intro env
    unfold ProcessDelayedQuestCompletion
    simp [hd]
  · intro env
    unfold ProcessQuestTrigger
    simp [ht]
  · intro env
    unfold ProcessItemDetection
    simp [hi]
  · intro env
    unfold ProcessQuestCompletion
    simp [hd]
  · intro env event
    unfold QuestStageEventSink.ProcessEvent
    cases event with
    | none => rfl
    | some ev => simp [hd]
  · intro env event
    exact ContainerChange_idle cfg env event w (by simp [hd])
  · intro op env hop
    exact done_step cfg true _ _
      (tallyStep_step cfg false true op env w (fun h => by simp [hop] at h) (fun _ => rfl)) hd

theorem completed_is_sticky_witness :
    PluginReachable {} completedWorld
    ∧ completedWorld.g_questState.completionDone = true
    ∧ ProcessQuestTrigger {} (sampleEnv 9500000000) completedWorld = completedWorld
    ∧ ProcessItemDetection {} (sampleEnv 9500000000) completedWorld = completedWorld :=
  ⟨⟨{}, pollerRun, rfl, by decide, rfl⟩, by decide,
    (completed_is_sticky {} completedWorld ⟨{}, pollerRun, rfl, by decide, rfl⟩
      (by decide)).2.2.2.1 (sampleEnv 9500000000),
    (completed_is_sticky {} completedWorld ⟨{}, pollerRun, rfl, by decide, rfl⟩
      (by decide)).2.2.2.2.1 (sampleEnv 9500000000)⟩

/-! ## C13: the frame of the item detection -/

/-- C13.  When its guard passes (`itemDetected` and the waiting flag both
false) `ProcessItemDetection` sets `itemDetected`, the waiting flag and the
notification-shown flag, records the detection time as now, writes its six log
lines and, unless it was shown before, the notification; every other global,
with `completionDone` and the rest of the progress state, keeps its value, no
item is removed and no console command is issued.  When either guard flag is
already true the world is unchanged.  In the states the plugin reaches the
guard passes as soon as `itemDetected` is false, and `completionDone` is then
false before and after the call. -/
theorem item_detection_frame (cfg : PluginConfig) (env : Env) (w : World) :
    ((w.g_questState.itemDetected = false ∧ w.g_waitingForPotionDelay = false) →
      ProcessItemDetection cfg env w =
        { w with
          g_questState := { w.g_questState with itemDetected := true }
          g_waitingForPotionDelay := true
          g_potionDetectedTime := env.steadyNow
          g_potionDetectedMessageShown := true
          trace := w.trace ++ detectionLog cfg w ++
            (if w.g_potionDetectedMessageShown then []
              else [Effect.debugNotification 1167 potionDetectedText]) }
      ∧ (ProcessItemDetection cfg env w).progress =
        { w.progress with
          itemDetected := true
          waitingForPotionDelay := true
          potionDetectedMessageShown := true }
      ∧ (ProcessItemDetection cfg env w).g_potionDetectedTime = env.steadyNow
      ∧ (ProcessItemDetection cfg env w).g_questState.completionDone
          = w.g_questState.completionDone
      ∧ (ProcessItemDetection cfg env w).removals = w.removals
      ∧ (ProcessItemDetection cfg env w).consoleCommands = w.consoleCommands)
    ∧ (¬ (w.g_questState.itemDetected = false ∧ w.g_waitingForPotionDelay = false) →
      ProcessItemDetection cfg env w = w)
    ∧ (PluginReachable cfg w → w.g_questState.itemDetected = false →
      w.g_waitingForPotionDelay = false
      ∧ w.g_questState.completionDone = false
      ∧ (ProcessItemDetection cfg env w).g_questState.completionDone = false) := by
  refine ⟨?_, ProcessItemDetection_idle cfg env w, ?_⟩
  swap
  · intro hr hi
    obtain ⟨⟨h1, _, _⟩, hx⟩ := hr.tally
    have hx' : w.g_waitingForPotionDelay
        = (w.g_questState.itemDetected && !w.g_questState.completionDone) := hx
    have hd : w.g_questState.completionDone = false := by
      cases hd : w.g_questState.completionDone
      · rfl
      · have := h1 hd
        exact absurd (this.symm.trans hi) (by decide)
    have hw : w.g_waitingForPotionDelay = false := by rw [hx', hi]; rfl
    refine ⟨hw, hd, ?_⟩
    rw [ProcessItemDetection_fires cfg env w hi hw]
    exact hd
  rintro ⟨h1, h2⟩
  have he := ProcessItemDetection_fires cfg env w h1 h2
  refine ⟨he, ?_, ?_, ?_, ?_, ?_⟩
  · rw [he]; rfl
  · rw [he]
  · rw [he]
  · rw [he]
    unfold World.removals
    cases w.g_potionDetectedMessageShown <;>
      simp [List.countP_append, List.countP_cons, detectionLog, Effect.isRemoveItem]
  · rw [he]
    unfold World.consoleCommands
    cases w.g_potionDetectedMessageShown <;>
      simp [List.countP_append, List.countP_cons, detectionLog, Effect.isConsoleCommand]

theorem item_detection_frame_witness :
    (armedWorld.g_questState.itemDetected = false ∧ armedWorld.g_waitingForPotionDelay = false)
    ∧ (ProcessItemDetection {} (sampleEnv 3000000000) armedWorld).progress =
        { armedWorld.progress with
          itemDetected := true
          waitingForPotionDelay := true
          potionDetectedMessageShown := true } :=
  ⟨by decide,
    ((item_detection_frame {} (sampleEnv 3000000000) armedWorld).1 (by decide)).2.1⟩

/-! ## C15, C16: the identifier cache -/

theorem cached_emit (e : Effect) (w : World) :
    (emit e w).g_cachedFormIDs = w.g_cachedFormIDs := rfl

theorem cached_logActions (m : String) (l : Nat) (w : World) :
    (logActions m l w).g_cachedFormIDs = w.g_cachedFormIDs := rfl

theorem cached_logQuest (m : String) (l : Nat) (w : World) :
    (logQuest m l w).g_cachedFormIDs = w.g_cachedFormIDs := rfl

theorem cached_logSystem (m : String) (l : Nat) (w : World) :
    (logSystem m l w).g_cachedFormIDs = w.g_cachedFormIDs := rfl

theorem cached_ShowNotificationMessage (site : Nat) (m : String) (w : World) :
    (ShowNotificationMessage site m w).g_cachedFormIDs = w.g_cachedFormIDs := by
  unfold ShowNotificationMessage
  split <;> rfl

theorem cached_ShowMessageBox (env : Env) (site : Nat) (m : String) (w : World) :
    (ShowMessageBox env site m w).g_cachedFormIDs = w.g_cachedFormIDs := by
  unfold ShowMessageBox
  split
  · rfl
  · split
    · exact cached_ShowNotificationMessage _ _ _
    · rfl

theorem cached_ExecuteConsoleCommand (env : Env) (c : String) (w : World) :
    (ExecuteConsoleCommand env c w).g_cachedFormIDs = w.g_cachedFormIDs := by
  unfold ExecuteConsoleCommand
  cases env.consoleOutcome <;> rfl

theorem cached_RemoveItemFromPlayer (env : Env) (id : Nat) (count : Int) (w : World) :
    (RemoveItemFromPlayer env id count w).2.g_cachedFormIDs = w.g_cachedFormIDs := by
  unfold RemoveItemFromPlayer
  split
  · rfl
  · split
    · rfl
    · split
      · rfl
      · split <;> rfl

theorem cached_resolveItem (cfg : PluginConfig) (env : Env) (w : World) :
    (resolveItem cfg env w).g_cachedFormIDs =
      if cfg.item.enabled && !w.g_cachedFormIDs.itemResolved then
        if env.formIDFromPlugin cfg.item.itemPlugin cfg.item.itemID ≠ 0 then
          { w.g_cachedFormIDs with
            itemFormID := env.formIDFromPlugin cfg.item.itemPlugin cfg.item.itemID
            itemResolved := true }
        else
          { w.g_cachedFormIDs with
            itemFormID := env.formIDFromPlugin cfg.item.itemPlugin cfg.item.itemID }
      else w.g_cachedFormIDs := by
  unfold resolveItem
  dsimp only
  split_ifs <;> rfl

theorem cached_resolveQuest (cfg : PluginConfig) (env : Env) (w : World) :
    (resolveQuest cfg env w).g_cachedFormIDs =
      if cfg.quest.enabled && !w.g_cachedFormIDs.questResolved then
        match env.questByEditorID cfg.quest.questEditorID with
        | some quest =>
          { w.g_cachedFormIDs with questFormID := quest.formID, questResolved := true }
        | none => w.g_cachedFormIDs
      else w.g_cachedFormIDs := by
  unfold resolveQuest
  split
  · cases env.questByEditorID cfg.quest.questEditorID <;> rfl
  · rfl

theorem cached_ResolveFormIDs (cfg : PluginConfig) (env : Env) (w : World) :
    (ResolveFormIDs cfg env w).g_cachedFormIDs = (w.g_cachedFormIDs).resolve cfg env := by
  unfold ResolveFormIDs CachedFormIDs.resolve
  rw [cached_resolveQuest, cached_resolveItem]

theorem cached_showTriggerMessage (cfg : PluginConfig) (env : Env) (w : World) :
    (showTriggerMessage cfg env w).g_cachedFormIDs = w.g_cachedFormIDs := by
  unfold showTriggerMessage
  split
  · rw [cached_logActions, cached_ShowMessageBox]
  · rfl

theorem cached_notifyTriggerStage (cfg : PluginConfig) (w : World) :
    (notifyTriggerStage cfg w).g_cachedFormIDs = w.g_cachedFormIDs := by
  unfold notifyTriggerStage
  split
  · rw [cached_ShowNotificationMessage]
  · rfl

theorem cached_ProcessQuestTrigger (cfg : PluginConfig) (env : Env) (w : World) :
    (ProcessQuestTrigger cfg env w).g_cachedFormIDs = w.g_cachedFormIDs := by
  unfold ProcessQuestTrigger
  split
  · rfl
  · simp only [cached_logActions, cached_notifyTriggerStage, cached_showTriggerMessage,
      cached_logQuest]

theorem cached_showPotionDetected (w : World) :
    (showPotionDetected w).g_cachedFormIDs = w.g_cachedFormIDs := by
  unfold showPotionDetected
  split
  · rw [cached_ShowNotificationMessage]
  · rfl

theorem cached_ProcessItemDetection (cfg : PluginConfig) (env : Env) (w : World) :
    (ProcessItemDetection cfg env w).g_cachedFormIDs = w.g_cachedFormIDs := by
  unfold ProcessItemDetection
  split
  · rfl
  · split
    · rfl
    · simp only [cached_showPotionDetected, cached_logActions]

theorem cached_showCompletionMessage (cfg : PluginConfig) (w : World) :
    (showCompletionMessage cfg w).g_cachedFormIDs = w.g_cachedFormIDs := by
  unfold showCompletionMessage
  split
  · rw [cached_logActions, cached_ShowNotificationMessage]
  · rfl

theorem cached_ProcessQuestCompletionBody (cfg : PluginConfig) (env : Env) (w : World) :
    (ProcessQuestCompletionBody cfg env w).g_cachedFormIDs = w.g_cachedFormIDs := by
  have hd : ∀ v : World, ({ v with g_questState :=
      { v.g_questState with completionDone := true } } : World).g_cachedFormIDs
      = v.g_cachedFormIDs := fun _ => rfl
  unfold ProcessQuestCompletionBody SetQuestStageViaConsole
  simp only [cached_logActions, cached_showCompletionMessage, cached_logQuest, hd,
    cached_ExecuteConsoleCommand]

theorem cached_ProcessQuestCompletion (cfg : PluginConfig) (env : Env) (w : World) :
    (ProcessQuestCompletion cfg env w).g_cachedFormIDs = w.g_cachedFormIDs := by
  unfold ProcessQuestCompletion
  split
  · rfl
  · exact cached_ProcessQuestCompletionBody cfg env w

theorem cached_removeDetectedItem (cfg : PluginConfig) (env : Env) (w : World) :
    (removeDetectedItem cfg env w).g_cachedFormIDs = w.g_cachedFormIDs := by
  unfold removeDetectedItem
  split
  · dsimp only
    split <;> rw [cached_logActions, cached_RemoveItemFromPlayer]
  · rfl

theorem cached_ProcessDelayedQuestCompletion (cfg : PluginConfig) (env : Env) (w : World) :
    (ProcessDelayedQuestCompletion cfg env w).g_cachedFormIDs = w.g_cachedFormIDs := by
  unfold ProcessDelayedQuestCompletion
  split
  · rfl
  · split
    · rfl
    · split
      · rfl
      · dsimp only
        split
        · rfl
        · simp only [cached_ProcessQuestCompletion, cached_removeDetectedItem,
            cached_logActions]

theorem cached_questNotFound (cfg : PluginConfig) (w : World) :
    (questNotFound cfg w).g_cachedFormIDs = w.g_cachedFormIDs := by
  unfold questNotFound
  split <;> rfl

theorem cached_activateQuest (cfg : PluginConfig) (r : Bool) (s : Int) (w : World) :
    (activateQuest cfg r s w).g_cachedFormIDs = w.g_cachedFormIDs := by
  unfold activateQuest
  split <;> rfl

theorem cached_recordStageChange (s : Int) (w : World) :
    (recordStageChange s w).g_cachedFormIDs = w.g_cachedFormIDs := by
  unfold recordStageChange
  split <;> rfl

theorem cached_checkTriggerStage (cfg : PluginConfig) (env : Env) (s : Int) (w : World) :
    (checkTriggerStage cfg env s w).g_cachedFormIDs = w.g_cachedFormIDs := by
  unfold checkTriggerStage
  split
  · split
    · exact cached_ProcessQuestTrigger cfg env w
    · rfl
  · rfl

theorem cached_deactivateQuest (cfg : PluginConfig) (r : Bool) (w : World) :
    (deactivateQuest cfg r w).g_cachedFormIDs = w.g_cachedFormIDs := by
  unfold deactivateQuest
  split <;> rfl

theorem cached_CheckQuestState (cfg : PluginConfig) (env : Env) (w : World) :
    (CheckQuestState cfg env w).g_cachedFormIDs = w.g_cachedFormIDs := by
  unfold CheckQuestState
  split
  · rfl
  · split
    · rfl
    · dsimp only
      split
      · rfl
      · cases env.questByEditorID cfg.quest.questEditorID with
        | none => exact cached_questNotFound cfg _
        | some quest =>
          simp only [cached_deactivateQuest, cached_checkTriggerStage,
            cached_recordStageChange, cached_activateQuest]

theorem cacheStep_detectItem (cfg : PluginConfig) (r : Bool) (env : Env) (w : World) :
    CacheStep cfg r w.g_cachedFormIDs (detectItem cfg env w).g_cachedFormIDs := by
  have key : ∀ v : World, CacheStep cfg r w.g_cachedFormIDs v.g_cachedFormIDs →
      CacheStep cfg r w.g_cachedFormIDs
        (if !v.g_cachedFormIDs.itemResolved then v
          else if PlayerHasItem env v.g_cachedFormIDs.itemFormID then
            ProcessItemDetection cfg env v
          else v).g_cachedFormIDs := by
    intro v hv
    split
    · exact hv
    · split
      · rw [cached_ProcessItemDetection]; exact hv
      · exact hv
  unfold detectItem
  refine key _ ?_
  split
  · rw [cached_ResolveFormIDs]; exact CacheStep.resolve _ _
  · exact CacheStep.stay _

theorem cacheStep_CheckPlayerInventory (cfg : PluginConfig) (r : Bool) (env : Env)
    (w : World) :
    CacheStep cfg r w.g_cachedFormIDs (CheckPlayerInventory cfg env w).g_cachedFormIDs := by
  unfold CheckPlayerInventory
  split
  · exact CacheStep.stay _
  · split
    · exact CacheStep.stay _
    · split
      · exact CacheStep.stay _
      · split
        · exact CacheStep.stay _
        · dsimp only
          split
          · exact CacheStep.stay _
          · exact cacheStep_detectItem cfg r env { w with g_lastItemCheck := env.steadyNow }

theorem cacheStep_MonitoringCycle (cfg : PluginConfig) (r : Bool) (envQ envI envD : Env)
    (w : World) :
    CacheStep cfg r w.g_cachedFormIDs (MonitoringCycle cfg envQ envI envD w).g_cachedFormIDs := by
  unfold MonitoringCycle
  dsimp only
  rw [cached_ProcessDelayedQuestCompletion]
  have h := cacheStep_CheckPlayerInventory cfg r envI
    (CheckQuestState cfg envQ { w with g_monitorCycles := w.g_monitorCycles + 1 })
  rw [cached_CheckQuestState] at h
  exact h

theorem cacheStep_MonitoringThreadIteration (cfg : PluginConfig) (r : Bool)
    (envR envQ envI envD : Env) (w : World) :
    CacheStep cfg r w.g_cachedFormIDs
      (MonitoringThreadIteration cfg envR envQ envI envD w).g_cachedFormIDs := by
  unfold MonitoringThreadIteration
  split
  · exact CacheStep.stay _
  · split
    · split
      · exact CacheStep.stay _
      · dsimp only
        refine CacheStep.seq _ _ _ ?_ (cacheStep_MonitoringCycle cfg r envQ envI envD _)
        rw [cached_ResolveFormIDs]
        exact CacheStep.resolve _ _
    · exact cacheStep_MonitoringCycle cfg r envQ envI envD w

theorem cached_eventTriggerStage (cfg : PluginConfig) (env : Env) (s : Int) (w : World) :
    (eventTriggerStage cfg env s w).g_cachedFormIDs = w.g_cachedFormIDs := by
  unfold eventTriggerStage
  split
  · rw [cached_ProcessQuestTrigger]
  · rfl

theorem cached_setActive (v : World) (b : Bool) (stage : Int) :
    ({ v with g_questState :=
        { v.g_questState with questActive := b, currentStage := stage } }
      : World).g_cachedFormIDs = v.g_cachedFormIDs := rfl

theorem cached_QuestStageEvent (cfg : PluginConfig) (env : Env)
    (event : Option QuestStageEvent) (w : World) :
    (QuestStageEventSink.ProcessEvent cfg env event w).g_cachedFormIDs
      = w.g_cachedFormIDs := by
  unfold QuestStageEventSink.ProcessEvent
  split
  · rfl
  · split
    · rfl
    · split
      · rfl
      · split
        · rfl
        · simp only []
          split
          · rfl
          · split
            · simp only [cached_eventTriggerStage, cached_setActive, cached_logQuest]
            · rfl

theorem cached_ContainerChange (cfg : PluginConfig) (env : Env)
    (event : Option ContainerChangedEvent) (w : World) :
    (ContainerChangeEventSink.ProcessEvent cfg env event w).g_cachedFormIDs
      = w.g_cachedFormIDs := by
  unfold ContainerChangeEventSink.ProcessEvent
  split
  · rfl
  · split
    · rfl
    · split
      · rfl
      · split
        · split
          · simp only [cached_ProcessItemDetection, cached_logActions]
          · rfl
        · rfl

theorem cached_StartMonitoringThread (env : Env) (w : World) :
    (StartMonitoringThread env w).g_cachedFormIDs
      = if w.g_monitoringActive then w.g_cachedFormIDs else {} := by
  unfold StartMonitoringThread
  cases w.g_monitoringActive <;> rfl

theorem cached_sessionReset (v : World) (a b c : Bool) (t₁ t₂ : Int) :
    ({ v with
      g_isInGameTransition := a
      g_isShuttingDown := b
      g_initialDelayComplete := c
      g_questState := { v.g_questState with
        questActive := false
        triggerStageReached := false
        itemDetected := false
        completionDone := false
        currentStage := 0 }
      g_triggerMessageShown := false
      g_completionMessageShown := false
      g_potionDetectedMessageShown := false
      g_waitingForPotionDelay := false
      g_cachedFormIDs := { v.g_cachedFormIDs with
        questFormID := 0
        itemFormID := 0
        questResolved := false
        itemResolved := false }
      g_lastQuestCheck := t₁
      g_lastItemCheck := t₂ } : World).g_cachedFormIDs = {} := rfl

theorem cached_SessionStart (env : Env) (w : World) :
    (SessionStart env w).g_cachedFormIDs = {} := by
  unfold SessionStart ensureMonitoring
  simp only []
  rw [cached_logActions]
  split
  · rw [cached_StartMonitoringThread]
    split <;> simp only [cached_logActions, cached_sessionReset]
  · simp only [cached_logActions, cached_sessionReset]

theorem cached_MonitoringThreadPrologue (env : Env) (w : World) :
    (MonitoringThreadPrologue env w).g_cachedFormIDs = w.g_cachedFormIDs := by
  have hu : ∀ (v : World) (t : Int) (b : Bool),
      ({ v with g_monitoringStartTime := t, g_initialDelayComplete := b } : World).g_cachedFormIDs
        = v.g_cachedFormIDs := fun _ _ _ => rfl
  unfold MonitoringThreadPrologue
  simp only [hu, cached_logSystem]

theorem cached_MenuEvent (event : Option MenuOpenCloseEvent) (w : World) :
    (GameEventProcessor.ProcessEvent event w).g_cachedFormIDs = w.g_cachedFormIDs := by
  unfold GameEventProcessor.ProcessEvent
  split
  · rfl
  · exact cached_logActions _ _ w

theorem cached_MessageListener (type : MessageType) (env : Env) (w : World) :
    (MessageListener type env w).g_cachedFormIDs =
      if type = MessageType.kNewGame ∨ type = MessageType.kPostLoadGame
        then {} else w.g_cachedFormIDs := by
  have hu : ∀ v : World, ({ v with g_isInGameTransition := true } : World).g_cachedFormIDs
      = v.g_cachedFormIDs := fun _ => rfl
  cases type <;>
    simp only [MessageListener, cached_SessionStart, cached_logSystem, hu, cached_logActions]
    <;> simp

theorem cacheStep_step (cfg : PluginConfig) (r : Bool) (op : Op) (env : Env) (w : World)
    (hr : op.isReset = true → r = true) :
    CacheStep cfg r w.g_cachedFormIDs (step cfg op env w).g_cachedFormIDs := by
  cases op with
  | checkQuestState =>
    show CacheStep cfg r _ (CheckQuestState cfg env w).g_cachedFormIDs
    rw [cached_CheckQuestState]; exact CacheStep.stay _
  | checkPlayerInventory => exact cacheStep_CheckPlayerInventory cfg r env w
  | processDelayedQuestCompletion =>
    show CacheStep cfg r _ (ProcessDelayedQuestCompletion cfg env w).g_cachedFormIDs
    rw [cached_ProcessDelayedQuestCompletion]; exact CacheStep.stay _
  | resolveFormIDs =>
    show CacheStep cfg r _ (ResolveFormIDs cfg env w).g_cachedFormIDs
    rw [cached_ResolveFormIDs]; exact CacheStep.resolve _ _
  | monitoringThreadPrologue =>
    show CacheStep cfg r _ (MonitoringThreadPrologue env w).g_cachedFormIDs
    rw [cached_MonitoringThreadPrologue]; exact CacheStep.stay _
  | monitoringThreadIteration envQ envI envD =>
    exact cacheStep_MonitoringThreadIteration cfg r env envQ envI envD w
  | questStageEvent event =>
    show CacheStep cfg r _ (QuestStageEventSink.ProcessEvent cfg env event w).g_cachedFormIDs
    rw [cached_QuestStageEvent]; exact CacheStep.stay _
  | containerChangeEvent event =>
    show CacheStep cfg r _
      (ContainerChangeEventSink.ProcessEvent cfg env event w).g_cachedFormIDs
    rw [cached_ContainerChange]; exact CacheStep.stay _
  | menuEvent event =>
    show CacheStep cfg r _ (GameEventProcessor.ProcessEvent event w).g_cachedFormIDs
    rw [cached_MenuEvent]; exact CacheStep.stay _
  | processQuestTrigger =>
    show CacheStep cfg r _ (ProcessQuestTrigger cfg env w).g_cachedFormIDs
    rw [cached_ProcessQuestTrigger]; exact CacheStep.stay _
  | processItemDetection =>
    show CacheStep cfg r _ (ProcessItemDetection cfg env w).g_cachedFormIDs
    rw [cached_ProcessItemDetection]; exact CacheStep.stay _
  | processQuestCompletion =>
    show CacheStep cfg r _ (ProcessQuestCompletion cfg env w).g_cachedFormIDs
    rw [cached_ProcessQuestCompletion]; exact CacheStep.stay _
  | startMonitoringThread =>
    show CacheStep cfg r _ (StartMonitoringThread env w).g_cachedFormIDs
    rw [cached_StartMonitoringThread]
    split
    · exact CacheStep.stay _
    · exact CacheStep.reset _ (hr rfl)
  | message type =>
    show CacheStep cfg r _ (MessageListener type env w).g_cachedFormIDs
    rw [cached_MessageListener]
    split
    · rename_i h
      refine CacheStep.reset _ (hr ?_)
      rcases h with h | h <;> subst h <;> rfl
    · exact CacheStep.stay _

theorem cacheStep_run (cfg : PluginConfig) (r : Bool) (calls : List (Op × Env)) (w : World)
    (hr : ∀ c ∈ calls, c.1.isReset = true → r = true) :
    CacheStep cfg r w.g_cachedFormIDs (run cfg calls w).g_cachedFormIDs := by
  induction calls generalizing w with
  | nil => exact CacheStep.stay _
  | cons c calls ih =>
    rw [run_cons]
    exact CacheStep.seq _ _ _
      (cacheStep_step cfg r c.1 c.2 w (hr c (List.mem_cons_self _ _)))
      (ih _ (fun x hx => hr x (List.mem_cons_of_mem _ hx)))

theorem resolve_itemResolved (cfg : PluginConfig) (env : Env) (c : CachedFormIDs) :
    (c.resolve cfg env).itemResolved =
      (c.itemResolved || (cfg.item.enabled
        && decide (env.formIDFromPlugin cfg.item.itemPlugin cfg.item.itemID ≠ 0))) := by
  unfold CachedFormIDs.resolve
  cases h1 : cfg.item.enabled <;> cases h2 : c.itemResolved <;>
    cases h3 : cfg.quest.enabled <;> cases h4 : c.questResolved <;>
    cases h5 : env.questByEditorID cfg.quest.questEditorID <;>
    by_cases h6 : env.formIDFromPlugin cfg.item.itemPlugin cfg.item.itemID = 0 <;>
    simp [h1, h2, h3, h4, h5, h6]

theorem resolve_itemFormID (cfg : PluginConfig) (env : Env) (c : CachedFormIDs) :
    (c.resolve cfg env).itemFormID =
      if cfg.item.enabled && !c.itemResolved then
        env.formIDFromPlugin cfg.item.itemPlugin cfg.item.itemID
      else c.itemFormID := by
  unfold CachedFormIDs.resolve
  cases h1 : cfg.item.enabled <;> cases h2 : c.itemResolved <;>
    cases h3 : cfg.quest.enabled <;> cases h4 : c.questResolved <;>
    cases h5 : env.questByEditorID cfg.quest.questEditorID <;>
    by_cases h6 : env.formIDFromPlugin cfg.item.itemPlugin cfg.item.itemID = 0 <;>
    simp [h1, h2, h3, h4, h5, h6]

theorem resolve_questResolved (cfg : PluginConfig) (env : Env) (c : CachedFormIDs) :
    (c.resolve cfg env).questResolved =
      (c.questResolved || (cfg.quest.enabled
        && (env.questByEditorID cfg.quest.questEditorID).isSome)) := by
  unfold CachedFormIDs.resolve
  cases h1 : cfg.item.enabled <;> cases h2 : c.itemResolved <;>
    cases h3 : cfg.quest.enabled <;> cases h4 : c.questResolved <;>
    cases h5 : env.questByEditorID cfg.quest.questEditorID <;>
    by_cases h6 : env.formIDFromPlugin cfg.item.itemPlugin cfg.item.itemID = 0 <;>
    simp [h1, h2, h3, h4, h5, h6]

theorem resolve_questFormID (cfg : PluginConfig) (env : Env) (c : CachedFormIDs) :
    (c.resolve cfg env).questFormID =
      if cfg.quest.enabled && !c.questResolved then
        ((env.questByEditorID cfg.quest.questEditorID).map Quest.formID).getD c.questFormID
      else c.questFormID := by
  unfold CachedFormIDs.resolve
  cases h1 : cfg.item.enabled <;> cases h2 : c.itemResolved <;>
    cases h3 : cfg.quest.enabled <;> cases h4 : c.questResolved <;>
    cases h5 : env.questByEditorID cfg.quest.questEditorID <;>
    by_cases h6 : env.formIDFromPlugin cfg.item.itemPlugin cfg.item.itemID = 0 <;>
    simp [h1, h2, h3, h4, h5, h6]

theorem resolved_step (cfg : PluginConfig) (a b : CachedFormIDs)
    (h : CacheStep cfg false a b) :
    (a.itemResolved = true → b.itemResolved = true ∧ b.itemFormID = a.itemFormID)
    ∧ (a.questResolved = true → b.questResolved = true ∧ b.questFormID = a.questFormID) := by
  induction h with
  | stay c => exact ⟨fun h => ⟨h, rfl⟩, fun h => ⟨h, rfl⟩⟩
  | resolve c env =>
    refine ⟨fun h => ⟨?_, ?_⟩, fun h => ⟨?_, ?_⟩⟩
    · rw [resolve_itemResolved, h]; rfl
    · rw [resolve_itemFormID, h]; simp
    · rw [resolve_questResolved, h]; rfl
    · rw [resolve_questFormID, h]; simp
  | reset c h => simp at h
  | seq a b c _ _ ih₁ ih₂ =>
    refine ⟨fun h => ?_, fun h => ?_⟩
    · obtain ⟨h1, h2⟩ := ih₁.1 h
      obtain ⟨h3, h4⟩ := ih₂.1 h1
      exact ⟨h3, h4.trans h2⟩
    · obtain ⟨h1, h2⟩ := ih₁.2 h
      obtain ⟨h3, h4⟩ := ih₂.2 h1
      exact ⟨h3, h4.trans h2⟩

theorem resolveItem_resolved (cfg : PluginConfig) (env : Env) (w : World)
    (h : cfg.item.enabled = true → w.g_cachedFormIDs.itemResolved = true) :
    resolveItem cfg env w = w := by
  unfold resolveItem
  cases h1 : cfg.item.enabled
  · simp
  · simp [h h1]

theorem resolveQuest_resolved (cfg : PluginConfig) (env : Env) (w : World)
    (h : cfg.quest.enabled = true → w.g_cachedFormIDs.questResolved = true) :
    resolveQuest cfg env w = w := by
  unfold resolveQuest
  cases h1 : cfg.quest.enabled
  · simp
  · simp [h h1]

theorem resolveItem_lookup (cfg : PluginConfig) (env : Env) (w : World)
    (f : String → String → Nat) (h : w.g_cachedFormIDs.itemResolved = true) :
    resolveItem cfg { env with formIDFromPlugin := f } w = w := by
  unfold resolveItem
  simp [h]

theorem resolveQuest_lookup (cfg : PluginConfig) (env : Env) (w : World)
    (g : String → Option Quest) (h : w.g_cachedFormIDs.questResolved = true) :
    resolveQuest cfg { env with questByEditorID := g } w = w := by
  unfold resolveQuest
  simp [h]

theorem ResolveFormIDs_resolved (cfg : PluginConfig) (env : Env) (w : World)
    (hi : cfg.item.enabled = true → w.g_cachedFormIDs.itemResolved = true)
    (hq : cfg.quest.enabled = true → w.g_cachedFormIDs.questResolved = true) :
    ResolveFormIDs cfg env w = w := by
  unfold ResolveFormIDs
  rw [resolveItem_resolved cfg env w hi, resolveQuest_resolved cfg env w hq]

theorem run_resolveCalls_cons (cfg : PluginConfig) (e : Env) (envs : List Env) (w : World) :
    run cfg (resolveCalls (e :: envs)) w
      = run cfg (resolveCalls envs) (ResolveFormIDs cfg e w) := rfl

theorem item_unresolved_run (cfg : PluginConfig) (envs : List Env) (w : World)
    (hw : w.g_cachedFormIDs.itemResolved = false)
    (hf : ∀ e ∈ envs, e.formIDFromPlugin cfg.item.itemPlugin cfg.item.itemID = 0) :
    (run cfg (resolveCalls envs) w).g_cachedFormIDs.itemResolved = false := by
  induction envs generalizing w with
  | nil => exact hw
  | cons e envs ih =>
    rw [run_resolveCalls_cons]
    refine ih _ ?_ (fun x hx => hf x (List.mem_cons_of_mem _ hx))
    rw [cached_ResolveFormIDs, resolve_itemResolved, hw, hf e (List.mem_cons_self _ _)]
    simp

theorem quest_unresolved_run (cfg : PluginConfig) (envs : List Env) (w : World)
    (hw : w.g_cachedFormIDs.questResolved = false)
    (hf : ∀ e ∈ envs, e.questByEditorID cfg.quest.questEditorID = none) :
    (run cfg (resolveCalls envs) w).g_cachedFormIDs.questResolved = false := by
  induction envs generalizing w with
  | nil => exact hw
  | cons e envs ih =>
    rw [run_resolveCalls_cons]
    refine ih _ ?_ (fun x hx => hf x (List.mem_cons_of_mem _ hx))
    rw [cached_ResolveFormIDs, resolve_questResolved, hw, hf e (List.mem_cons_self _ _)]
    simp

/-- C15.  A resolved identifier stays resolved with the same FormID until the
session is reset.  When `itemResolved` is true `ResolveFormIDs` skips the item:
its result does not depend on what `GetFormIDFromPlugin` would return, and the
flag and the FormID are unchanged, after `ResolveFormIDs` and after every run of
calls without a session reset; and likewise for the quest and
`GetQuestByEditorID`.  When every enabled identifier is resolved
`ResolveFormIDs` returns the state it was given. -/
theorem resolved_until_reset (cfg : PluginConfig) (env : Env) (w : World) :
    (w.g_cachedFormIDs.itemResolved = true →
      resolveItem cfg env w = w
      ∧ (∀ f : String → String → Nat,
          ResolveFormIDs cfg { env with formIDFromPlugin := f } w = ResolveFormIDs cfg env w)
      ∧ (ResolveFormIDs cfg env w).g_cachedFormIDs.itemResolved = true
      ∧ (ResolveFormIDs cfg env w).g_cachedFormIDs.itemFormID = w.g_cachedFormIDs.itemFormID
      ∧ (∀ calls : List (Op × Env), noReset calls = true →
          (run cfg calls w).g_cachedFormIDs.itemResolved = true
          ∧ (run cfg calls w).g_cachedFormIDs.itemFormID = w.g_cachedFormIDs.itemFormID))
    ∧ (w.g_cachedFormIDs.questResolved = true →
      resolveQuest cfg env w = w
      ∧ (∀ g : String → Option Quest,
          ResolveFormIDs cfg { env with questByEditorID := g } w = ResolveFormIDs cfg env w)
      ∧ (ResolveFormIDs cfg env w).g_cachedFormIDs.questResolved = true
      ∧ (ResolveFormIDs cfg env w).g_cachedFormIDs.questFormID = w.g_cachedFormIDs.questFormID
      ∧ (∀ calls : List (Op × Env), noReset calls = true →
          (run cfg calls w).g_cachedFormIDs.questResolved = true
          ∧ (run cfg calls w).g_cachedFormIDs.questFormID = w.g_cachedFormIDs.questFormID))
    ∧ ((cfg.item.enabled = true → w.g_cachedFormIDs.itemResolved = true) →
        (cfg.quest.enabled = true → w.g_cachedFormIDs.questResolved = true) →
        ResolveFormIDs cfg env w = w) := by
  have hrun : ∀ calls : List (Op × Env), noReset calls = true →
      CacheStep cfg false w.g_cachedFormIDs (run cfg calls w).g_cachedFormIDs := by
    intro calls hn
    refine cacheStep_run cfg false calls w ?_
    intro c hc hreset
    have := (List.all_eq_true.mp hn) c hc
    simp [hreset] at this
  have hres : CacheStep cfg false w.g_cachedFormIDs (ResolveFormIDs cfg env w).g_cachedFormIDs := by
    rw [cached_ResolveFormIDs]; exact CacheStep.resolve _ _
  refine ⟨fun h => ⟨resolveItem_resolved cfg env w (fun _ => h), ?_,
      ((resolved_step cfg _ _ hres).1 h).1, ((resolved_step cfg _ _ hres).1 h).2,
      fun calls hn => (resolved_step cfg _ _ (hrun calls hn)).1 h⟩,
    fun h => ⟨resolveQuest_resolved cfg env w (fun _ => h), ?_,
      ((resolved_step cfg _ _ hres).2 h).1, ((resolved_step cfg _ _ hres).2 h).2,
      fun calls hn => (resolved_step cfg _ _ (hrun calls hn)).2 h⟩,
    ResolveFormIDs_resolved cfg env w⟩
  · intro f
    unfold ResolveFormIDs
    rw [resolveItem_lookup cfg env w f h, resolveItem_resolved cfg env w (fun _ => h)]
    unfold resolveQuest
    rfl
  · intro g
    have hi : ∀ v : World, resolveItem cfg { env with questByEditorID := g } v
        = resolveItem cfg env v := by
      intro v
      unfold resolveItem
      rfl
    have hq : (resolveItem cfg env w).g_cachedFormIDs.questResolved = true := by
      rw [cached_resolveItem]
      split_ifs <;> exact h
    unfold ResolveFormIDs
    rw [hi, resolveQuest_lookup cfg env _ g hq, resolveQuest_resolved cfg env _ (fun _ => hq)]

theorem resolved_until_reset_witness :
    armedWorld.g_cachedFormIDs.itemResolved = true
    ∧ resolveItem {} (unresolvedEnv 3000000000) armedWorld = armedWorld
    ∧ (ResolveFormIDs {} (unresolvedEnv 3000000000) armedWorld).g_cachedFormIDs.itemFormID
        = armedWorld.g_cachedFormIDs.itemFormID :=
  ⟨by decide,
    ((resolved_until_reset {} (unresolvedEnv 3000000000) armedWorld).1 (by decide)).1,
    ((resolved_until_reset {} (unresolvedEnv 3000000000) armedWorld).1 (by decide)).2.2.2.1⟩

/-- C16.  A failing lookup in `ResolveFormIDs` (`GetFormIDFromPlugin` returns
0, or `GetQuestByEditorID` returns null) leaves the resolved flag of that
identifier false; after any number of failing calls the next call looks up
again, and resolves the identifier with the FormID the engine then returns.
The outcome for one identifier does not depend on the lookup of the other: the
quest is resolved when the item lookup fails, and the item when the quest
lookup fails. -/
theorem failed_lookup_retried (cfg : PluginConfig) (env : Env) (w : World) :
    (w.g_cachedFormIDs.itemResolved = false →
      env.formIDFromPlugin cfg.item.itemPlugin cfg.item.itemID = 0 →
      (ResolveFormIDs cfg env w).g_cachedFormIDs.itemResolved = false)
    ∧ (w.g_cachedFormIDs.questResolved = false →
      env.questByEditorID cfg.quest.questEditorID = none →
      (ResolveFormIDs cfg env w).g_cachedFormIDs.questResolved = false
      ∧ (ResolveFormIDs cfg env w).g_cachedFormIDs.questFormID
          = w.g_cachedFormIDs.questFormID)
    ∧ (∀ (envs : List Env) (next : Env), cfg.item.enabled = true →
      w.g_cachedFormIDs.itemResolved = false →
      (∀ e ∈ envs, e.formIDFromPlugin cfg.item.itemPlugin cfg.item.itemID = 0) →
      next.formIDFromPlugin cfg.item.itemPlugin cfg.item.itemID ≠ 0 →
      (run cfg (resolveCalls envs) w).g_cachedFormIDs.itemResolved = false
      ∧ (ResolveFormIDs cfg next (run cfg (resolveCalls envs) w)
          ).g_cachedFormIDs.itemResolved = true
      ∧ (ResolveFormIDs cfg next (run cfg (resolveCalls envs) w)
          ).g_cachedFormIDs.itemFormID
          = next.formIDFromPlugin cfg.item.itemPlugin cfg.item.itemID)
    ∧ (∀ (envs : List Env) (next : Env) (quest : Quest), cfg.quest.enabled = true →
      w.g_cachedFormIDs.questResolved = false →
      (∀ e ∈ envs, e.questByEditorID cfg.quest.questEditorID = none) →
      next.questByEditorID cfg.quest.questEditorID = some quest →
      (run cfg (resolveCalls envs) w).g_cachedFormIDs.questResolved = false
      ∧ (ResolveFormIDs cfg next (run cfg (resolveCalls envs) w)
          ).g_cachedFormIDs.questResolved = true
      ∧ (ResolveFormIDs cfg next (run cfg (resolveCalls envs) w)
          ).g_cachedFormIDs.questFormID = quest.formID)
    ∧ (∀ quest : Quest, cfg.quest.enabled = true →
      w.g_cachedFormIDs.questResolved = false →
      env.formIDFromPlugin cfg.item.itemPlugin cfg.item.itemID = 0 →
      env.questByEditorID cfg.quest.questEditorID = some quest →
      (ResolveFormIDs cfg env w).g_cachedFormIDs.questResolved = true
      ∧ (ResolveFormIDs cfg env w).g_cachedFormIDs.questFormID = quest.formID)
    ∧ (cfg.item.enabled = true →
      w.g_cachedFormIDs.itemResolved = false →
      env.questByEditorID cfg.quest.questEditorID = none →
      env.formIDFromPlugin cfg.item.itemPlugin cfg.item.itemID ≠ 0 →
      (ResolveFormIDs cfg env w).g_cachedFormIDs.itemResolved = true
      ∧ (ResolveFormIDs cfg env w).g_cachedFormIDs.itemFormID
          = env.formIDFromPlugin cfg.item.itemPlugin cfg.item.itemID) := by
  refine ⟨?_, ?_, ?_, ?_, ?_, ?_⟩
  · intro hw hf
    rw [cached_ResolveFormIDs, resolve_itemResolved, hw, hf]
    simp
  · intro hw hf
    rw [cached_ResolveFormIDs, resolve_questResolved, resolve_questFormID, hw, hf]
    simp
  · intro envs next he hw hf hn
    have h0 := item_unresolved_run cfg envs w hw hf
    refine ⟨h0, ?_, ?_⟩
    · rw [cached_ResolveFormIDs, resolve_itemResolved, h0, he]
      simp [hn]
    · rw [cached_ResolveFormIDs, resolve_itemFormID, h0, he]
      simp
  · intro envs next quest he hw hf hn
    have h0 := quest_unresolved_run cfg envs w hw hf
    refine ⟨h0, ?_, ?_⟩
    · rw [cached_ResolveFormIDs, resolve_questResolved, h0, he, hn]
      simp
    · rw [cached_ResolveFormIDs, resolve_questFormID, h0, he, hn]
      simp
  · intro quest he hw _ hq
    refine ⟨?_, ?_⟩
    · rw [cached_ResolveFormIDs, resolve_questResolved, hw, he, hq]
      simp
    · rw [cached_ResolveFormIDs, resolve_questFormID, hw, he, hq]
      simp
  · intro he hw _ hn
    refine ⟨?_, ?_⟩
    · rw [cached_ResolveFormIDs, resolve_itemResolved, hw, he]
      simp [hn]
    · rw [cached_ResolveFormIDs, resolve_itemFormID, hw, he]
      simp

theorem failed_lookup_retried_witness :
    (ResolveFormIDs {} (questOnlyEnv 1000000000) {}).g_cachedFormIDs.itemResolved = false
    ∧ ((ResolveFormIDs {} (questOnlyEnv 1000000000) {}).g_cachedFormIDs.questResolved = true
      ∧ (ResolveFormIDs {} (questOnlyEnv 1000000000) {}).g_cachedFormIDs.questFormID
          = 0x0A000D62)
    ∧ ((run {} (resolveCalls [unresolvedEnv 1, unresolvedEnv 2]) {}
          ).g_cachedFormIDs.itemResolved = false
      ∧ (ResolveFormIDs {} (sampleEnv 3)
          (run {} (resolveCalls [unresolvedEnv 1, unresolvedEnv 2]) {})
          ).g_cachedFormIDs.itemResolved = true
      ∧ (ResolveFormIDs {} (sampleEnv 3)
          (run {} (resolveCalls [unresolvedEnv 1, unresolvedEnv 2]) {})
          ).g_cachedFormIDs.itemFormID = 0x0A625C7C) :=
  ⟨(failed_lookup_retried {} (questOnlyEnv 1000000000) {}).1 rfl rfl,
    (failed_lookup_retried {} (questOnlyEnv 1000000000) {}).2.2.2.2.1
      { formID := 0x0A000D62, editorID := "YW_Quest_MDF", isRunning := true,
        currentStageID := 10 } rfl rfl rfl rfl,
    (failed_lookup_retried {} (sampleEnv 0) {}).2.2.1
      [unresolvedEnv 1, unresolvedEnv 2] (sampleEnv 3) rfl rfl
      (by intro e he; simp only [List.mem_cons, List.mem_singleton, List.not_mem_nil,
            or_false] at he; rcases he with rfl | rfl <;> rfl)
      (by decide)⟩

/-! ## C17: the two destinations are independent -/

theorem writeDestination_failed (o : DestOutcome) (content : String) (mode : OpenMode)
    (file : String) (h : o.directoryThrows = true ∨ o.opens = false) :
    writeDestination o content mode file = file := by
  unfold writeDestination
  rcases h with h | h
  · simp [h]
  · simp [h]

/-- C17.  `WriteToDualPath` is total, and what it does to one destination does
not depend on the other: with any outcome put in place of the primary one the
secondary file is the same, and conversely; a destination whose directory
check does not throw and whose stream opens receives the content followed by a
newline (appended, or as its whole content when truncating), whatever happens
to the other destination; a destination that fails keeps its file. -/
theorem dual_write_independent (fsys : DualOutcome) (content : String) (mode : OpenMode)
    (files : LogFiles) :
    (∀ p : DestOutcome,
      (WriteToDualPath { fsys with primary := p } content mode files).secondary
        = (WriteToDualPath fsys content mode files).secondary)
    ∧ (∀ s : DestOutcome,
      (WriteToDualPath { fsys with secondary := s } content mode files).primary
        = (WriteToDualPath fsys content mode files).primary)
    ∧ (fsys.secondary.directoryThrows = false → fsys.secondary.opens = true →
      (WriteToDualPath fsys content mode files).secondary =
        match mode with
        | OpenMode.app => files.secondary ++ content ++ "\n"
        | OpenMode.trunc => content ++ "\n")
    ∧ (fsys.primary.directoryThrows = false → fsys.primary.opens = true →
      (WriteToDualPath fsys content mode files).primary =
        match mode with
        | OpenMode.app => files.primary ++ content ++ "\n"
        | OpenMode.trunc => content ++ "\n")
    ∧ (fsys.primary.directoryThrows = true ∨ fsys.primary.opens = false →
      (WriteToDualPath fsys content mode files).primary = files.primary)
    ∧ (fsys.secondary.directoryThrows = true ∨ fsys.secondary.opens = false →
      (WriteToDualPath fsys content mode files).secondary = files.secondary) := by
  refine ⟨fun _ => rfl, fun _ => rfl, ?_, ?_, ?_, ?_⟩
  · intro h1 h2
    cases mode <;> simp [WriteToDualPath, writeDestination, h1, h2]
  · intro h1 h2
    cases mode <;> simp [WriteToDualPath, writeDestination, h1, h2]
  · intro h
    exact writeDestination_failed _ _ _ _ h
  · intro h
    exact writeDestination_failed _ _ _ _ h

theorem dual_write_independent_witness :
    DualOutcome.primaryFails.secondary.directoryThrows = false
    ∧ DualOutcome.primaryFails.secondary.opens = true
    ∧ (DualOutcome.primaryFails.primary.directoryThrows = true
        ∨ DualOutcome.primaryFails.primary.opens = false)
    ∧ (WriteToDualPath DualOutcome.primaryFails "line" OpenMode.app
        { primary := "p\n", secondary := "s\n" }).secondary = "s\n" ++ "line" ++ "\n"
    ∧ (WriteToDualPath DualOutcome.primaryFails "line" OpenMode.app
        { primary := "p\n", secondary := "s\n" }).primary = "p\n" :=
  ⟨rfl, rfl, Or.inl rfl,
    (dual_write_independent DualOutcome.primaryFails "line" OpenMode.app
      { primary := "p\n", secondary := "s\n" }).2.2.1 rfl rfl,
    (dual_write_independent DualOutcome.primaryFails "line" OpenMode.app
      { primary := "p\n", secondary := "s\n" }).2.2.2.2.1 (Or.inl rfl)⟩

/-! ## C18: the format of a log line -/

set_option maxRecDepth 100000 in
theorem zeroPad_three : ∀ m : Fin 1000,
    (zeroPad 3 m.val).data
      = [Nat.digitChar (m.val / 100), Nat.digitChar (m.val / 10 % 10),
          Nat.digitChar (m.val % 10)] := by
  decide

theorem namedLine_eq (name : String) (a : Append) :
    namedLine name a = formatLogLine name a.clock a.message a.lineNumber := by
  have h1 : ∀ x : String, "] " ++ ("[" ++ x) = "] [" ++ x := by
    intro x
    rw [← String.append_assoc]
    rfl
  have h2 : ∀ x : String, "] [info] " ++ ("[plugin.cpp:" ++ x) = "] [info] [plugin.cpp:" ++ x := by
    intro x
    rw [← String.append_assoc]
    rfl
  unfold namedLine formatLogLine
  simp only [String.append_assoc, h1, h2]

theorem Channel.write_last (c : Channel) (a : Append) (ch : LogChannel) :
    (c.write a ch).lines.getLast? = some (c.line a) := by
  rw [Channel.write_lines]
  split
  · cases h : ch.lines with
    | nil => simp [h] at *
    | cons x xs => simp [List.getLast?_eq_getLast]
  · simp

/-- C18, counterexample.  The line `WriteToActionsLog` appends has `log`
between its second pair of brackets, not the name of the channel. -/
theorem actions_line_tagged_log :
    (Channel.actions.write sampleAppend {}).lines
      = ["[2025-01-02 03:04:05.006] [log] [info] [plugin.cpp:1248] Menu Console opened"]
    ∧ (Channel.actions.write sampleAppend {}).lines
      ≠ [namedLine Channel.actions.name sampleAppend] := by
  decide

/-- C18, as amended.  For each channel, every message and every line number,
the line appended to the channel is
`[YYYY-MM-DD HH:MM:SS.mmm] [<tag>] [info] [plugin.cpp:<line>] <message>`, where
the tag is `log` for the actions channel, `quest` for the quest channel and
`system` for the system channel, and `mmm` is the millisecond part of the
current time written on exactly three digits, zero-padded: its hundreds, tens
and units digit. -/
theorem log_line_format (c : Channel) (a : Append) (ch : LogChannel) :
    (c.write a ch).lines.getLast? = some (namedLine c.tag a)
    ∧ c.tag = (match c with
        | Channel.actions => "log"
        | Channel.quest => "quest"
        | Channel.system => "system")
    ∧ timestampWithMillis a.clock =
        toString a.clock.year ++ "-" ++ zeroPad 2 a.clock.month ++ "-"
          ++ zeroPad 2 a.clock.day ++ " " ++ zeroPad 2 a.clock.hour ++ ":"
          ++ zeroPad 2 a.clock.minute ++ ":" ++ zeroPad 2 a.clock.second ++ "."
          ++ zeroPad 3 (a.clock.epochMs % 1000)
    ∧ (zeroPad 3 (a.clock.epochMs % 1000)).data
        = [Nat.digitChar (a.clock.epochMs % 1000 / 100),
            Nat.digitChar (a.clock.epochMs % 1000 / 10 % 10),
            Nat.digitChar (a.clock.epochMs % 1000 % 10)] := by
  have hz := zeroPad_three ⟨a.clock.epochMs % 1000, Nat.mod_lt _ (by decide)⟩
  refine ⟨?_, ?_, rfl, hz⟩
  · rw [Channel.write_last, namedLine_eq]
    rfl
  · cases c <;> rfl

/-! ## C19: the default configuration file -/

theorem getlines_default : getlines defaultConfigurationText = defaultConfigurationLines := by
  decide

theorem loadLines_default_upto (stof : String → Except StoError FloatValue)
    (cfg0 : PluginConfig) :
    loadLines stof defaultConfigurationLines "" cfg0 =
      match (stof "5000.0").map (fun v =>
          ({ enabled := true, checkIntervalMs := 1000, maxDetectionDistance := v }
            : MonitoringConfig)) with
      | Except.ok m =>
        ({ quest := {}, item := {}, messages := {}, monitoring := m, notification := {} },
          none)
      | Except.error e =>
        ({ quest := {}, item := {}, messages := {},
           monitoring := { enabled := true, checkIntervalMs := 1000,
                           maxDetectionDistance := cfg0.monitoring.maxDetectionDistance },
           notification := cfg0.notification }, some e) := by
  have e1 : loadLines stof defaultConfigurationLines "" cfg0 =
      match applyAssignment stof "Monitoring" "MaxDetectionDistance" "5000.0"
          { quest := {}, item := {}, messages := {},
            monitoring := { enabled := true, checkIntervalMs := 1000,
                            maxDetectionDistance := cfg0.monitoring.maxDetectionDistance },
            notification := cfg0.notification } with
      | Except.ok cfg => loadLines stof ["", "[Notification]", "Enabled=true"] "Monitoring" cfg
      | Except.error e =>
        ({ quest := {}, item := {}, messages := {},
           monitoring := { enabled := true, checkIntervalMs := 1000,
                           maxDetectionDistance := cfg0.monitoring.maxDetectionDistance },
           notification := cfg0.notification }, some e) := rfl
  rw [e1]
  have e2 : applyAssignment stof "Monitoring" "MaxDetectionDistance" "5000.0"
      { quest := {}, item := {}, messages := {},
        monitoring := { enabled := true, checkIntervalMs := 1000,
                        maxDetectionDistance := cfg0.monitoring.maxDetectionDistance },
        notification := cfg0.notification }
      = ((stof "5000.0").map (fun v =>
          ({ enabled := true, checkIntervalMs := 1000, maxDetectionDistance := v }
            : MonitoringConfig))).map (fun m =>
          ({ quest := {}, item := {}, messages := {}, monitoring := m,
             notification := cfg0.notification } : PluginConfig)) := rfl
  rw [e2]
  cases stof "5000.0" with
  | error e => rfl
  | ok v => rfl

theorem loadLines_default (stof : String → Except StoError FloatValue)
    (h : stof "5000.0" = Except.ok (FloatValue.finite 5000)) (cfg0 : PluginConfig) :
    loadLines stof (getlines defaultConfigurationText) "" cfg0 = ({}, none) := by
  rw [getlines_default, loadLines_default_upto, h]
  rfl

/-- C19.  The text `SaveDefaultConfiguration` writes, read back by the line
loop of `LoadConfiguration` from any `g_config`, gives every field the default
declared in `PluginConfig`, and no exception; so, when the file is absent and
can be created and read, `LoadConfiguration` writes it, returns true and leaves
the default configuration: quest and item enabled with the default
identifiers, trigger stage 21, completion stage 30, interval 1000 ms, the
default messages, every flag true.  (`std::stof` is taken to read `5000.0` as
the float 5000.) -/
theorem default_file_round_trip (stof : String → Except StoError FloatValue)
    (h : stof "5000.0" = Except.ok (FloatValue.finite 5000)) (s : ConfigWorld) :
    loadLines stof (getlines defaultConfigurationText) "" s.g_config = ({}, none)
    ∧ (s.ini.creatable = true →
      (SaveDefaultConfiguration s.ini).content = some defaultConfigurationText)
    ∧ (s.ini.content = none → s.ini.creatable = true → s.ini.readable = true →
      (LoadConfiguration stof s).2 = Except.ok true
      ∧ (LoadConfiguration stof s).1.g_config = {}
      ∧ (LoadConfiguration stof s).1.ini.content = some defaultConfigurationText)
    ∧ (({} : PluginConfig).quest
        = { enabled := true, questEditorID := "YW_Quest_MDF",
            questPlugin := "YurianaWench.esp", triggerStage := 21, completionStage := 30,
            showNotification := true }
      ∧ ({} : PluginConfig).item
        = { enabled := true, itemID := "625C7C", itemPlugin := "YurianaWench.esp",
            itemName := "Lelyna's Remedy", removeOnDetection := true,
            showNotification := true }
      ∧ ({} : PluginConfig).messages
        = { enabled := true,
            triggerMessage :=
              "You must craft Lelyna's Remedy to cure Elora. Check your inventory for the recipe.",
            completionMessage :=
              "You have crafted the potion and the temple girls are very happy. You have saved Elora!",
            showTriggerMessage := true, showCompletionMessage := true }
      ∧ ({} : PluginConfig).monitoring
        = { enabled := true, checkIntervalMs := 1000,
            maxDetectionDistance := FloatValue.finite 5000 }
      ∧ ({} : PluginConfig).notification = { enabled := true }) := by
  refine ⟨loadLines_default stof h _, ?_, ?_, ⟨rfl, rfl, rfl, rfl, rfl⟩⟩
  · intro hc
    simp [SaveDefaultConfiguration, hc]
  · intro h0 hc hr
    have hsave : (SaveDefaultConfiguration s.ini)
        = { s.ini with content := some defaultConfigurationText } := by
      simp [SaveDefaultConfiguration, hc]
    unfold LoadConfiguration
    simp only [h0, Option.isNone_none, if_true, hsave, hr, Bool.not_true, Bool.false_eq_true,
      if_false, loadLines_default stof h]
    exact ⟨trivial, trivial, trivial⟩

theorem default_file_round_trip_witness :
    sampleStof "5000.0" = Except.ok (FloatValue.finite 5000)
    ∧ loadLines sampleStof (getlines defaultConfigurationText) "" otherConfig = ({}, none)
    ∧ (LoadConfiguration sampleStof { g_config := otherConfig }).1.g_config = {} :=
  ⟨rfl,
    (default_file_round_trip sampleStof rfl { g_config := otherConfig }).1,
    ((default_file_round_trip sampleStof rfl { g_config := otherConfig }).2.2.1
      rfl rfl rfl).2.1⟩

/-! ## C20: the frame of the plugin validation -/

/-- C20.  `ValidatePluginsInINI` leaves the configuration file alone and
changes nothing of `g_config` but the flags `quest.enabled` and
`item.enabled`: afterwards each is true exactly when it was true and the
feature's plugin is found by `LookupModByName` (with no data handler nothing is
looked up and nothing changes), so a flag only ever goes from true to false;
every other field of the five sections keeps its value, and the trace only grows
by lines of the actions log. -/
theorem validation_frame (dataHandler : Option (String → Bool)) (s : ConfigWorld) :
    (ValidatePluginsInINI dataHandler s).ini = s.ini
    ∧ (ValidatePluginsInINI dataHandler s).g_config.quest.enabled
        = (s.g_config.quest.enabled &&
            match dataHandler with
            | none => true
            | some lookupModByName => lookupModByName s.g_config.quest.questPlugin)
    ∧ (ValidatePluginsInINI dataHandler s).g_config.item.enabled
        = (s.g_config.item.enabled &&
            match dataHandler with
            | none => true
            | some lookupModByName => lookupModByName s.g_config.item.itemPlugin)
    ∧ (ValidatePluginsInINI dataHandler s).g_config.quest
        = { s.g_config.quest with
            enabled := (ValidatePluginsInINI dataHandler s).g_config.quest.enabled }
    ∧ (ValidatePluginsInINI dataHandler s).g_config.item
        = { s.g_config.item with
            enabled := (ValidatePluginsInINI dataHandler s).g_config.item.enabled }
    ∧ (ValidatePluginsInINI dataHandler s).g_config.messages = s.g_config.messages
    ∧ (ValidatePluginsInINI dataHandler s).g_config.monitoring = s.g_config.monitoring
    ∧ (ValidatePluginsInINI dataHandler s).g_config.notification = s.g_config.notification
    ∧ ((ValidatePluginsInINI dataHandler s).g_config.quest.enabled = true →
        s.g_config.quest.enabled = true)
    ∧ ((ValidatePluginsInINI dataHandler s).g_config.item.enabled = true →
        s.g_config.item.enabled = true)
    ∧ (∃ added : List Effect,
        (ValidatePluginsInINI dataHandler s).trace = s.trace ++ added
        ∧ ∀ e ∈ added, ∃ (m : String) (l : Nat), e = Effect.log Channel.actions m l) := by
  cases dataHandler with
  | none =>
    refine ⟨rfl, ?_, ?_, rfl, rfl, rfl, rfl, rfl, id, id, ⟨[], ?_, ?_⟩⟩
    · simp [ValidatePluginsInINI]
    · simp [ValidatePluginsInINI]
    · simp [ValidatePluginsInINI]
    · simp
  | some f =>
    have hqe : ∀ b : Bool, s.g_config.quest.enabled = b →
        s.g_config.quest = { s.g_config.quest with enabled := b } := by
      intro b h
      subst h
      rfl
    have hie : ∀ b : Bool, s.g_config.item.enabled = b →
        s.g_config.item = { s.g_config.item with enabled := b } := by
      intro b h
      subst h
      rfl
    cases hq : s.g_config.quest.enabled <;> cases hi : s.g_config.item.enabled <;>
      cases hfq : f s.g_config.quest.questPlugin <;>
      cases hfi : f s.g_config.item.itemPlugin <;>
      simp [ValidatePluginsInINI, validateQuestPlugin, validateItemPlugin, hq, hi, hfq, hfi]
      <;> first
        | exact ⟨hqe _ hq, hie _ hi⟩
        | exact hqe _ hq
        | exact hie _ hi

theorem validation_frame_witness :
    (ValidatePluginsInINI (missingPlugin "YurianaWench.esp") {}).g_config.quest.enabled = false
    ∧ (ValidatePluginsInINI (missingPlugin "YurianaWench.esp") {}).g_config.item.enabled
        = false
    ∧ (ValidatePluginsInINI (missingPlugin "YurianaWench.esp") {}).ini = {}
    ∧ (ValidatePluginsInINI (missingPlugin "YurianaWench.esp") {}).g_config.messages = {} :=
  ⟨(validation_frame (missingPlugin "YurianaWench.esp") {}).2.1,
    (validation_frame (missingPlugin "YurianaWench.esp") {}).2.2.1,
    (validation_frame (missingPlugin "YurianaWench.esp") {}).1,
    (validation_frame (missingPlugin "YurianaWench.esp") {}).2.2.2.2.2.1⟩

/-! ## The progress state along the two observation paths -/

theorem progress_emit (e : Effect) (w : World) : (emit e w).progress = w.progress := rfl

theorem progress_logActions (m : String) (l : Nat) (w : World) :
    (logActions m l w).progress = w.progress := rfl

theorem progress_logQuest (m : String) (l : Nat) (w : World) :
    (logQuest m l w).progress = w.progress := rfl

theorem progress_logSystem (m : String) (l : Nat) (w : World) :
    (logSystem m l w).progress = w.progress := rfl

theorem progress_ShowNotificationMessage (site : Nat) (m : String) (w : World) :
    (ShowNotificationMessage site m w).progress = w.progress := by
  unfold ShowNotificationMessage
  split <;> rfl

theorem progress_ShowMessageBox (env : Env) (site : Nat) (m : String) (w : World) :
    (ShowMessageBox env site m w).progress = w.progress := by
  unfold ShowMessageBox
  split
  · rfl
  · split
    · exact progress_ShowNotificationMessage _ _ _
    · rfl

theorem progress_showTriggerMessage (cfg : PluginConfig) (env : Env) (w : World) :
    (showTriggerMessage cfg env w).progress =
      { w.progress with
        triggerMessageShown := w.progress.triggerMessageShown || cfg.displaysTrigger } := by
  have hu : ({ w with g_triggerMessageShown := true } : World).progress
      = { w.progress with triggerMessageShown := true } := rfl
  have hs : w.progress.triggerMessageShown = w.g_triggerMessageShown := rfl
  have he : ∀ p : Progress, p = { p with triggerMessageShown := p.triggerMessageShown } :=
    fun _ => rfl
  unfold showTriggerMessage PluginConfig.displaysTrigger
  by_cases hc : (cfg.messages.enabled && cfg.messages.showTriggerMessage
      && !w.g_triggerMessageShown) = true
  · rw [if_pos hc, progress_logActions, progress_ShowMessageBox, hu]
    simp only [Bool.and_eq_true, Bool.not_eq_true'] at hc
    obtain ⟨⟨h1, h2⟩, h3⟩ := hc
    simp [h1, h2]
  · rw [if_neg hc, hs]
    cases h1 : cfg.messages.enabled <;> cases h2 : cfg.messages.showTriggerMessage <;>
      cases h3 : w.g_triggerMessageShown <;> simp [h1, h2, h3] at hc ⊢ <;>
      first
        | exact he _
        | (rw [← h3]; exact he _)

theorem progress_notifyTriggerStage (cfg : PluginConfig) (w : World) :
    (notifyTriggerStage cfg w).progress = w.progress := by
  unfold notifyTriggerStage
  split
  · rw [progress_ShowNotificationMessage]
  · rfl

theorem progress_ProcessQuestTrigger (cfg : PluginConfig) (env : Env) (w : World) :
    (ProcessQuestTrigger cfg env w).progress = (w.progress).fireTrigger cfg := by
  have ht : w.progress.triggerStageReached = w.g_questState.triggerStageReached := rfl
  have hu : ({ w with g_questState := { w.g_questState with triggerStageReached := true } }
      : World).progress = { w.progress with triggerStageReached := true } := rfl
  unfold ProcessQuestTrigger Progress.fireTrigger
  rw [ht]
  split
  · rfl
  · simp only [progress_logActions, progress_notifyTriggerStage, progress_showTriggerMessage,
      progress_logQuest, hu]

theorem progress_setActive (v : World) (b : Bool) (stage : Int) :
    ({ v with g_questState :=
        { v.g_questState with questActive := b, currentStage := stage } } : World).progress
      = { v.progress with questActive := b, currentStage := stage } := rfl

theorem progress_setQuestActive (v : World) (b : Bool) :
    ({ v with g_questState := { v.g_questState with questActive := b } } : World).progress
      = { v.progress with questActive := b } := rfl

theorem progress_setCurrentStage (v : World) (stage : Int) :
    ({ v with g_questState := { v.g_questState with currentStage := stage } } : World).progress
      = { v.progress with currentStage := stage } := rfl

theorem progress_setLastQuestCheck (v : World) (t : Int) :
    ({ v with g_lastQuestCheck := t } : World).progress = v.progress := rfl

theorem progress_questNotFound (cfg : PluginConfig) (w : World) :
    (questNotFound cfg w).progress = (w.progress).pollNotFound := by
  have ha : w.progress.questActive = w.g_questState.questActive := rfl
  unfold questNotFound Progress.pollNotFound
  rw [ha]
  split
  · simp only [progress_setQuestActive, progress_logQuest]
  · rfl

theorem progress_activateQuest (cfg : PluginConfig) (r : Bool) (s : Int) (w : World) :
    (activateQuest cfg r s w).progress =
      if !w.progress.questActive && r then
        { w.progress with questActive := true, currentStage := s }
      else w.progress := by
  have ha : w.progress.questActive = w.g_questState.questActive := rfl
  unfold activateQuest
  rw [ha]
  split
  · simp only [progress_logQuest, progress_setActive]
  · rfl

theorem progress_recordStageChange (s : Int) (w : World) :
    (recordStageChange s w).progress =
      if w.progress.questActive && s != w.progress.currentStage then
        { w.progress with currentStage := s }
      else w.progress := by
  have ha : w.progress.questActive = w.g_questState.questActive := rfl
  have hc : w.progress.currentStage = w.g_questState.currentStage := rfl
  unfold recordStageChange
  rw [ha, hc]
  split
  · simp only [progress_setCurrentStage, progress_logQuest]
  · rfl

theorem progress_checkTriggerStage (cfg : PluginConfig) (env : Env) (s : Int) (w : World) :
    (checkTriggerStage cfg env s w).progress =
      if w.progress.questActive && !w.progress.triggerStageReached then
        (if s ≥ cfg.quest.triggerStage then (w.progress).fireTrigger cfg else w.progress)
      else w.progress := by
  have ha : w.progress.questActive = w.g_questState.questActive := rfl
  have ht : w.progress.triggerStageReached = w.g_questState.triggerStageReached := rfl
  unfold checkTriggerStage
  rw [ha, ht]
  split
  · split
    · exact progress_ProcessQuestTrigger cfg env w
    · rfl
  · rfl

theorem progress_deactivateQuest (cfg : PluginConfig) (r : Bool) (w : World) :
    (deactivateQuest cfg r w).progress =
      if !r && w.progress.questActive then { w.progress with questActive := false }
      else w.progress := by
  have ha : w.progress.questActive = w.g_questState.questActive := rfl
  unfold deactivateQuest
  rw [ha]
  split
  · simp only [progress_logQuest, progress_setQuestActive]
  · rfl

theorem progress_CheckQuestState (cfg : PluginConfig) (env : Env) (w : World) :
    (CheckQuestState cfg env w).progress =
      (w.progress).poll cfg (env.pollDue cfg w) (env.questByEditorID cfg.quest.questEditorID) := by
  have hd : w.progress.completionDone = w.g_questState.completionDone := rfl
  unfold CheckQuestState Progress.poll Env.pollDue
  rw [hd]
  split
  · rfl
  · split
    · rfl
    · simp only []
      by_cases hdue : cfg.monitoring.checkIntervalMs ≤ elapsedMs env.steadyNow w.g_lastQuestCheck
      · have hn : ¬ elapsedMs env.steadyNow w.g_lastQuestCheck < cfg.monitoring.checkIntervalMs := by
          omega
        simp only [hn, hdue, if_false, decide_True, Bool.not_true, Bool.false_eq_true]
        cases env.questByEditorID cfg.quest.questEditorID with
        | none =>
          simp only [progress_questNotFound, progress_setLastQuestCheck]
        | some q =>
          simp only [progress_deactivateQuest, progress_checkTriggerStage,
            progress_recordStageChange, progress_activateQuest, progress_setLastQuestCheck,
            Progress.pollFound]
      · have hn : elapsedMs env.steadyNow w.g_lastQuestCheck < cfg.monitoring.checkIntervalMs := by
          omega
        simp [hn, hdue]

theorem progress_eventTriggerStage (cfg : PluginConfig) (env : Env) (s : Int) (w : World) :
    (eventTriggerStage cfg env s w).progress =
      if !w.progress.triggerStageReached && s ≥ cfg.quest.triggerStage then
        (w.progress).fireTrigger cfg
      else w.progress := by
  have ht : w.progress.triggerStageReached = w.g_questState.triggerStageReached := rfl
  unfold eventTriggerStage
  rw [ht]
  split
  · exact progress_ProcessQuestTrigger cfg env w
  · rfl

theorem progress_QuestStageEvent_blocks (cfg : PluginConfig) (env : Env)
    (ev : QuestStageEvent) (w : World) :
    (QuestStageEventSink.ProcessEvent cfg env (some ev) w).progress =
      if !cfg.quest.enabled then w.progress
      else if w.g_questState.completionDone then w.progress
      else match env.questByFormID ev.formID with
        | none => w.progress
        | some quest =>
          if quest.editorID = "" then w.progress
          else if quest.editorID = cfg.quest.questEditorID then
            if !w.progress.triggerStageReached && (ev.stage : Int) ≥ cfg.quest.triggerStage then
              ({ w.progress with questActive := true, currentStage := (ev.stage : Int) }
                : Progress).fireTrigger cfg
            else { w.progress with questActive := true, currentStage := (ev.stage : Int) }
          else w.progress := by
  unfold QuestStageEventSink.ProcessEvent
  simp only []
  split
  · rfl
  · split
    · rfl
    · cases env.questByFormID ev.formID with
      | none => rfl
      | some quest =>
        simp only []
        split
        · rfl
        · split
          · rw [progress_eventTriggerStage, progress_setActive, progress_logQuest,
              progress_logQuest, progress_logQuest, progress_logQuest, progress_logQuest]
          · rfl

theorem progress_QuestStageEvent (cfg : PluginConfig) (env : Env) (ev : QuestStageEvent)
    (w : World) :
    (QuestStageEventSink.ProcessEvent cfg env (some ev) w).progress =
      (w.progress).stageEvent cfg (env.tracks cfg ev) (ev.stage : Int) := by
  have hd : w.progress.completionDone = w.g_questState.completionDone := rfl
  rw [progress_QuestStageEvent_blocks]
  unfold Progress.stageEvent Env.tracks
  rw [hd]
  split
  · rfl
  · split
    · rfl
    · cases env.questByFormID ev.formID with
      | none => rfl
      | some quest =>
        by_cases h1 : quest.editorID = ""
        · simp [h1]
        · by_cases h2 : quest.editorID = cfg.quest.questEditorID
          · have h3 : ¬ cfg.quest.questEditorID = "" := fun h => h1 (h2.trans h)
            simp [h2, h3]
            rfl
          · simp [h1, h2]

theorem lq_QuestStageEvent (cfg : PluginConfig) (env : Env) (event : Option QuestStageEvent)
    (w : World) :
    (QuestStageEventSink.ProcessEvent cfg env event w).g_lastQuestCheck
      = w.g_lastQuestCheck := by
  have hu : ∀ (v : World) (b : Bool) (s : Int), ({ v with g_questState :=
      { v.g_questState with questActive := b, currentStage := s } } : World).g_lastQuestCheck
      = v.g_lastQuestCheck := fun _ _ _ => rfl
  have hl : ∀ (m : String) (l : Nat) (v : World),
      (logQuest m l v).g_lastQuestCheck = v.g_lastQuestCheck := fun _ _ _ => rfl
  unfold QuestStageEventSink.ProcessEvent
  split
  · rfl
  · split
    · rfl
    · split
      · rfl
      · split
        · rfl
        · simp only []
          split
          · rfl
          · split
            · rw [lq_eventTriggerStage, hu, hl, hl, hl, hl, hl]
            · rfl

theorem Progress.fireTrigger_fields (cfg : PluginConfig) (p : Progress) :
    (p.fireTrigger cfg).questActive = p.questActive
    ∧ (p.fireTrigger cfg).triggerStageReached = true
    ∧ (p.fireTrigger cfg).itemDetected = p.itemDetected
    ∧ (p.fireTrigger cfg).completionDone = p.completionDone
    ∧ (p.fireTrigger cfg).currentStage = p.currentStage
    ∧ (p.fireTrigger cfg).triggerMessageShown
        = (p.triggerMessageShown || (!p.triggerStageReached && cfg.displaysTrigger))
    ∧ (p.fireTrigger cfg).completionMessageShown = p.completionMessageShown
    ∧ (p.fireTrigger cfg).potionDetectedMessageShown = p.potionDetectedMessageShown
    ∧ (p.fireTrigger cfg).waitingForPotionDelay = p.waitingForPotionDelay := by
  unfold Progress.fireTrigger
  cases h : p.triggerStageReached <;> simp [h]

theorem Progress.ext_fields (p q : Progress)
    (h1 : p.questActive = q.questActive) (h2 : p.triggerStageReached = q.triggerStageReached)
    (h3 : p.itemDetected = q.itemDetected) (h4 : p.completionDone = q.completionDone)
    (h5 : p.currentStage = q.currentStage) (h6 : p.triggerMessageShown = q.triggerMessageShown)
    (h7 : p.completionMessageShown = q.completionMessageShown)
    (h8 : p.potionDetectedMessageShown = q.potionDetectedMessageShown)
    (h9 : p.waitingForPotionDelay = q.waitingForPotionDelay) : p = q := by
  cases p
  cases q
  simp only [Progress.mk.injEq]
  exact ⟨h1, h2, h3, h4, h5, h6, h7, h8, h9⟩

theorem Progress.pollFound_eq (cfg : PluginConfig) (r : Bool) (s : Int) (p : Progress) :
    p.pollFound cfg r s =
      { p with
        questActive := r
        currentStage := if p.questActive || r then s else p.currentStage
        triggerStageReached := p.triggerStageReached
          || ((p.questActive || r) && decide (cfg.quest.triggerStage ≤ s))
        triggerMessageShown := p.triggerMessageShown
          || ((p.questActive || r) && decide (cfg.quest.triggerStage ≤ s)
              && !p.triggerStageReached && cfg.displaysTrigger) } := by
  obtain ⟨a, t, i, d, c, ts, cs, ps, wt⟩ := p
  unfold Progress.pollFound Progress.fireTrigger
  cases a <;> cases r <;> cases t <;> by_cases hc : s = c <;>
    by_cases hs : cfg.quest.triggerStage ≤ s <;>
    first
      | (subst hc; simp [hs])
      | simp [hs, hc]

theorem Progress.stageEvent_eq (cfg : PluginConfig) (s : Int) (p : Progress)
    (he : cfg.quest.enabled = true) (hd : p.completionDone = false) :
    p.stageEvent cfg true s =
      { p with
        questActive := true
        currentStage := s
        triggerStageReached := p.triggerStageReached || decide (cfg.quest.triggerStage ≤ s)
        triggerMessageShown := p.triggerMessageShown
          || (decide (cfg.quest.triggerStage ≤ s) && !p.triggerStageReached
              && cfg.displaysTrigger) } := by
  obtain ⟨a, t, i, d, c, ts, cs, ps, wt⟩ := p
  simp only at hd
  subst hd
  unfold Progress.stageEvent Progress.fireTrigger
  cases t <;> by_cases hs : cfg.quest.triggerStage ≤ s <;> simp [hs, he]

theorem Progress.poll_stageEvent (cfg : PluginConfig) (due tracked : Bool) (q : Quest)
    (p : Progress) :
    ((p.poll cfg due (some q)).stageEvent cfg tracked (GetQuestCurrentStage q)
      = if cfg.quest.enabled && !p.completionDone && tracked then
          { p with
            questActive := true
            currentStage := GetQuestCurrentStage q
            triggerStageReached := p.triggerStageReached
              || decide (cfg.quest.triggerStage ≤ GetQuestCurrentStage q)
            triggerMessageShown := p.triggerMessageShown
              || (decide (cfg.quest.triggerStage ≤ GetQuestCurrentStage q)
                  && !p.triggerStageReached && cfg.displaysTrigger) }
        else p.poll cfg due (some q))
    ∧ ((p.stageEvent cfg tracked (GetQuestCurrentStage q)).poll cfg due (some q)
      = if cfg.quest.enabled && !p.completionDone && tracked then
          { p with
            questActive := !due || q.isRunning
            currentStage := GetQuestCurrentStage q
            triggerStageReached := p.triggerStageReached
              || decide (cfg.quest.triggerStage ≤ GetQuestCurrentStage q)
            triggerMessageShown := p.triggerMessageShown
              || (decide (cfg.quest.triggerStage ≤ GetQuestCurrentStage q)
                  && !p.triggerStageReached && cfg.displaysTrigger) }
        else p.poll cfg due (some q)) := by
  simp only [Progress.poll]
  generalize GetQuestCurrentStage q = s
  generalize q.isRunning = r
  obtain ⟨a, t, i, d, c, ts, cs, ps, wt⟩ := p
  cases he : cfg.quest.enabled
  · simp [Progress.stageEvent, he]
  · cases d
    · cases tracked
      · simp [Progress.stageEvent, he]
      · cases due
        · simp only [Bool.not_true, Bool.false_eq_true, if_false,
            Bool.not_false, if_true, Bool.and_self, Bool.true_and]
          rw [Progress.stageEvent_eq cfg s _ he rfl]
          simp
        · simp only [Bool.not_true, Bool.false_eq_true, if_false,
            Bool.not_false, if_true, Bool.and_self, Bool.true_and]
          constructor
          · rw [Progress.pollFound_eq, Progress.stageEvent_eq cfg s _ he rfl]
            cases a <;> cases r <;> cases t <;>
              by_cases hs : cfg.quest.triggerStage ≤ s <;> simp [hs]
          · rw [Progress.stageEvent_eq cfg s _ he rfl]
            have hd : ∀ x : Progress, x.completionDone = false →
                (if x.completionDone = true then x else x.pollFound cfg r s)
                  = x.pollFound cfg r s := by
              intro x hx
              simp [hx]
            rw [hd _ rfl, Progress.pollFound_eq]
            cases a <;> cases r <;> cases t <;>
              by_cases hs : cfg.quest.triggerStage ≤ s <;> simp [hs]
    · simp [Progress.stageEvent, he]

theorem progress_poll_then_event (cfg : PluginConfig) (envQ envE : Env)
    (ev : QuestStageEvent) (w : World) :
    (QuestStageEventSink.ProcessEvent cfg envE (some ev) (CheckQuestState cfg envQ w)).progress
      = ((w.progress).poll cfg (envQ.pollDue cfg w)
          (envQ.questByEditorID cfg.quest.questEditorID)).stageEvent cfg
          (envE.tracks cfg ev) (ev.stage : Int) := by
  rw [progress_QuestStageEvent, progress_CheckQuestState]

theorem progress_event_then_poll (cfg : PluginConfig) (envQ envE : Env)
    (ev : QuestStageEvent) (w : World) :
    (CheckQuestState cfg envQ (QuestStageEventSink.ProcessEvent cfg envE (some ev) w)).progress
      = ((w.progress).stageEvent cfg (envE.tracks cfg ev) (ev.stage : Int)).poll cfg
          (envQ.pollDue cfg w) (envQ.questByEditorID cfg.quest.questEditorID) := by
  have hdue : envQ.pollDue cfg (QuestStageEventSink.ProcessEvent cfg envE (some ev) w)
      = envQ.pollDue cfg w := by
    unfold Env.pollDue
    rw [lq_QuestStageEvent]
  rw [progress_CheckQuestState, progress_QuestStageEvent, hdue]

/-- C21, counterexample.  The tracked quest is found at stage 5 and is not
running.  Poll first, event second: the poll changes nothing and the event sets
`questActive`.  Event first, poll second: the event sets `questActive` and the
poll clears it.  The two final progress states differ. -/
theorem stopped_quest_order_matters :
    (QuestStageEventSink.ProcessEvent {} (stoppedQuestEnv 2000000000 5)
        (some { formID := 1, stage := 5 })
        (CheckQuestState {} (stoppedQuestEnv 2000000000 5) {})).progress.questActive = true
    ∧ (CheckQuestState {} (stoppedQuestEnv 2000000000 5)
        (QuestStageEventSink.ProcessEvent {} (stoppedQuestEnv 2000000000 5)
          (some { formID := 1, stage := 5 }) {})).progress.questActive = false
    ∧ (QuestStageEventSink.ProcessEvent {} (stoppedQuestEnv 2000000000 5)
        (some { formID := 1, stage := 5 })
        (CheckQuestState {} (stoppedQuestEnv 2000000000 5) {})).progress
      ≠ (CheckQuestState {} (stoppedQuestEnv 2000000000 5)
        (QuestStageEventSink.ProcessEvent {} (stoppedQuestEnv 2000000000 5)
          (some { formID := 1, stage := 5 }) {})).progress := by
  decide

/-- C21, as amended.  When the poll finds the tracked quest at the stage the
event carries, the two orders of `CheckQuestState` and the stage event sink
give the same final progress state if the quest is running; in general they
agree on every field but `questActive`, and they differ exactly when the quest
feature is enabled, the completion is not done, the event is for the tracked
quest, the poll passes its rate limit and the quest is not running (the sink
sets `questActive` without looking at `IsRunning`, the poll clears it). -/
theorem stage_paths_commute (cfg : PluginConfig) (envQ envE : Env) (ev : QuestStageEvent)
    (q : Quest) (w : World)
    (hq : envQ.questByEditorID cfg.quest.questEditorID = some q)
    (hs : GetQuestCurrentStage q = (ev.stage : Int)) :
    (q.isRunning = true →
      (QuestStageEventSink.ProcessEvent cfg envE (some ev)
          (CheckQuestState cfg envQ w)).progress
        = (CheckQuestState cfg envQ
          (QuestStageEventSink.ProcessEvent cfg envE (some ev) w)).progress)
    ∧ ({ (QuestStageEventSink.ProcessEvent cfg envE (some ev)
          (CheckQuestState cfg envQ w)).progress with questActive := true }
        = { (CheckQuestState cfg envQ
          (QuestStageEventSink.ProcessEvent cfg envE (some ev) w)).progress
            with questActive := true })
    ∧ ((QuestStageEventSink.ProcessEvent cfg envE (some ev)
          (CheckQuestState cfg envQ w)).progress
        ≠ (CheckQuestState cfg envQ
          (QuestStageEventSink.ProcessEvent cfg envE (some ev) w)).progress
      ↔ (cfg.quest.enabled = true ∧ w.g_questState.completionDone = false
          ∧ envE.tracks cfg ev = true ∧ envQ.pollDue cfg w = true
          ∧ q.isRunning = false)) := by
  have hd : w.progress.completionDone = w.g_questState.completionDone := rfl
  rw [progress_poll_then_event, progress_event_then_poll, hq, ← hs,
    (Progress.poll_stageEvent cfg _ _ q _).1, (Progress.poll_stageEvent cfg _ _ q _).2, hd]
  cases he : cfg.quest.enabled <;> cases hdn : w.g_questState.completionDone <;>
    cases ht : envE.tracks cfg ev <;> cases hdue : envQ.pollDue cfg w <;>
    cases hr : q.isRunning <;> simp

theorem stage_paths_commute_witness :
    (runningQuestEnv 2000000000 21).questByEditorID ({} : PluginConfig).quest.questEditorID
      = some { formID := 1, editorID := "YW_Quest_MDF", isRunning := true,
               currentStageID := 21 }
    ∧ (QuestStageEventSink.ProcessEvent {} (runningQuestEnv 2500000000 21)
        (some { formID := 1, stage := 21 })
        (CheckQuestState {} (runningQuestEnv 2000000000 21) {})).progress
      = (CheckQuestState {} (runningQuestEnv 2000000000 21)
        (QuestStageEventSink.ProcessEvent {} (runningQuestEnv 2500000000 21)
          (some { formID := 1, stage := 21 }) {})).progress :=
  ⟨rfl,
    (stage_paths_commute {} (runningQuestEnv 2000000000 21) (runningQuestEnv 2500000000 21)
      { formID := 1, stage := 21 }
      { formID := 1, editorID := "YW_Quest_MDF", isRunning := true, currentStageID := 21 }
      {} rfl rfl).1 rfl⟩

/-! ## C22: the event path refines the poll path -/

/-- C22.  A stage event for the tracked quest with new stage `s` has the same
effect on the progress state as a poll (`CheckQuestState`, rate limit elapsed)
that finds the quest running at stage `s`, from every starting state: with the
quest feature enabled and the completion not done both set `questActive`,
record `s` as current stage and fire the trigger if `s` is at or past the
trigger stage and the trigger has not fired; otherwise both change nothing. -/
theorem event_refines_poll (cfg : PluginConfig) (envQ envE : Env) (ev : QuestStageEvent)
    (q : Quest) (w : World)
    (hq : envQ.questByEditorID cfg.quest.questEditorID = some q)
    (hs : GetQuestCurrentStage q = (ev.stage : Int))
    (hr : q.isRunning = true)
    (hdue : envQ.pollDue cfg w = true)
    (ht : envE.tracks cfg ev = true) :
    (QuestStageEventSink.ProcessEvent cfg envE (some ev) w).progress
      = (CheckQuestState cfg envQ w).progress
    ∧ (cfg.quest.enabled = true → w.g_questState.completionDone = false →
      (QuestStageEventSink.ProcessEvent cfg envE (some ev) w).progress
        = { w.progress with
            questActive := true
            currentStage := (ev.stage : Int)
            triggerStageReached := w.progress.triggerStageReached
              || decide (cfg.quest.triggerStage ≤ (ev.stage : Int))
            triggerMessageShown := w.progress.triggerMessageShown
              || (decide (cfg.quest.triggerStage ≤ (ev.stage : Int))
                  && !w.progress.triggerStageReached && cfg.displaysTrigger) })
    ∧ ((cfg.quest.enabled = false ∨ w.g_questState.completionDone = true) →
      (QuestStageEventSink.ProcessEvent cfg envE (some ev) w).progress = w.progress) := by
  have hd : w.progress.completionDone = w.g_questState.completionDone := rfl
  rw [progress_QuestStageEvent, progress_CheckQuestState, hq, ht, hdue]
  refine ⟨?_, ?_, ?_⟩
  · cases he : cfg.quest.enabled
    · simp [Progress.poll, Progress.stageEvent, he]
    · cases hdn : w.g_questState.completionDone
      · rw [Progress.stageEvent_eq cfg _ _ he (hd.trans hdn)]
        simp only [Progress.poll, he, hd, hdn, hr, hs, Bool.not_true, Bool.false_eq_true,
          if_false, Progress.pollFound_eq, Bool.or_true, Bool.true_and, if_true]
      · simp [Progress.poll, Progress.stageEvent, he, hd, hdn]
  · intro he hdn
    rw [Progress.stageEvent_eq cfg _ _ he (hd.trans hdn)]
  · intro h
    rcases h with h | h
    · simp [Progress.stageEvent, h]
    · simp [Progress.stageEvent, hd, h]

theorem event_refines_poll_witness :
    (runningQuestEnv 2000000000 21).pollDue {} {} = true
    ∧ (runningQuestEnv 2500000000 21).tracks {} { formID := 1, stage := 21 } = true
    ∧ (QuestStageEventSink.ProcessEvent {} (runningQuestEnv 2500000000 21)
        (some { formID := 1, stage := 21 }) {}).progress
      = (CheckQuestState {} (runningQuestEnv 2000000000 21) {}).progress
    ∧ (CheckQuestState {} (runningQuestEnv 2000000000 21) {}).progress.triggerStageReached
      = true :=
  ⟨by decide, by decide,
    (event_refines_poll {} (runningQuestEnv 2000000000 21) (runningQuestEnv 2500000000 21)
      { formID := 1, stage := 21 }
      { formID := 1, editorID := "YW_Quest_MDF", isRunning := true, currentStageID := 21 }
      {} rfl rfl rfl (by decide) (by decide)).1,
    by decide⟩

/-! ## C23: a quest that stops running -/

theorem Progress.poll_flags (cfg : PluginConfig) (due : Bool) (quest : Option Quest)
    (p : Progress) :
    (p.triggerStageReached = true → (p.poll cfg due quest).triggerStageReached = true)
    ∧ (p.poll cfg due quest).itemDetected = p.itemDetected
    ∧ (p.poll cfg due quest).completionDone = p.completionDone
    ∧ (p.poll cfg due quest).waitingForPotionDelay = p.waitingForPotionDelay
    ∧ (p.triggerMessageShown = true → (p.poll cfg due quest).triggerMessageShown = true)
    ∧ (p.poll cfg due quest).completionMessageShown = p.completionMessageShown
    ∧ (p.poll cfg due quest).potionDetectedMessageShown = p.potionDetectedMessageShown := by
  unfold Progress.poll
  split
  · simp
  · split
    · simp
    · split
      · simp
      · cases quest with
        | none =>
          simp only [Progress.pollNotFound]
          split <;> simp
        | some q =>
          show (p.triggerStageReached = true →
              (p.pollFound cfg q.isRunning (GetQuestCurrentStage q)).triggerStageReached = true)
            ∧ (p.pollFound cfg q.isRunning (GetQuestCurrentStage q)).itemDetected
                = p.itemDetected
            ∧ (p.pollFound cfg q.isRunning (GetQuestCurrentStage q)).completionDone
                = p.completionDone
            ∧ (p.pollFound cfg q.isRunning (GetQuestCurrentStage q)).waitingForPotionDelay
                = p.waitingForPotionDelay
            ∧ (p.triggerMessageShown = true →
              (p.pollFound cfg q.isRunning (GetQuestCurrentStage q)).triggerMessageShown = true)
            ∧ (p.pollFound cfg q.isRunning (GetQuestCurrentStage q)).completionMessageShown
                = p.completionMessageShown
            ∧ (p.pollFound cfg q.isRunning (GetQuestCurrentStage q)
                ).potionDetectedMessageShown = p.potionDetectedMessageShown
          rw [Progress.pollFound_eq]
          refine ⟨fun h => ?_, rfl, rfl, rfl, fun h => ?_, rfl, rfl⟩
          · simp [h]
          · simp [h]

/-- C23.  Whatever `CheckQuestState` observes, it never clears
`triggerStageReached`, `itemDetected`, `completionDone`, the waiting flag or a
message-shown flag: the trigger flag and its message flag can only be set, the
others keep their value.  When the quest was active and the poll (feature
enabled, completion not done, rate limit elapsed) finds it not running, or does
not find it, `questActive` is false afterwards. -/
theorem stopped_quest_keeps_flags (cfg : PluginConfig) (env : Env) (w : World) :
    (w.g_questState.triggerStageReached = true →
      (CheckQuestState cfg env w).g_questState.triggerStageReached = true)
    ∧ (CheckQuestState cfg env w).g_questState.itemDetected = w.g_questState.itemDetected
    ∧ (CheckQuestState cfg env w).g_questState.completionDone
        = w.g_questState.completionDone
    ∧ (CheckQuestState cfg env w).g_waitingForPotionDelay = w.g_waitingForPotionDelay
    ∧ (w.g_triggerMessageShown = true →
      (CheckQuestState cfg env w).g_triggerMessageShown = true)
    ∧ (CheckQuestState cfg env w).g_completionMessageShown = w.g_completionMessageShown
    ∧ (CheckQuestState cfg env w).g_potionDetectedMessageShown
        = w.g_potionDetectedMessageShown
    ∧ (cfg.quest.enabled = true → w.g_questState.completionDone = false →
      env.pollDue cfg w = true → w.g_questState.questActive = true →
      (env.questByEditorID cfg.quest.questEditorID = none
        ∨ ∃ q : Quest, env.questByEditorID cfg.quest.questEditorID = some q
            ∧ q.isRunning = false) →
      (CheckQuestState cfg env w).g_questState.questActive = false) := by
  have hp := progress_CheckQuestState cfg env w
  have hf := Progress.poll_flags cfg (env.pollDue cfg w)
    (env.questByEditorID cfg.quest.questEditorID) w.progress
  rw [← hp] at hf
  obtain ⟨h1, h2, h3, h4, h5, h6, h7⟩ := hf
  refine ⟨h1, h2, h3, h4, h5, h6, h7, ?_⟩
  intro he hd hdue ha hq
  have hqa : (CheckQuestState cfg env w).g_questState.questActive
      = ((w.progress).poll cfg (env.pollDue cfg w)
          (env.questByEditorID cfg.quest.questEditorID)).questActive :=
    congrArg Progress.questActive hp
  have hd' : w.progress.completionDone = false := hd
  have ha' : w.progress.questActive = true := ha
  rw [hqa, hdue]
  rcases hq with hq | ⟨q, hq, hr⟩
  · rw [hq]
    simp [Progress.poll, Progress.pollNotFound, he, hd', ha']
  · rw [hq]
    simp [Progress.poll, Progress.pollFound_eq, he, hd', hr]

theorem stopped_quest_keeps_flags_witness :
    (CheckQuestState {} (stoppedQuestEnv 4000000000 21)
        (CheckQuestState {} (runningQuestEnv 2000000000 21) {})).g_questState.questActive
      = false
    ∧ (CheckQuestState {} (stoppedQuestEnv 4000000000 21)
        (CheckQuestState {} (runningQuestEnv 2000000000 21) {})
        ).g_questState.triggerStageReached = true :=
  ⟨(stopped_quest_keeps_flags {} (stoppedQuestEnv 4000000000 21)
      (CheckQuestState {} (runningQuestEnv 2000000000 21) {})).2.2.2.2.2.2.2
      rfl (by decide) (by decide) (by decide)
      (Or.inr ⟨{ formID := 1, editorID := "YW_Quest_MDF", isRunning := false,
                 currentStageID := 21 }, rfl, rfl⟩),
    (stopped_quest_keeps_flags {} (stoppedQuestEnv 4000000000 21)
      (CheckQuestState {} (runningQuestEnv 2000000000 21) {})).1 (by decide)⟩

/-! ## C24: the poller during a game transition -/

theorem console_step (cfg : PluginConfig) (d : Bool) (a b : Tally)
    (h : TallyStep cfg false d a b) (ha : a.done = true) :
    b.done = true ∧ b.nConsole = a.nConsole := by
  induction h with
  | stay t => exact ⟨ha, rfl⟩
  | trigger t =>
    unfold Tally.fireTrigger
    split <;> exact ⟨ha, rfl⟩
  | detect t _ =>
    unfold Tally.fireItemDetected
    split
    · exact ⟨ha, rfl⟩
    · split <;> exact ⟨ha, rfl⟩
  | tick t elapsed =>
    unfold Tally.tickDelay
    simp only [ha, if_true]
    split
    · exact ⟨ha, rfl⟩
    · split <;> exact ⟨ha, rfl⟩
  | reset t h => simp at h
  | detectDirect t _ =>
    unfold Tally.fireItemDetected
    split
    · exact ⟨ha, rfl⟩
    · split <;> exact ⟨ha, rfl⟩
  | completeDirect t _ =>
    unfold Tally.fireCompletion
    rw [if_pos ha]
    exact ⟨ha, rfl⟩
  | seq a b c _ _ ih₁ ih₂ =>
    obtain ⟨h1, h2⟩ := ih₁ ha
    obtain ⟨h3, h4⟩ := ih₂ h1
    exact ⟨h3, h4.trans h2⟩

/-- C26.  `SetQuestStageViaConsole` returns true for every input, and
`ProcessQuestCompletion` leaves `completionDone` true, whatever the outcome of
`ExecuteConsoleCommand` (script factory missing, script object missing,
exception, or success).  From a state in which the completion was not done it
calls `ExecuteConsoleCommand` once, with the `setstage` command.  Afterwards no
run of operations without a session reset calls `ExecuteConsoleCommand` again,
and `completionDone` stays true. -/
theorem failed_console_not_retried (cfg : PluginConfig) (env : Env) (w : World) :
    (∀ (questEditorID : String) (stage : Int),
      (SetQuestStageViaConsole env questEditorID stage w).1 = true)
    ∧ (ProcessQuestCompletion cfg env w).g_questState.completionDone = true
    ∧ (w.g_questState.completionDone = false →
      (ProcessQuestCompletion cfg env w).consoleCommands = w.consoleCommands + 1
      ∧ Effect.consoleCommand
          (setStageCommand cfg.quest.questEditorID cfg.quest.completionStage)
          env.consoleOutcome ∈ (ProcessQuestCompletion cfg env w).trace)
    ∧ (∀ calls : List (Op × Env), noReset calls = true →
      (run cfg calls (ProcessQuestCompletion cfg env w)).consoleCommands
        = (ProcessQuestCompletion cfg env w).consoleCommands
      ∧ (run cfg calls (ProcessQuestCompletion cfg env w)).g_questState.completionDone
        = true) := by
  have hdone : (ProcessQuestCompletion cfg env w).g_questState.completionDone = true := by
    have h := congrArg Tally.done (tally_ProcessQuestCompletion cfg env w)
    rw [fireCompletion_done] at h
    exact h
  refine ⟨fun _ _ => rfl, hdone, ?_, ?_⟩
  · intro hd
    refine ⟨?_, ?_⟩
    · have h := congrArg Tally.nConsole (tally_ProcessQuestCompletion cfg env w)
      have e3 : w.tally.done = false := hd
      simp only [Tally.fireCompletion, e3, Bool.false_eq_true, if_false] at h
      exact h
    · unfold ProcessQuestCompletion
      rw [hd]
      simp only [Bool.false_eq_true, if_false]
      exact command_mem_ProcessQuestCompletionBody cfg env w
  · intro calls hn
    have hstep := tallyStep_run cfg false true calls (ProcessQuestCompletion cfg env w)
      (by
        intro c hc hreset
        have := (List.all_eq_true.mp hn) c hc
        simp [hreset] at this)
      (fun _ _ _ => rfl)
    obtain ⟨h1, h2⟩ := console_step cfg true _ _ hstep hdone
    exact ⟨h2, h1⟩

theorem failed_console_not_retried_witness :
    noReset failedConsoleRun = true
    ∧ (run {} failedConsoleRun {}).consoleCommands = 1
    ∧ (run {} failedConsoleRun {}).g_questState.completionDone = true
    ∧ Effect.consoleCommand "setstage YW_Quest_MDF 30" ConsoleOutcome.noFactory
        ∈ (run {} failedConsoleRun {}).trace
    ∧ (run {} [(Op.checkQuestState, runningQuestEnv 30000000000 30)]
        (ProcessQuestCompletion {} (noConsoleEnv 9000000000) detectedWorld)).consoleCommands
      = (ProcessQuestCompletion {} (noConsoleEnv 9000000000) detectedWorld).consoleCommands :=
  ⟨by decide, by decide, by decide, by decide,
    ((failed_console_not_retried {} (noConsoleEnv 9000000000) detectedWorld).2.2.2
      [(Op.checkQuestState, runningQuestEnv 30000000000 30)] (by decide)).1⟩

/-! ## C27: the quest feature disabled -/

theorem idle_CheckQuestState (cfg : PluginConfig) (env : Env) (w : World)
    (hq : cfg.quest.enabled = false) : CheckQuestState cfg env w = w := by
  unfold CheckQuestState
  simp [hq]

theorem idle_QuestStageEvent (cfg : PluginConfig) (env : Env)
    (event : Option QuestStageEvent) (w : World)
    (hq : cfg.quest.enabled = false) :
    QuestStageEventSink.ProcessEvent cfg env event w = w := by
  unfold QuestStageEventSink.ProcessEvent
  cases event with
  | none => rfl
  | some ev => simp [hq]

theorem idle_ProcessDelayedQuestCompletion (cfg : PluginConfig) (env : Env) (w : World)
    (hw : w.g_waitingForPotionDelay = false) :
    ProcessDelayedQuestCompletion cfg env w = w := by
  unfold ProcessDelayedQuestCompletion
  simp [hw]

theorem idle_MonitoringCycle (cfg : PluginConfig) (envQ envI envD : Env) (w : World)
    (hq : cfg.quest.enabled = false) (hI : (w.tally).Idle) :
    (MonitoringCycle cfg envQ envI envD w).tally = w.tally := by
  obtain ⟨ht, _, _, hw⟩ := hI
  have ht' : w.g_questState.triggerStageReached = false := ht
  have hw' : w.g_waitingForPotionDelay = false := hw
  unfold MonitoringCycle
  simp only []
  rw [idle_CheckQuestState cfg envQ _ hq,
    CheckPlayerInventory_idle cfg envI _ (by
      intro h
      have h1 : w.g_questState.triggerStageReached = true := h.1
      rw [ht'] at h1
      exact absurd h1 (by decide)),
    idle_ProcessDelayedQuestCompletion cfg envD
      ({ w with g_monitorCycles := w.g_monitorCycles + 1 } : World) hw']
  rfl

theorem idle_step (cfg : PluginConfig) (hq : cfg.quest.enabled = false) (op : Op) (env : Env)
    (w : World) (hop : op.isDirect = false) (hI : (w.tally).Idle) :
    (step cfg op env w).tally = w.tally ∨ (step cfg op env w).tally = (w.tally).reset := by
  have ht' : w.g_questState.triggerStageReached = false := hI.1
  have hw' : w.g_waitingForPotionDelay = false := hI.2.2.2
  cases op with
  | checkQuestState =>
    left
    show (CheckQuestState cfg env w).tally = _
    rw [idle_CheckQuestState cfg env w hq]
  | checkPlayerInventory =>
    left
    show (CheckPlayerInventory cfg env w).tally = _
    rw [CheckPlayerInventory_idle cfg env w (by
      intro h
      have h1 := h.1
      rw [ht'] at h1
      exact absurd h1 (by decide))]
  | processDelayedQuestCompletion =>
    left
    show (ProcessDelayedQuestCompletion cfg env w).tally = _
    rw [idle_ProcessDelayedQuestCompletion cfg env w hw']
  | resolveFormIDs => exact Or.inl (tally_ResolveFormIDs cfg env w)
  | monitoringThreadPrologue => exact Or.inl (tally_MonitoringThreadPrologue env w)
  | monitoringThreadIteration envQ envI envD =>
    left
    show (MonitoringThreadIteration cfg env envQ envI envD w).tally = _
    unfold MonitoringThreadIteration
    split
    · rw [tally_logSystem]
    · split
      · split
        · rfl
        · simp only []
          have hv : (ResolveFormIDs cfg env (logSystem
              "5-second initial delay complete, starting quest monitoring" 1392
              { w with g_initialDelayComplete := true })).tally = w.tally := by
            rw [tally_ResolveFormIDs, tally_logSystem]
            rfl
          rw [idle_MonitoringCycle cfg envQ envI envD _ hq (by rw [hv]; exact hI), hv]
      · exact idle_MonitoringCycle cfg envQ envI envD w hq hI
  | questStageEvent event =>
    left
    show (QuestStageEventSink.ProcessEvent cfg env event w).tally = _
    rw [idle_QuestStageEvent cfg env event w hq]
  | containerChangeEvent event =>
    left
    show (ContainerChangeEventSink.ProcessEvent cfg env event w).tally = _
    rw [ContainerChange_idle cfg env event w (by
      intro h
      have h1 := h.1
      rw [ht'] at h1
      exact absurd h1 (by decide))]
  | menuEvent event => exact Or.inl (tally_MenuEvent event w)
  | processQuestTrigger => simp [Op.isDirect] at hop
  | processItemDetection => simp [Op.isDirect] at hop
  | processQuestCompletion => simp [Op.isDirect] at hop
  | startMonitoringThread =>
    show (StartMonitoringThread env w).tally = _ ∨ (StartMonitoringThread env w).tally = _
    rw [tally_StartMonitoringThread]
    split
    · exact Or.inl rfl
    · exact Or.inr rfl
  | message type =>
    show (MessageListener type env w).tally = _ ∨ (MessageListener type env w).tally = _
    rw [tally_MessageListener]
    split
    · exact Or.inr rfl
    · exact Or.inl rfl

theorem idle_run (cfg : PluginConfig) (hq : cfg.quest.enabled = false)
    (calls : List (Op × Env)) (w : World) (hd : noDirect calls = true)
    (hI : (w.tally).Idle) :
    ((run cfg calls w).tally).Idle
    ∧ (run cfg calls w).tally.nConsole = w.tally.nConsole
    ∧ (run cfg calls w).tally.nTrigMsg = w.tally.nTrigMsg := by
  induction calls generalizing w with
  | nil => exact ⟨hI, rfl, rfl⟩
  | cons c calls ih =>
    have hc : c.1.isDirect = false := by
      have := (List.all_eq_true.mp hd) c (List.mem_cons_self _ _)
      simpa using this
    have hrest : noDirect calls = true := by
      unfold noDirect at hd ⊢
      rw [List.all_cons, Bool.and_eq_true] at hd
      exact hd.2
    rw [run_cons]
    have hs := idle_step cfg hq c.1 c.2 w hc hI
    have hI' : ((step cfg c.1 c.2 w).tally).Idle
        ∧ (step cfg c.1 c.2 w).tally.nConsole = w.tally.nConsole
        ∧ (step cfg c.1 c.2 w).tally.nTrigMsg = w.tally.nTrigMsg := by
      rcases hs with hs | hs
      · rw [hs]; exact ⟨hI, rfl, rfl⟩
      · rw [hs]; exact ⟨⟨rfl, rfl, rfl, rfl⟩, rfl, rfl⟩
    obtain ⟨h1, h2, h3⟩ := ih _ hrest hI'.1
    exact ⟨h1, h2.trans hI'.2.1, h3.trans hI'.2.2⟩

/-- C27.  With the quest feature disabled, no run of poller calls, sink
notifications and lifecycle messages (session resets included) from the reset
state sets `triggerStageReached`; hence none sets `itemDetected`, the waiting
flag or `completionDone`, and none calls `ExecuteConsoleCommand` or displays
the trigger message. -/
theorem disabled_quest_stays_idle (cfg : PluginConfig) (calls : List (Op × Env)) (w : World)
    (hq : cfg.quest.enabled = false) (h0 : w.progress = Progress.initial)
    (hd : noDirect calls = true) :
    (run cfg calls w).g_questState.triggerStageReached = false
    ∧ (run cfg calls w).g_questState.itemDetected = false
    ∧ (run cfg calls w).g_questState.completionDone = false
    ∧ (run cfg calls w).g_waitingForPotionDelay = false
    ∧ (run cfg calls w).consoleCommands = w.consoleCommands
    ∧ (run cfg calls w).triggerMessages = w.triggerMessages := by
  have hI : (w.tally).Idle := by
    have h1 := congrArg Progress.triggerStageReached h0
    have h2 := congrArg Progress.itemDetected h0
    have h3 := congrArg Progress.completionDone h0
    have h4 := congrArg Progress.waitingForPotionDelay h0
    exact ⟨h1, h2, h3, h4⟩
  obtain ⟨⟨h1, h2, h3, h4⟩, h5, h6⟩ := idle_run cfg hq calls w hd hI
  exact ⟨h1, h2, h3, h4, h5, h6⟩

theorem disabled_quest_stays_idle_witness :
    questDisabledConfig.quest.enabled = false
    ∧ noDirect eagerRun = true
    ∧ (run questDisabledConfig eagerRun {}).g_questState.triggerStageReached = false
    ∧ (run questDisabledConfig eagerRun {}).consoleCommands = 0
    ∧ (run {} eagerRun {}).g_questState.completionDone = true :=
  ⟨rfl, by decide,
    (disabled_quest_stays_idle questDisabledConfig eagerRun {} rfl rfl (by decide)).1,
    (disabled_quest_stays_idle questDisabledConfig eagerRun {} rfl rfl (by decide)).2.2.2.2.1,
    by decide⟩

/-! ## C25: a detected item has a resolved identifier -/

theorem known_of_eq (cfg : PluginConfig) (w v : World)
    (hi : v.g_questState.itemDetected = w.g_questState.itemDetected)
    (hc : v.g_cachedFormIDs = w.g_cachedFormIDs) : KnownStep cfg w.known v.known := by
  have : v.known = w.known := by
    unfold World.known
    rw [hi, hc]
  rw [this]
  exact KnownStep.stay _

theorem item_of_tally (w v : World) (h : v.tally = w.tally) :
    v.g_questState.itemDetected = w.g_questState.itemDetected :=
  congrArg Tally.item h

theorem item_CheckQuestState (cfg : PluginConfig) (env : Env) (w : World) :
    (CheckQuestState cfg env w).g_questState.itemDetected = w.g_questState.itemDetected := by
  have hp := congrArg Progress.itemDetected (progress_CheckQuestState cfg env w)
  rw [(Progress.poll_flags cfg _ _ _).2.1] at hp
  exact hp

theorem item_QuestStageEvent (cfg : PluginConfig) (env : Env)
    (event : Option QuestStageEvent) (w : World) :
    (QuestStageEventSink.ProcessEvent cfg env event w).g_questState.itemDetected
      = w.g_questState.itemDetected := by
  cases event with
  | none => rfl
  | some ev =>
    have hp := congrArg Progress.itemDetected (progress_QuestStageEvent cfg env ev w)
    have hs : ∀ (t : Bool) (s : Int) (p : Progress),
        (p.stageEvent cfg t s).itemDetected = p.itemDetected := by
      intro t s p
      unfold Progress.stageEvent
      split
      · rfl
      · split
        · rfl
        · split
          · rfl
          · simp only []
            split
            · rw [(Progress.fireTrigger_fields cfg _).2.2.1]
            · rfl
    rw [hs] at hp
    exact hp

theorem item_ProcessDelayedQuestCompletion (cfg : PluginConfig) (env : Env) (w : World) :
    (ProcessDelayedQuestCompletion cfg env w).g_questState.itemDetected
      = w.g_questState.itemDetected := by
  have hT := congrArg Tally.item (tally_ProcessDelayedQuestCompletion cfg env w)
  have : (w.tally.tickDelay cfg
      (decide (5 ≤ elapsedSeconds env.steadyNow w.g_potionDetectedTime))).item
      = w.tally.item := by
    unfold Tally.tickDelay Tally.fireCompletion
    split
    · rfl
    · split
      · rfl
      · split
        · rfl
        · split
          · rfl
          · split <;> rfl
  rw [this] at hT
  exact hT

theorem known_ProcessItemDetection (cfg : PluginConfig) (env : Env) (w : World)
    (hr : w.g_cachedFormIDs.itemResolved = true) :
    KnownStep cfg w.known (ProcessItemDetection cfg env w).known := by
  have hc := cached_ProcessItemDetection cfg env w
  have hi := congrArg Tally.item (tally_ProcessItemDetection cfg env w)
  have hi' : (ProcessItemDetection cfg env w).g_questState.itemDetected
      = (w.tally.fireItemDetected).item := hi
  unfold Tally.fireItemDetected at hi'
  by_cases h1 : w.tally.item = true
  · rw [if_pos h1] at hi'
    exact known_of_eq cfg w _ hi' hc
  · by_cases h2 : w.tally.waiting = true
    · rw [if_neg h1, if_pos h2] at hi'
      exact known_of_eq cfg w _ hi' hc
    · rw [if_neg h1, if_neg h2] at hi'
      have : (ProcessItemDetection cfg env w).known = (true, w.g_cachedFormIDs) := by
        unfold World.known
        rw [hi', hc]
      rw [this]
      exact KnownStep.detect _ _ hr

theorem known_detectItem (cfg : PluginConfig) (env : Env) (w : World) :
    KnownStep cfg w.known (detectItem cfg env w).known := by
  have key : ∀ v : World, KnownStep cfg w.known v.known →
      KnownStep cfg w.known
        (if !v.g_cachedFormIDs.itemResolved then v
          else if PlayerHasItem env v.g_cachedFormIDs.itemFormID then
            ProcessItemDetection cfg env v
          else v).known := by
    intro v hv
    split
    · exact hv
    · rename_i hres
      simp only [Bool.not_eq_true, Bool.not_eq_false'] at hres
      split
      · exact KnownStep.seq _ _ _ hv (known_ProcessItemDetection cfg env v hres)
      · exact hv
  unfold detectItem
  refine key _ ?_
  split
  · have : (ResolveFormIDs cfg env w).known
        = (w.g_questState.itemDetected, (w.g_cachedFormIDs).resolve cfg env) := by
      unfold World.known
      rw [cached_ResolveFormIDs, item_of_tally _ _ (tally_ResolveFormIDs cfg env w)]
    rw [this]
    exact KnownStep.resolve _ _ _
  · exact KnownStep.stay _

theorem known_CheckPlayerInventory (cfg : PluginConfig) (env : Env) (w : World) :
    KnownStep cfg w.known (CheckPlayerInventory cfg env w).known := by
  unfold CheckPlayerInventory
  split
  · exact KnownStep.stay _
  · split
    · exact KnownStep.stay _
    · split
      · exact KnownStep.stay _
      · split
        · exact KnownStep.stay _
        · simp only []
          split
          · exact KnownStep.stay _
          · exact known_detectItem cfg env { w with g_lastItemCheck := env.steadyNow }

theorem known_logActions (m : String) (l : Nat) (w : World) :
    (logActions m l w).known = w.known := rfl

theorem known_ContainerChange (cfg : PluginConfig) (env : Env)
    (event : Option ContainerChangedEvent) (w : World) :
    KnownStep cfg w.known (ContainerChangeEventSink.ProcessEvent cfg env event w).known := by
  have hk : ∀ v : World, v.known = w.known → w.g_cachedFormIDs.itemResolved = true →
      KnownStep cfg w.known (ProcessItemDetection cfg env v).known := by
    intro v hv hres
    have hc : v.g_cachedFormIDs = w.g_cachedFormIDs := congrArg Prod.snd hv
    rw [← hv]
    exact known_ProcessItemDetection cfg env v (by rw [hc]; exact hres)
  unfold ContainerChangeEventSink.ProcessEvent
  split
  · exact KnownStep.stay _
  · split
    · exact KnownStep.stay _
    · split
      · exact KnownStep.stay _
      · split
        · split
          · rename_i hres
            simp only [Bool.and_eq_true] at hres
            refine hk _ ?_ hres.1
            simp only [known_logActions]
          · exact KnownStep.stay _
        · exact KnownStep.stay _

theorem known_MonitoringCycle (cfg : PluginConfig) (envQ envI envD : Env) (w : World) :
    KnownStep cfg w.known (MonitoringCycle cfg envQ envI envD w).known := by
  unfold MonitoringCycle
  simp only []
  have h1 : KnownStep cfg w.known
      (CheckQuestState cfg envQ { w with g_monitorCycles := w.g_monitorCycles + 1 }).known :=
    known_of_eq cfg w _ (item_CheckQuestState cfg envQ _) (cached_CheckQuestState cfg envQ _)
  have h2 := known_CheckPlayerInventory cfg envI
    (CheckQuestState cfg envQ { w with g_monitorCycles := w.g_monitorCycles + 1 })
  have h3 : KnownStep cfg
      (CheckPlayerInventory cfg envI
        (CheckQuestState cfg envQ { w with g_monitorCycles := w.g_monitorCycles + 1 })).known
      (ProcessDelayedQuestCompletion cfg envD
        (CheckPlayerInventory cfg envI
          (CheckQuestState cfg envQ
            { w with g_monitorCycles := w.g_monitorCycles + 1 }))).known :=
    known_of_eq cfg _ _ (item_ProcessDelayedQuestCompletion cfg envD _)
      (cached_ProcessDelayedQuestCompletion cfg envD _)
  exact KnownStep.seq _ _ _ (KnownStep.seq _ _ _ h1 h2) h3

theorem known_MonitoringThreadIteration (cfg : PluginConfig) (envR envQ envI envD : Env)
    (w : World) :
    KnownStep cfg w.known (MonitoringThreadIteration cfg envR envQ envI envD w).known := by
  unfold MonitoringThreadIteration
  split
  · exact KnownStep.stay _
  · split
    · split
      · exact KnownStep.stay _
      · simp only []
        refine KnownStep.seq _ _ _ ?_ (known_MonitoringCycle cfg envQ envI envD _)
        have : (ResolveFormIDs cfg envR (logSystem
            "5-second initial delay complete, starting quest monitoring" 1392
            { w with g_initialDelayComplete := true })).known
            = (w.g_questState.itemDetected, (w.g_cachedFormIDs).resolve cfg envR) := by
          unfold World.known
          rw [cached_ResolveFormIDs, item_of_tally _ _ (tally_ResolveFormIDs cfg envR _)]
          rfl
        rw [this]
        exact KnownStep.resolve _ _ _
    · exact known_MonitoringCycle cfg envQ envI envD w

theorem known_reset (cfg : PluginConfig) (w v : World)
    (ht : v.tally = (w.tally).reset) (hc : v.g_cachedFormIDs = {}) :
    KnownStep cfg w.known v.known := by
  have hi : v.g_questState.itemDetected = false := congrArg Tally.item ht
  have : v.known = (false, {}) := by
    unfold World.known
    rw [hi, hc]
  rw [this]
  exact KnownStep.reset _

theorem known_step (cfg : PluginConfig) (op : Op) (env : Env) (w : World)
    (hop : op.isDirect = false) : KnownStep cfg w.known (step cfg op env w).known := by
  cases op with
  | checkQuestState =>
    exact known_of_eq cfg w _ (item_CheckQuestState cfg env w) (cached_CheckQuestState cfg env w)
  | checkPlayerInventory => exact known_CheckPlayerInventory cfg env w
  | processDelayedQuestCompletion =>
    exact known_of_eq cfg w _ (item_ProcessDelayedQuestCompletion cfg env w)
      (cached_ProcessDelayedQuestCompletion cfg env w)
  | resolveFormIDs =>
    show KnownStep cfg w.known (ResolveFormIDs cfg env w).known
    have : (ResolveFormIDs cfg env w).known
        = (w.g_questState.itemDetected, (w.g_cachedFormIDs).resolve cfg env) := by
      unfold World.known
      rw [cached_ResolveFormIDs, item_of_tally _ _ (tally_ResolveFormIDs cfg env w)]
    rw [this]
    exact KnownStep.resolve _ _ _
  | monitoringThreadPrologue =>
    exact known_of_eq cfg w _ (item_of_tally _ _ (tally_MonitoringThreadPrologue env w))
      (cached_MonitoringThreadPrologue env w)
  | monitoringThreadIteration envQ envI envD =>
    exact known_MonitoringThreadIteration cfg env envQ envI envD w
  | questStageEvent event =>
    exact known_of_eq cfg w _ (item_QuestStageEvent cfg env event w)
      (cached_QuestStageEvent cfg env event w)
  | containerChangeEvent event => exact known_ContainerChange cfg env event w
  | menuEvent event =>
    exact known_of_eq cfg w _ (item_of_tally _ _ (tally_MenuEvent event w))
      (cached_MenuEvent event w)
  | processQuestTrigger => simp [Op.isDirect] at hop
  | processItemDetection => simp [Op.isDirect] at hop
  | processQuestCompletion => simp [Op.isDirect] at hop
  | startMonitoringThread =>
    show KnownStep cfg w.known (StartMonitoringThread env w).known
    have ht := tally_StartMonitoringThread env w
    have hc := cached_StartMonitoringThread env w
    cases ha : w.g_monitoringActive
    · rw [ha] at ht hc
      exact known_reset cfg w _ ht hc
    · rw [ha] at ht hc
      exact known_of_eq cfg w _ (item_of_tally _ _ ht) hc
  | message type =>
    show KnownStep cfg w.known (MessageListener type env w).known
    have ht := tally_MessageListener type env w
    have hc := cached_MessageListener type env w
    by_cases h : type = MessageType.kNewGame ∨ type = MessageType.kPostLoadGame
    · rw [if_pos h] at ht hc
      exact known_reset cfg w _ ht hc
    · rw [if_neg h] at ht hc
      exact known_of_eq cfg w _ (item_of_tally _ _ ht) hc

theorem known_run (cfg : PluginConfig) (calls : List (Op × Env)) (w : World)
    (hd : noDirect calls = true) : KnownStep cfg w.known (run cfg calls w).known := by
  induction calls generalizing w with
  | nil => exact KnownStep.stay _
  | cons c calls ih =>
    have hc : c.1.isDirect = false := by
      have := (List.all_eq_true.mp hd) c (List.mem_cons_self _ _)
      simpa using this
    have hrest : noDirect calls = true := by
      unfold noDirect at hd ⊢
      rw [List.all_cons, Bool.and_eq_true] at hd
      exact hd.2
    rw [run_cons]
    exact KnownStep.seq _ _ _ (known_step cfg c.1 c.2 w hc) (ih _ hrest)

theorem ItemKnown_step (cfg : PluginConfig) (a b : Bool × CachedFormIDs)
    (h : KnownStep cfg a b) (ha : ItemKnown a) : ItemKnown b := by
  induction h with
  | stay x => exact ha
  | resolve i c env =>
    obtain ⟨h1, h2⟩ := ha
    refine ⟨fun hi => ?_, fun hr => ?_⟩
    · show (c.resolve cfg env).itemResolved = true
      rw [resolve_itemResolved, h1 hi]
      rfl
    · show (c.resolve cfg env).itemFormID ≠ 0
      have hr' : (c.resolve cfg env).itemResolved = true := hr
      rw [resolve_itemResolved] at hr'
      rw [resolve_itemFormID]
      cases hc : c.itemResolved
      · rw [hc] at hr'
        simp only [Bool.false_or, Bool.and_eq_true, decide_eq_true_eq] at hr'
        simp only [hr'.1, Bool.not_false, Bool.and_self, if_true]
        exact hr'.2
      · simp only [Bool.not_true, Bool.and_false, Bool.false_eq_true, if_false]
        exact h2 hc
  | detect i c hres => exact ⟨fun _ => hres, ha.2⟩
  | reset x => exact ⟨fun h => absurd h (by decide), fun h => absurd h (by decide)⟩
  | seq a b c _ _ ih₁ ih₂ => exact ih₂ (ih₁ ha)

/-- C25.  In every state reached from the reset state by calls of the poller,
the event sinks and the lifecycle (session resets included): the waiting flag
implies `itemDetected`, `itemDetected` implies `triggerStageReached`, and
`itemDetected` implies that the item identifier is resolved, with a FormID that
is not zero. -/
theorem detected_item_is_resolved (cfg : PluginConfig) (w : World)
    (h : SessionReachable cfg w) :
    (w.g_waitingForPotionDelay = true → w.g_questState.itemDetected = true)
    ∧ (w.g_questState.itemDetected = true → w.g_questState.triggerStageReached = true)
    ∧ (w.g_questState.itemDetected = true →
        w.g_cachedFormIDs.itemResolved = true ∧ w.g_cachedFormIDs.itemFormID ≠ 0) := by
  obtain ⟨w0, calls, h0, hc, hd, hrun⟩ := h
  subst hrun
  have hstep := tallyStep_run cfg true false calls w0 (fun _ _ _ => rfl) (by
    intro c hc' hdir
    have := (List.all_eq_true.mp hd) c hc'
    simp [hdir] at this)
  obtain ⟨_, h2, h3⟩ := Ordered_step cfg _ _ hstep (Ordered_of_initial w0 h0)
  have hk0 : ItemKnown w0.known := by
    have hi : w0.g_questState.itemDetected = false := congrArg Progress.itemDetected h0
    unfold ItemKnown World.known
    rw [hi, hc]
    exact ⟨fun h => absurd h (by decide), fun h => absurd h (by decide)⟩
  obtain ⟨k1, k2⟩ := ItemKnown_step cfg _ _ (known_run cfg calls w0 hd) hk0
  exact ⟨h2, h3, fun hi => ⟨k1 hi, k2 (k1 hi)⟩⟩

theorem detected_item_is_resolved_witness :
    SessionReachable {} detectedWorld
    ∧ detectedWorld.g_questState.itemDetected = true
    ∧ detectedWorld.g_cachedFormIDs.itemResolved = true
    ∧ detectedWorld.g_cachedFormIDs.itemFormID ≠ 0 :=
  ⟨⟨{}, pollerRun.take 2, rfl, rfl, by decide, rfl⟩, by decide,
    ((detected_item_is_resolved {} detectedWorld
      ⟨{}, pollerRun.take 2, rfl, rfl, by decide, rfl⟩).2.2 (by decide)).1,
    ((detected_item_is_resolved {} detectedWorld
      ⟨{}, pollerRun.take 2, rfl, rfl, by decide, rfl⟩).2.2 (by decide)).2⟩

/-! ## C28: the files and the buffer -/

theorem splitLines_line (l rest acc : List Char) (h : '\n' ∉ l) :
    splitLines acc (l ++ '\n' :: rest) = (acc.reverse ++ l) :: splitLines [] rest := by
  induction l generalizing acc with
  | nil =>
    simp [splitLines]
  | cons c cs ih =>
    have hc : c ≠ '\n' := fun e => h (by rw [e]; exact List.mem_cons_self _ _)
    have hcs : '\n' ∉ cs := fun e => h (List.mem_cons_of_mem _ e)
    have e : splitLines acc (c :: (cs ++ '\n' :: rest))
        = splitLines (c :: acc) (cs ++ '\n' :: rest) := by
      rw [splitLines, if_neg hc]
    show splitLines acc (c :: (cs ++ '\n' :: rest)) = _
    rw [e, ih (c :: acc) hcs]
    simp

theorem bulkContent_cons (x : String) (xs : List String) :
    bulkContent (x :: xs) = x ++ "\n" ++ bulkContent xs := by
  apply String.ext
  simp [bulkContent, String.data_join]

theorem bulkContent_append (xs ys : List String) :
    bulkContent (xs ++ ys) = bulkContent xs ++ bulkContent ys := by
  induction xs with
  | nil =>
    apply String.ext
    simp [bulkContent]
  | cons x xs ih =>
    rw [List.cons_append, bulkContent_cons, bulkContent_cons, ih]
    simp only [String.append_assoc]

theorem bulkContent_nil : bulkContent [] = "" := rfl

theorem bulkContent_singleton (x : String) : bulkContent [x] = x ++ "\n" := by
  rw [bulkContent_cons, bulkContent_nil]
  apply String.ext
  simp

theorem singleLine_iff (x : String) : singleLine x = true ↔ '\n' ∉ x.data := by
  unfold singleLine
  simp

theorem nonEmptyLines_bulkContent (xs : List String)
    (h : ∀ x ∈ xs, singleLine x = true) :
    nonEmptyLines (bulkContent xs) = xs.filter (fun x => x != "") := by
  induction xs with
  | nil => rfl
  | cons x xs ih =>
    have hx : '\n' ∉ x.data := (singleLine_iff x).mp (h x (List.mem_cons_self _ _))
    have hxs : ∀ y ∈ xs, singleLine y = true := fun y hy => h y (List.mem_cons_of_mem _ hy)
    have ih' := ih hxs
    unfold nonEmptyLines at ih' ⊢
    have hd : (bulkContent (x :: xs)).data = x.data ++ '\n' :: (bulkContent xs).data := by
      rw [bulkContent_cons]
      simp
    rw [hd, splitLines_line x.data _ [] hx]
    simp only [List.reverse_nil, List.nil_append, List.filter_cons]
    by_cases he : x = ""
    · subst he
      simp [ih']
    · have hne : x.data ≠ [] := fun e => he (String.ext e)
      have h1 : (!x.data.isEmpty) = true := by
        cases hxd : x.data with
        | nil => exact absurd hxd hne
        | cons _ _ => rfl
      have h2 : (x != "") = true := by simp [he]
      rw [h1, h2]
      simp only [if_true, List.map_cons, ih']

theorem filter_nonempty_of_all (ls : List String) (h : ∀ l ∈ ls, l ≠ "") :
    ls.filter (fun x => x != "") = ls := by
  rw [List.filter_eq_self]
  intro l hl
  simp [h l hl]

theorem Mirrored_fresh : ({} : LogChannel).Mirrored :=
  ⟨[], [], rfl, rfl, fun _ h => absurd h (List.not_mem_nil _), rfl, rfl,
    Nat.zero_le _, Nat.zero_le _⟩

theorem Mirrored_write (c : Channel) (a : Append) (ch : LogChannel)
    (hm : ch.Mirrored) (hok : a.fsys.succeeds = true)
    (hs : singleLine (c.line a) = true) (hne : c.line a ≠ "") :
    (c.write a ch).Mirrored := by
  obtain ⟨xs, pre, hp, hsec, hxs, hf, hlen, hl2000, hcount⟩ := hm
  obtain ⟨p1, p2, s1, s2⟩ := (succeeds_iff a.fsys).mp hok
  have hmem : ∀ l ∈ ch.lines, singleLine l = true ∧ l ≠ "" := by
    intro l hl
    have : l ∈ xs.filter (fun x => x != "") := by
      rw [hf]
      exact List.mem_append_right _ hl
    rw [List.mem_filter] at this
    exact ⟨hxs l this.1, by simpa using this.2⟩
  have hlines := Channel.write_lines c a ch
  have hmem' : ∀ l ∈ (c.write a ch).lines, singleLine l = true ∧ l ≠ "" := by
    intro l hl
    rw [hlines] at hl
    have hl' : l ∈ ch.lines ++ [c.line a] := by
      split at hl
      · exact List.mem_of_mem_tail hl
      · exact hl
    rcases List.mem_append.mp hl' with h | h
    · exact hmem l h
    · rw [List.mem_singleton] at h
      rw [h]
      exact ⟨hs, hne⟩
  have hlen' : (c.write a ch).lines.length ≤ 2000 := by
    rw [hlines]
    split
    · rw [List.length_tail, List.length_append, List.length_singleton]
      omega
    · rename_i h
      omega
  cases hc : compacts ch
  · -- the line is appended to both files
    have hcount' : (c.write a ch).lineCount = ch.lineCount + 1 := by
      rw [Channel.write_lineCount, hc]
      simp
    have hfiles : (c.write a ch).files
        = WriteToDualPath a.fsys (c.line a) OpenMode.app ch.files := by
      rw [Channel.write_files, hc]
      simp
    have hnc : ch.lineCount + 1 < 2500 := by
      unfold compacts at hc
      simp only [decide_eq_false_iff_not] at hc
      omega
    have hfp : (c.write a ch).files.primary = bulkContent (xs ++ [c.line a]) := by
      rw [hfiles, bulkContent_append, bulkContent_singleton, ← hp]
      simp only [WriteToDualPath, writeDestination_ok _ _ _ _ p1 p2, String.append_assoc]
    have hfs : (c.write a ch).files.secondary = bulkContent (xs ++ [c.line a]) := by
      rw [hfiles, bulkContent_append, bulkContent_singleton, ← hsec]
      simp only [WriteToDualPath, writeDestination_ok _ _ _ _ s1 s2, String.append_assoc]
    have hfil : (xs ++ [c.line a]).filter (fun x => x != "")
        = pre ++ ch.lines ++ [c.line a] := by
      rw [List.filter_append, hf]
      simp [hne]
    have hxs' : ∀ x ∈ xs ++ [c.line a], singleLine x = true := by
      intro x hx
      rcases List.mem_append.mp hx with h | h
      · exact hxs x h
      · rw [List.mem_singleton] at h
        rw [h]
        exact hs
    by_cases hover : (ch.lines ++ [c.line a]).length > 2000
    · rw [if_pos hover] at hlines
      cases hch : ch.lines with
      | nil =>
        rw [hch] at hover
        simp at hover
      | cons h t =>
        rw [hch] at hlines hfil hlen
        refine ⟨xs ++ [c.line a], pre ++ [h], hfp, hfs, hxs', ?_, ?_, hlen', by omega⟩
        · rw [hfil, hlines]
          simp
        · rw [hlines, hcount', ← hlen]
          simp
          omega
    · rw [if_neg hover] at hlines
      refine ⟨xs ++ [c.line a], pre, hfp, hfs, hxs', ?_, ?_, hlen', by omega⟩
      · rw [hfil, hlines, List.append_assoc]
      · rw [hlines, hcount', ← hlen]
        simp
        omega
  · -- compaction: both files are rewritten from the buffer
    have hcount' : (c.write a ch).lineCount = (c.write a ch).lines.length := by
      rw [Channel.write_lineCount, hc]
      simp
    have hfiles : (c.write a ch).files
        = WriteToDualPath a.fsys (bulkContent (c.write a ch).lines) OpenMode.trunc
            ch.files := by
      rw [Channel.write_files, hc]
      simp
    have hb : bulkContent ((c.write a ch).lines ++ [""])
        = bulkContent (c.write a ch).lines ++ "\n" := by
      rw [bulkContent_append, bulkContent_singleton]
      apply String.ext
      simp
    refine ⟨(c.write a ch).lines ++ [""], [], ?_, ?_, ?_, ?_, ?_, hlen', by omega⟩
    · rw [hfiles, hb]
      simp only [WriteToDualPath, writeDestination_ok _ _ _ _ p1 p2]
    · rw [hfiles, hb]
      simp only [WriteToDualPath, writeDestination_ok _ _ _ _ s1 s2]
    · intro x hx
      rcases List.mem_append.mp hx with h | h
      · exact (hmem' x h).1
      · rw [List.mem_singleton] at h
        rw [h]
        rfl
    · rw [List.filter_append, filter_nonempty_of_all _ (fun l hl => (hmem' l hl).2)]
      simp
    · rw [hcount']
      simp

theorem digitChar_ne_newline (k : Nat) (hk : k < 10) : Nat.digitChar k ≠ '\n' := by
  interval_cases k <;> decide

theorem toDigitsCore_no_newline (fuel n : Nat) (ds : List Char) (h : '\n' ∉ ds) :
    '\n' ∉ Nat.toDigitsCore 10 fuel n ds := by
  induction fuel generalizing n ds with
  | zero => exact h
  | succ fuel ih =>
    have hd : '\n' ∉ Nat.digitChar (n % 10) :: ds := by
      intro hm
      rcases List.mem_cons.mp hm with e | e
      · exact digitChar_ne_newline _ (Nat.mod_lt _ (by decide)) e.symm
      · exact h e
    unfold Nat.toDigitsCore
    simp only []
    split
    · exact hd
    · exact ih _ _ hd

theorem singleLine_toString_nat (n : Nat) : singleLine (toString n) = true := by
  rw [singleLine_iff]
  show '\n' ∉ (Nat.repr n).data
  unfold Nat.repr Nat.toDigits
  exact toDigitsCore_no_newline _ _ _ (List.not_mem_nil _)

theorem singleLine_append (s t : String) (hs : singleLine s = true) (ht : singleLine t = true) :
    singleLine (s ++ t) = true := by
  rw [singleLine_iff] at hs ht ⊢
  rw [String.data_append, List.mem_append]
  exact fun h => h.elim hs ht

theorem singleLine_toString_int (n : Int) : singleLine (toString n) = true := by
  cases n with
  | ofNat m => exact singleLine_toString_nat m
  | negSucc m =>
    show singleLine ("-" ++ Nat.repr (Nat.succ m)) = true
    exact singleLine_append _ _ (by decide) (singleLine_toString_nat _)

theorem singleLine_zeroPad (width n : Nat) : singleLine (zeroPad width n) = true := by
  unfold zeroPad
  refine singleLine_append _ _ ?_ (singleLine_toString_nat n)
  rw [singleLine_iff]
  intro h
  have := List.eq_of_mem_replicate h
  exact absurd this (by decide)

theorem singleLine_append_eq (s t : String) :
    singleLine (s ++ t) = (singleLine s && singleLine t) := by
  unfold singleLine
  rw [String.data_append]
  simp [List.contains_eq_any_beq, List.any_append, Bool.not_or]

theorem singleLine_timestamp (c : LogClock) : singleLine (timestampWithMillis c) = true := by
  have hd : singleLine "-" = true := by decide
  have hc : singleLine ":" = true := by decide
  have hb : singleLine " " = true := by decide
  have hp : singleLine "." = true := by decide
  unfold timestampWithMillis
  simp only [singleLine_append_eq, singleLine_zeroPad, singleLine_toString_nat, hd, hc, hb, hp,
    Bool.and_self]

theorem singleLine_line (c : Channel) (a : Append) (h : singleLine a.message = true) :
    singleLine (c.line a) = true := by
  have ht : singleLine c.tag = true := by cases c <;> decide
  have h1 : singleLine "[" = true := by decide
  have h2 : singleLine "] " = true := by decide
  have h3 : singleLine "] [info] " = true := by decide
  have h4 : singleLine "[plugin.cpp:" = true := by decide
  unfold Channel.line formatLogLine
  simp only [singleLine_append_eq, singleLine_timestamp, singleLine_toString_int, ht, h, h1, h2,
    h3, h4, Bool.and_self]

theorem line_length_pos (c : Channel) (a : Append) : 0 < (c.line a).length := by
  unfold Channel.line formatLogLine
  simp only [String.length_append]
  have h1 : ("[" : String).length = 1 := rfl
  rw [h1]
  omega

theorem line_ne_empty (c : Channel) (a : Append) : c.line a ≠ "" := by
  intro h
  have hl := line_length_pos c a
  rw [h] at hl
  exact absurd hl (by decide)

theorem Mirrored_appendAll (c : Channel) (as : List Append)
    (h : ∀ a ∈ as, a.fsys.succeeds = true ∧ singleLine a.message = true) :
    (c.appendAll as {}).Mirrored := by
  induction as using List.reverseRecOn with
  | nil => exact Mirrored_fresh
  | append_singleton as a ih =>
    rw [Channel.appendAll_snoc]
    have ha := h a (List.mem_append_right _ (List.mem_singleton_self _))
    exact Mirrored_write c a _ (ih (fun x hx => h x (List.mem_append_left _ hx))) ha.1
      (singleLine_line c a ha.2) (line_ne_empty c a)

/-- One append to a fresh channel, both writes succeeding: each file holds the
formatted line and a newline, whatever the message. -/
theorem first_append_files (m : String) :
    (Channel.actions.appendAll [sampleAppendOf m] {}).files.primary
        = "[2025-01-02 03:04:05.006] [log] [info] [plugin.cpp:1248] " ++ m ++ "\n"
      ∧ (Channel.actions.appendAll [sampleAppendOf m] {}).files.secondary
        = "[2025-01-02 03:04:05.006] [log] [info] [plugin.cpp:1248] " ++ m ++ "\n"
      ∧ (Channel.actions.appendAll [sampleAppendOf m] {}).lines
        = ["[2025-01-02 03:04:05.006] [log] [info] [plugin.cpp:1248] " ++ m] := by
  have hline : Channel.actions.line (sampleAppendOf m)
      = "[2025-01-02 03:04:05.006] [log] [info] [plugin.cpp:1248] " ++ m := by
    show formatLogLine "log" sampleAppend.clock m 1248 = _
    unfold formatLogLine
    have hp : "[" ++ timestampWithMillis sampleAppend.clock ++ "] " ++ "[" ++ "log"
        ++ "] [info] " ++ "[plugin.cpp:" ++ toString (1248 : Int) ++ "] "
        = "[2025-01-02 03:04:05.006] [log] [info] [plugin.cpp:1248] " := by decide
    rw [hp]
  have hw : Channel.actions.appendAll [sampleAppendOf m] {}
      = Channel.actions.write (sampleAppendOf m) {} := rfl
  have hempty : ∀ s : String, ("" : String) ++ s = s := by
    intro s
    apply String.ext
    simp
  have hfiles := Channel.write_files Channel.actions (sampleAppendOf m) {}
  have hc : compacts ({} : LogChannel) = false := by decide
  rw [hc] at hfiles
  simp only [Bool.false_eq_true, if_false] at hfiles
  have hlines := Channel.write_lines Channel.actions (sampleAppendOf m) {}
  rw [hw, hfiles, hline]
  refine ⟨?_, ?_, ?_⟩
  · show writeDestination DualOutcome.ok.primary _ OpenMode.app "" = _
    rw [writeDestination_ok _ _ _ _ rfl rfl]
    show "" ++ _ ++ "\n" = _
    rw [hempty]
  · show writeDestination DualOutcome.ok.secondary _ OpenMode.app "" = _
    rw [writeDestination_ok _ _ _ _ rfl rfl]
    show "" ++ _ ++ "\n" = _
    rw [hempty]
  · rw [hlines, hline]
    rfl

/-- One append of a message of 2500 lines leaves 2500 non-empty lines in the
file. -/
theorem many_lines_in_file :
    (nonEmptyLines
        (Channel.actions.appendAll [sampleAppendOf manyLinesMessage] {}).files.primary).length
      = 2500 := by
  have hx : ∀ x ∈ ("[2025-01-02 03:04:05.006] [log] [info] [plugin.cpp:1248] " ++ "x")
      :: (List.replicate 2498 "x" ++ ["x"]),
      x = "[2025-01-02 03:04:05.006] [log] [info] [plugin.cpp:1248] " ++ "x" ∨ x = "x" := by
    intro x hm
    rcases List.mem_cons.mp hm with h | h
    · exact Or.inl h
    · rcases List.mem_append.mp h with h | h
      · exact Or.inr (List.eq_of_mem_replicate h)
      · exact Or.inr (List.mem_singleton.mp h)
  have hsingle : ∀ x ∈ ("[2025-01-02 03:04:05.006] [log] [info] [plugin.cpp:1248] " ++ "x")
      :: (List.replicate 2498 "x" ++ ["x"]), singleLine x = true := by
    intro x hm
    rcases hx x hm with h | h <;> rw [h] <;> decide
  have hne : ∀ x ∈ ("[2025-01-02 03:04:05.006] [log] [info] [plugin.cpp:1248] " ++ "x")
      :: (List.replicate 2498 "x" ++ ["x"]), x ≠ "" := by
    intro x hm
    rcases hx x hm with h | h <;> rw [h] <;> decide
  have e : "[2025-01-02 03:04:05.006] [log] [info] [plugin.cpp:1248] " ++ manyLinesMessage
        ++ "\n"
      = bulkContent (("[2025-01-02 03:04:05.006] [log] [info] [plugin.cpp:1248] " ++ "x")
          :: (List.replicate 2498 "x" ++ ["x"])) := by
    rw [bulkContent_cons, bulkContent_append, bulkContent_singleton]
    unfold manyLinesMessage
    have h1 : ("x\n" : String) = "x" ++ "\n" := by decide
    rw [h1]
    simp only [String.append_assoc]
  rw [(first_append_files manyLinesMessage).1, e, nonEmptyLines_bulkContent _ hsingle,
    filter_nonempty_of_all _ hne]
  simp only [List.length_cons, List.length_append, List.length_replicate, List.length_nil]

/-- C28, counterexample. One append of a message that holds a line break, both
writes succeeding: the buffer holds one entry, the text with its line break,
while each file holds two non-empty lines; the non-empty lines of the file do
not end with the lines of the buffer. And one append of a message of 2500
lines leaves more than 2499 non-empty lines in the file. -/
theorem line_break_splits_file_line :
    twoLineAppend.fsys.succeeds = true
      ∧ (Channel.actions.appendAll [twoLineAppend] {}).lines
        = ["[2025-01-02 03:04:05.006] [log] [info] [plugin.cpp:1248] first\nsecond"]
      ∧ nonEmptyLines (Channel.actions.appendAll [twoLineAppend] {}).files.primary
        = ["[2025-01-02 03:04:05.006] [log] [info] [plugin.cpp:1248] first", "second"]
      ∧ nonEmptyLines (Channel.actions.appendAll [twoLineAppend] {}).files.secondary
        = ["[2025-01-02 03:04:05.006] [log] [info] [plugin.cpp:1248] first", "second"]
      ∧ (¬ ∃ pre, nonEmptyLines (Channel.actions.appendAll [twoLineAppend] {}).files.primary
          = pre ++ (Channel.actions.appendAll [twoLineAppend] {}).lines)
      ∧ (sampleAppendOf manyLinesMessage).fsys.succeeds = true
      ∧ 2499 < (nonEmptyLines
          (Channel.actions.appendAll [sampleAppendOf manyLinesMessage] {}).files.primary).length
      := by
  have h1 : (Channel.actions.appendAll [twoLineAppend] {}).lines
      = ["[2025-01-02 03:04:05.006] [log] [info] [plugin.cpp:1248] first\nsecond"] := by
    decide
  have h2 : nonEmptyLines (Channel.actions.appendAll [twoLineAppend] {}).files.primary
      = ["[2025-01-02 03:04:05.006] [log] [info] [plugin.cpp:1248] first", "second"] := by
    decide
  have h3 : nonEmptyLines (Channel.actions.appendAll [twoLineAppend] {}).files.secondary
      = ["[2025-01-02 03:04:05.006] [log] [info] [plugin.cpp:1248] first", "second"] := by
    decide
  refine ⟨by decide, h1, h2, h3, ?_, rfl, ?_⟩
  · rintro ⟨pre, h⟩
    rw [h1, h2] at h
    have hl := congrArg List.getLast? h
    rw [List.getLast?_append] at hl
    revert hl
    simp
  · rw [many_lines_in_file]
    omega

/-- C28, as amended. A channel starts with empty files and an empty buffer;
every append is written successfully to both destinations and carries a
message without a line break. Then after any number of appends the non-empty
lines of each file end with exactly the buffered lines, in order, and neither
file holds more than 2499 non-empty lines. -/
theorem file_tail_is_buffer (c : Channel) (as : List Append)
    (h : ∀ a ∈ as, a.fsys.succeeds = true ∧ singleLine a.message = true) :
    (∃ pre, nonEmptyLines (c.appendAll as {}).files.primary = pre ++ (c.appendAll as {}).lines
        ∧ nonEmptyLines (c.appendAll as {}).files.secondary
            = pre ++ (c.appendAll as {}).lines)
      ∧ (nonEmptyLines (c.appendAll as {}).files.primary).length ≤ 2499
      ∧ (nonEmptyLines (c.appendAll as {}).files.secondary).length ≤ 2499 := by
  obtain ⟨xs, pre, hp, hs, hsingle, hfilter, hlen, -, hcount⟩ := Mirrored_appendAll c as h
  have e1 : nonEmptyLines (c.appendAll as {}).files.primary = pre ++ (c.appendAll as {}).lines := by
    rw [hp, nonEmptyLines_bulkContent xs hsingle, hfilter]
  have e2 : nonEmptyLines (c.appendAll as {}).files.secondary
      = pre ++ (c.appendAll as {}).lines := by
    rw [hs, nonEmptyLines_bulkContent xs hsingle, hfilter]
  refine ⟨⟨pre, e1, e2⟩, ?_, ?_⟩
  · rw [e1, hlen]
    exact hcount
  · rw [e2, hlen]
    exact hcount

theorem file_tail_is_buffer_witness :
    (∀ a ∈ List.replicate 2500 sampleAppend,
        a.fsys.succeeds = true ∧ singleLine a.message = true)
      ∧ ((∃ pre, nonEmptyLines
              (Channel.actions.appendAll (List.replicate 2500 sampleAppend) {}).files.primary
            = pre ++ (Channel.actions.appendAll (List.replicate 2500 sampleAppend) {}).lines
          ∧ nonEmptyLines
              (Channel.actions.appendAll (List.replicate 2500 sampleAppend) {}).files.secondary
            = pre ++ (Channel.actions.appendAll (List.replicate 2500 sampleAppend) {}).lines)
        ∧ (nonEmptyLines
            (Channel.actions.appendAll (List.replicate 2500 sampleAppend) {}).files.primary).length
          ≤ 2499
        ∧ (nonEmptyLines
            (Channel.actions.appendAll (List.replicate 2500 sampleAppend) {}).files.secondary).length
          ≤ 2499) :=
  have h : ∀ a ∈ List.replicate 2500 sampleAppend,
      a.fsys.succeeds = true ∧ singleLine a.message = true := by
    intro a ha
    rw [List.eq_of_mem_replicate ha]
    exact ⟨by decide, by decide⟩
  ⟨h, file_tail_is_buffer Channel.actions (List.replicate 2500 sampleAppend) h⟩

/-! ## C29: which files make the load fail -/

/-- What `std::stoi` accepts: a value that begins, after white space and an
optional sign, with decimal digits whose number fits an `int`; the text after
the digits is ignored. -/
theorem stoi_examples :
    stoi "21" = Except.ok 21
      ∧ stoi "12abc" = Except.ok 12
      ∧ stoi "-2147483648" = Except.ok (-2147483648)
      ∧ stoi "abc" = Except.error StoError.invalidArgument
      ∧ stoi "" = Except.error StoError.invalidArgument
      ∧ stoi "2147483648" = Except.error StoError.outOfRange := by
  refine ⟨?_, ?_, ?_, ?_, ?_, ?_⟩ <;> rfl

/-- The same key outside its section is no assignment of the field and is
read without an exception. -/
theorem stage_key_outside_quest_section :
    rejectedLine sampleStof "Item" "TriggerStage=abc" = false
      ∧ (LoadConfiguration sampleStof
          { ini := { content := some "[Item]\nTriggerStage=abc\n" } }).2 = Except.ok true := by
  exact ⟨by decide, rfl⟩

/-! ## C30: the FormID built from the mod index and the local identifier -/

theorem formID_bits (m n : Nat) (hm : m < 256) :
    ((m <<< 24) % 4294967296) ||| ((n % 4294967296) &&& 0x00FFFFFF)
      = m * 16777216 + n % 16777216 := by
  have h1 : m <<< 24 = 16777216 * m := by
    rw [Nat.shiftLeft_eq]
    omega
  have h2 : (n % 4294967296) &&& 0x00FFFFFF = n % 16777216 := by
    have := Nat.and_pow_two_sub_one_eq_mod (n % 4294967296) 24
    norm_num at this
    rw [this]
  have h3 : 16777216 * m + n % 16777216 = 16777216 * m ||| n % 16777216 := by
    have := Nat.mul_add_lt_is_or (show n % 16777216 < 2 ^ 24 by omega) m
    norm_num at this
    exact this
  rw [h1, h2, Nat.mod_eq_of_lt (by omega), ← h3]
  omega

theorem modIndexOf_lt (file : TESFile) : modIndexOf file < 256 := by
  unfold modIndexOf
  simp only []
  split <;> omega

theorem modIndexOf_eq (file : TESFile) (hc : file.compileIndex < 256) :
    modIndexOf file = effectiveModIndex file % 256 := by
  unfold modIndexOf effectiveModIndex
  simp only [Nat.mod_eq_of_lt hc]
  split <;> omega

/-- The value `GetFormIDFromPlugin` returns for a loaded plugin and a local
identifier that `std::stoul` converts. -/
theorem GetFormIDFromPlugin_loaded (stoul : String → Except StoError Nat)
    (lookup : String → Option TESFile) (pluginName localFormID : String) (file : TESFile)
    (n : Nat) (hf : lookup pluginName = some file)
    (hp : stoul (cleanID localFormID) = Except.ok n) :
    GetFormIDFromPlugin stoul (some lookup) pluginName localFormID
      = modIndexOf file * 16777216 + n % 16777216 := by
  unfold GetFormIDFromPlugin
  simp only [hf, hp]
  exact formID_bits _ _ (modIndexOf_lt file)

theorem GetFormIDFromPlugin_not_loaded (stoul : String → Except StoError Nat)
    (lookup : String → Option TESFile) (pluginName localFormID : String)
    (hf : lookup pluginName = none) :
    GetFormIDFromPlugin stoul (some lookup) pluginName localFormID = 0 := by
  unfold GetFormIDFromPlugin
  simp only [hf]

theorem GetFormIDFromPlugin_unparsed (stoul : String → Except StoError Nat)
    (dataHandler : Option (String → Option TESFile)) (pluginName localFormID : String)
    (e : StoError) (hp : stoul (cleanID localFormID) = Except.error e) :
    GetFormIDFromPlugin stoul dataHandler pluginName localFormID = 0 := by
  cases dataHandler with
  | none => rfl
  | some lookup =>
    cases hf : lookup pluginName with
    | none => exact GetFormIDFromPlugin_not_loaded stoul lookup pluginName localFormID hf
    | some file =>
      unfold GetFormIDFromPlugin
      simp only [hf, hp]

/-- A lookup that returns 0 leaves the item unresolved. -/
theorem resolveItem_zero (cfg : PluginConfig) (env : Env) (w : World)
    (h0 : env.formIDFromPlugin cfg.item.itemPlugin cfg.item.itemID = 0)
    (hw : w.g_cachedFormIDs.itemResolved = false) :
    (ResolveFormIDs cfg env w).g_cachedFormIDs.itemResolved = false := by
  rw [cached_ResolveFormIDs, resolve_itemResolved, hw, h0]
  simp

/-- What the model of `std::stoul` in base 16 makes of some texts. -/
theorem stoul16_examples :
    stoul16 "625C7C" = Except.ok 0x625C7C
      ∧ stoul16 "0x1F" = Except.ok 31
      ∧ stoul16 "12G" = Except.ok 0x12
      ∧ stoul16 "-1" = Except.ok 4294967295
      ∧ stoul16 "zz" = Except.error StoError.invalidArgument
      ∧ stoul16 "" = Except.error StoError.invalidArgument
      ∧ stoul16 "100000000" = Except.error StoError.outOfRange
      ∧ cleanID "XX000800" = "000800"
      ∧ cleanID "XXXX12" = "XX12"
      ∧ cleanID "xx12" = "xx12" := by
  refine ⟨?_, ?_, ?_, ?_, ?_, ?_, ?_, ?_, ?_, ?_⟩ <;> rfl

/-- A light plugin whose index in the light load order is `0x1A4`: the
assignment to the `uint8_t` keeps `0xA4`, so the top eight bits of the result
are not the effective mod index; and with index `0x100` and local identifier 0
the result is 0 although the index is not 0. -/
theorem light_index_above_255_is_cut :
    sampleLoadOrder "Light.esl" = some { compileIndex := 0xFF, smallFileCompileIndex := 0x1A4 }
      ∧ effectiveModIndex { compileIndex := 0xFF, smallFileCompileIndex := 0x1A4 } = 0x1A4
      ∧ stoul16 (cleanID "XX000800") = Except.ok 0x800
      ∧ GetFormIDFromPlugin stoul16 (some sampleLoadOrder) "Light.esl" "XX000800" = 0xA4000800
      ∧ GetFormIDFromPlugin stoul16 (some sampleLoadOrder) "Light.esl" "XX000800" / 16777216
        ≠ effectiveModIndex { compileIndex := 0xFF, smallFileCompileIndex := 0x1A4 }
      ∧ GetFormIDFromPlugin stoul16
          (some (fun _ => some { compileIndex := 0xFF, smallFileCompileIndex := 0x100 }))
          "Light.esl" "000000" = 0 := by
  refine ⟨rfl, rfl, rfl, rfl, ?_, rfl⟩
  decide

/-- C30. `GetFormIDFromPlugin` for a plugin that `LookupModByName` finds, with
effective mod index `m`, and a local identifier that `std::stoul` in base 16
converts to `n` after one leading `XX` is removed: the result is a 32-bit
value whose low 24 bits are `n mod 2^24` and whose top 8 bits are `m mod 256`,
which is `m` when `m` is below 256; it is 0 exactly when `m mod 256 = 0` and
`n mod 2^24 = 0`. Without a data handler, for a plugin that is not loaded, and
when `std::stoul` throws, the result is 0. `ResolveFormIDs` takes the result 0
for a failed lookup and leaves the item unresolved. -/
theorem form_id_layout (stoul : String → Except StoError Nat)
    (lookup : String → Option TESFile) (pluginName localFormID : String) :
    (∀ file n, lookup pluginName = some file → file.compileIndex < 256 →
        stoul (cleanID localFormID) = Except.ok n →
        GetFormIDFromPlugin stoul (some lookup) pluginName localFormID < 4294967296
          ∧ GetFormIDFromPlugin stoul (some lookup) pluginName localFormID / 16777216
            = effectiveModIndex file % 256
          ∧ GetFormIDFromPlugin stoul (some lookup) pluginName localFormID % 16777216
            = n % 16777216
          ∧ (effectiveModIndex file < 256 →
            GetFormIDFromPlugin stoul (some lookup) pluginName localFormID / 16777216
              = effectiveModIndex file)
          ∧ (GetFormIDFromPlugin stoul (some lookup) pluginName localFormID = 0
            ↔ effectiveModIndex file % 256 = 0 ∧ n % 16777216 = 0))
      ∧ GetFormIDFromPlugin stoul none pluginName localFormID = 0
      ∧ (lookup pluginName = none →
        GetFormIDFromPlugin stoul (some lookup) pluginName localFormID = 0)
      ∧ (∀ e dataHandler, stoul (cleanID localFormID) = Except.error e →
        GetFormIDFromPlugin stoul dataHandler pluginName localFormID = 0)
      ∧ (∀ (dataHandler : Option (String → Option TESFile)) (cfg : PluginConfig) (env : Env)
          (w : World),
        GetFormIDFromPlugin stoul dataHandler cfg.item.itemPlugin cfg.item.itemID = 0 →
        w.g_cachedFormIDs.itemResolved = false →
        (ResolveFormIDs cfg { env with formIDFromPlugin := GetFormIDFromPlugin stoul dataHandler }
          w).g_cachedFormIDs.itemResolved = false) := by
  refine ⟨?_, rfl, GetFormIDFromPlugin_not_loaded stoul lookup pluginName localFormID, ?_, ?_⟩
  · intro file n hf hc hp
    rw [GetFormIDFromPlugin_loaded stoul lookup pluginName localFormID file n hf hp,
      modIndexOf_eq file hc]
    have hm : effectiveModIndex file % 256 < 256 := Nat.mod_lt _ (by decide)
    have hn : n % 16777216 < 16777216 := Nat.mod_lt _ (by decide)
    refine ⟨by omega, by omega, by omega, ?_, by omega⟩
    intro hlt
    omega
  · intro e dataHandler hp
    exact GetFormIDFromPlugin_unparsed stoul dataHandler pluginName localFormID e hp
  · intro dataHandler cfg env w h0 hw
    exact resolveItem_zero cfg _ w h0 hw

theorem form_id_layout_witness :
    GetFormIDFromPlugin stoul16 (some sampleLoadOrder) "YurianaWench.esp" "625C7C" / 16777216
        = 0x0A
      ∧ GetFormIDFromPlugin stoul16 (some sampleLoadOrder) "YurianaWench.esp" "625C7C" % 16777216
        = 0x625C7C
      ∧ GetFormIDFromPlugin stoul16 (some sampleLoadOrder) "Skyrim.esm" "XX000000" = 0
      ∧ GetFormIDFromPlugin stoul16 (some sampleLoadOrder) "Absent.esp" "625C7C" = 0
      ∧ GetFormIDFromPlugin stoul16 (some sampleLoadOrder) "YurianaWench.esp" "zz" = 0 :=
  have h := (form_id_layout stoul16 sampleLoadOrder "YurianaWench.esp" "625C7C").1
    { compileIndex := 0x0A, smallFileCompileIndex := 0 } 0x625C7C rfl (by decide) rfl
  ⟨h.2.2.2.1 (by decide), h.2.2.1,
    ((form_id_layout stoul16 sampleLoadOrder "Skyrim.esm" "XX000000").1
      { compileIndex := 0, smallFileCompileIndex := 0 } 0 rfl (by decide) rfl).2.2.2.2.mpr
      ⟨rfl, rfl⟩,
    (form_id_layout stoul16 sampleLoadOrder "Absent.esp" "625C7C").2.2.1 rfl,
    (form_id_layout stoul16 sampleLoadOrder "YurianaWench.esp" "zz").2.2.2.1
      StoError.invalidArgument (some sampleLoadOrder) rfl⟩

end BWY
